import Mathlib

/-!
Verification development for the LPM routing-lookup engines of this
repository: the PATRICIA/radix backend (BSDIPLookup / BSDIP6Lookup), the
DIR-24-8 direct-indexed engine (DirectIPLookup) and the DXR engine
(DXRIPLookup).

Sources embedded:
* src/elements/ip/directiplookup.{cc,hh} (DIR-24-8)
* src/elements/ip6/bsdip6lookup.{cc,hh} (radix backend facade, nexthop table)
* src/elements/ip/bsdiplookup.hh, src/elements/ip/dxriplookup.{cc,hh}

The Sklower radix-trie code itself (radix.c) and the IPv4 facade
bsdiplookup.cc are not present under src/; where they decide a claim the
corresponding definition is modelled from the spec and marked as such in
its doc comment.  Machine integers are modelled as Nat with explicit
masking where overflow matters; the big flat arrays (DIR primary and
secondary) are modelled as write logs (newest entry first) over their
constructor-time contents, so that states are first-order data.
-/

namespace Dir

/-- Route of the (spec-modelled) IPv4 radix table: a leaf with host-order
destination address `dst`, prefix length `plen` and nexthop handle `nh`.
The radix-trie source (radix.c) is absent from src/; leaves are modelled
as a list sorted by ascending key, which is the order in which
rnh_walktree_from presents in-chunk leaves to the dir_walk callback.
Leaves of equal key (duplicate-key chains) are not modelled; all
scenarios below use distinct keys. -/
structure Rt4 where
  dst : Nat
  plen : Nat
  nh : Nat
deriving DecidableEq, Repr

/-- Contiguous 32-bit netmask of a prefix length, as a value. -/
def maskOfPlen (p : Nat) : Nat := (0xffffffff >>> (32 - p)) <<< (32 - p)

/-- Last address covered by a route: start | ~mask (32-bit). -/
def rtLast (r : Rt4) : Nat := r.dst ||| (0xffffffff ^^^ maskOfPlen r.plen)

/-- Modelled from the spec: rnh_matchaddr / rn_match (radix.c absent from
src/): longest-prefix match of address `a` among the leaves -- the
covering leaf of maximal prefix length, if any. -/
def rnMatch (trie : List Rt4) (a : Nat) : Option Rt4 :=
  trie.foldl
    (fun acc r =>
      if a &&& maskOfPlen r.plen = r.dst then
        match acc with
        | none => some r
        | some b => if r.plen > b.plen then some r else acc
      else acc)
    none

/-- Read of a write log (newest first): the value of the latest write to
index `i`, or the default `d`. -/
def logGet : List (Nat × Nat) → Nat → Nat → Nat
  | [], _, d => d
  | (k, v) :: rest, i, d => if i = k then v else logGet rest i d

/-- Lookup-table state of DirectIPLookup: `_primary` (2^24 16-bit
entries) and `_secondary` (2^15 blocks of 2^8 16-bit entries) as write
logs over the constructor-time contents, plus `_secondary_free_head` and
`_secondary_used` (directiplookup.hh:136-146). -/
structure DirState where
  primary : List (Nat × Nat)
  secondary : List (Nat × Nat)
  freeHead : Nat
  used : Nat
deriving DecidableEq, Repr

/-- Primary-array read; the constructor fills `_primary` with 0xff bytes
(directiplookup.cc:43). -/
def priRead (s : DirState) (i : Nat) : Nat := logGet s.primary i 0xffff

/-- Constructor-time contents of the secondary array: block `i` holds
`i + 1` in its first slot, linking all 2^15 blocks into a free list
(directiplookup.cc:44-46); every other cell is modelled as 0. -/
def secInit (i : Nat) : Nat := if i % 256 = 0 ∧ i / 256 < 32768 then i / 256 + 1 else 0

/-- Secondary-array read. -/
def secRead (s : DirState) (i : Nat) : Nat := logGet s.secondary i (secInit i)

/-- State at construction time: empty logs, free head 0, no block used
(directiplookup.cc:27-47). -/
def dirInitState : DirState := ⟨[], [], 0, 0⟩

/-- Entry of the preflen-priority stack `_dir_heap` (dir_heap_entry in
directiplookup.hh); `endAddr` is the field named `end` in the source. -/
structure DirHeapEntry where
  start : Nat
  endAddr : Nat
  preflen : Nat
  nexthop : Nat
deriving DecidableEq, Repr

/-- DirectIPLookup::dir_initheap (directiplookup.cc:376-413): longest
match at address `dst`; if none, the pseudo-entry covering the whole
address space with nexthop 0. -/
def dirInitheap (trie : List Rt4) (dst : Nat) : DirHeapEntry :=
  match rnMatch trie (dst % 2 ^ 32) with
  | some r => ⟨r.dst, rtLast r, r.plen, r.nh⟩
  | none => ⟨0, 0xffffffff, 0, 0⟩

/-- DirectIPLookup::dir_heap_inject (directiplookup.cc:158-188).  The
stack is modelled as a list whose head is the top
(`_dir_heap[_heap_index]`); the new entry is inserted below every entry
of strictly greater preflen.  On equal preflen the source asserts the
heap is the unchanged singleton and returns without modification. -/
def dirHeapInject (e : DirHeapEntry) : List DirHeapEntry → List DirHeapEntry
  | [] => [e]
  | t :: rest =>
    if e.preflen > t.preflen then e :: t :: rest
    else if e.preflen < t.preflen then t :: dirHeapInject e rest
    else t :: rest

/-- State threaded through the chunk walk: the preflen stack (head = top)
and the fragment buffer `_range_buf[0.._range_fragments]` in reverse
(head = the fragment `fp` currently points at). -/
structure DirWalkSt where
  heap : List DirHeapEntry
  frags : List (Nat × Nat)
deriving DecidableEq, Repr

/-- Pop loop of DirectIPLookup::dir_walk (directiplookup.cc:228-242):
while `start` is beyond the top entry's end, pop the stack (re-running
dir_initheap at end+1 when the stack would become empty) and emit a
fragment when the exposed cover extends further with a different
nexthop. -/
def dirPopLoop (trie : List Rt4) (start : Nat) : Nat → DirWalkSt → DirWalkSt
  | 0, st => st
  | fuel + 1, st =>
    match st.heap with
    | [] => st
    | top :: rest =>
      if start > top.endAddr then
        let oend := top.endAddr
        let heap' := if rest.isEmpty then [dirInitheap trie ((oend + 1) % 2 ^ 32)] else rest
        let newTop := heap'.headD top
        let frags' :=
          if newTop.endAddr > oend ∧ newTop.nexthop ≠ (st.frags.headD (0, 0)).2 then
            ((oend + 1) % 2 ^ 32, newTop.nexthop) :: st.frags
          else st.frags
        dirPopLoop trie start fuel ⟨heap', frags'⟩
      else st

/-- DirectIPLookup::dir_walk (directiplookup.cc:191-258) for one visited
leaf; the Bool is true when the walk stops (callback returned -1). -/
def dirWalkStep (trie : List Rt4) (chunk : Nat) (st : DirWalkSt) (r : Rt4) :
    DirWalkSt × Bool :=
  let first := chunk <<< 16
  let last := first ||| 0xffff
  let start := r.dst
  let endA := rtLast r
  let nh := r.nh
  if start > last then (st, true)
  else if start < first then (st, false)
  else
    match st.heap with
    | [] => (st, false)
    | top :: _ =>
      if start = top.start then
        ({ st with heap := dirHeapInject ⟨start, endA, r.plen, nh⟩ st.heap }, false)
      else if start < top.start then
        (st, false)
      else
        let st1 := dirPopLoop trie start 4096 st
        let cur := st1.frags.headD (0, 0)
        let frags' :=
          if start > cur.1 ∧ nh ≠ cur.2 then
            (start, nh) :: st1.frags
          else
            match st1.frags with
            | c :: p :: rest =>
              if p.2 = nh then p :: rest else (c.1, nh) :: p :: rest
            | c :: [] => [(c.1, nh)]
            | [] => []
        ({ heap := dirHeapInject ⟨start, endA, r.plen, nh⟩ st1.heap, frags := frags' }, false)

/-- Walk over the trie leaves in ascending key order, as
rnh_walktree_from presents them to dir_walk_trampoline; stops when the
callback signals the end of the chunk. -/
def dirWalkAll (trie : List Rt4) (chunk : Nat) : List Rt4 → DirWalkSt → DirWalkSt
  | [], st => st
  | r :: rs, st =>
    let (st', stop) := dirWalkStep trie chunk st r
    if stop then st' else dirWalkAll trie chunk rs st'

/-- Flush of the remaining stack entries after the walk
(DirectIPLookup::update_chunk, directiplookup.cc:288-308). -/
def dirFlushHeap (trie : List Rt4) (chunk : Nat) : Nat → DirWalkSt → DirWalkSt
  | 0, st => st
  | fuel + 1, st =>
    let last := (chunk <<< 16) ||| 0xffff
    match st.heap with
    | [] => st
    | top :: rest =>
      if top.preflen > 16 then
        let oend := top.endAddr
        let heap' := if rest.isEmpty then [dirInitheap trie ((oend + 1) % 2 ^ 32)] else rest
        let newTop := heap'.headD top
        if newTop.endAddr > oend ∧ newTop.nexthop ≠ (st.frags.headD (0, 0)).2 then
          if oend ≥ last then ⟨heap', st.frags⟩
          else
            dirFlushHeap trie chunk fuel
              ⟨heap', ((oend + 1) % 2 ^ 32, newTop.nexthop) :: st.frags⟩
        else dirFlushHeap trie chunk fuel ⟨heap', st.frags⟩
      else st

/-- Release of the secondary blocks previously used by a chunk
(DirectIPLookup::update_chunk, directiplookup.cc:310-319), one primary
entry `i` of the chunk.  Note the source writes the free-list link at
`_secondary[i << SECONDARY_BITS]` -- indexed by the primary index `i`,
not by the freed block `nh`. -/
def dirReleaseStep (s : DirState) (i : Nat) : DirState :=
  let nh := priRead s i
  if nh &&& 0x8000 = 0 then
    { s with
      secondary := (i <<< 8, s.freeHead) :: s.secondary
      freeHead := nh
      used := s.used - 1 }
  else s

/-- Release loop over the 256 primary entries of a /16 chunk. -/
def dirRelease (chunk : Nat) (s : DirState) : DirState :=
  (List.range 256).foldl (fun s j => dirReleaseStep s (chunk * 256 + j)) s

/-- Fill loop for one fragment range [first, last) inside
DirectIPLookup::update_chunk (directiplookup.cc:326-351): direct /24
entries (`nh ^ 0xffff`), secondary-block allocation from the free list,
and per-address secondary fills.  Returns the final cursor and state. -/
def dirFillLoop (last nh : Nat) : Nat → Nat → DirState → Nat × DirState
  | 0, first, s => (first, s)
  | fuel + 1, first, s =>
    if first < last then
      if first &&& 0xff = 0 ∧ (last &&& 0xff = 0 ∨ (first ^^^ last) >>> 8 ≠ 0) then
        dirFillLoop last nh fuel (first + 256)
          { s with primary := (first >>> 8, nh ^^^ 0xffff) :: s.primary }
      else if first &&& 0xff = 0 then
        let b := s.freeHead
        let s' :=
          { s with
            primary := (first >>> 8, b) :: s.primary
            freeHead := secRead s (b <<< 8)
            used := s.used + 1 }
        dirFillLoop last nh fuel (first + 1)
          { s' with secondary := (b <<< 8, nh) :: s'.secondary }
      else
        dirFillLoop last nh fuel (first + 1)
          { s with
            secondary := (((priRead s (first >>> 8)) <<< 8) + (first &&& 0xff), nh) :: s.secondary }
    else (first, s)

/-- Loop over the fragments of the chunk (the `for` loop of
directiplookup.cc:324-353): for each further fragment, fill up to its
start, then switch to its nexthop. -/
def dirFragLoop : List (Nat × Nat) → Nat → Nat → DirState → Nat × Nat × DirState
  | [], first, nh, s => (first, nh, s)
  | (fs, fnh) :: rest, first, nh, s =>
    let (first', s') := dirFillLoop fs nh 70000 first s
    dirFragLoop rest first' fnh s'

/-- Trailing loop of DirectIPLookup::update_chunk
(directiplookup.cc:354-369): fill from the cursor while `first < last`,
where `last` is the chunk's final address; increments wrap at 2^32 and
the loop breaks when the cursor wraps to 0. -/
def dirTailLoop (last nh : Nat) : Nat → Nat → DirState → DirState
  | 0, _, s => s
  | fuel + 1, first, s =>
    if first < last then
      if first &&& 0xff = 0 then
        let s' := { s with primary := (first >>> 8, nh ^^^ 0xffff) :: s.primary }
        let f' := (first + 256) % 2 ^ 32
        if f' = 0 then s' else dirTailLoop last nh fuel f' s'
      else
        let s' :=
          { s with
            secondary := (((priRead s (first >>> 8)) <<< 8) + (first &&& 0xff), nh) :: s.secondary }
        let f' := (first + 1) % 2 ^ 32
        if f' = 0 then s' else dirTailLoop last nh fuel f' s'
    else s

/-- Transformation of a chunk's fragment list into primary/secondary
entries, including the release of the chunk's old secondary blocks
(DirectIPLookup::update_chunk, directiplookup.cc:310-369).  `frags` is
the fragment list `_range_buf[0.._range_fragments]` in ascending order,
as pairs (start, nexthop). -/
def dirUpdateFrags (chunk : Nat) (frags : List (Nat × Nat)) (s0 : DirState) : DirState :=
  let s1 := dirRelease chunk s0
  match frags with
  | [] => s1
  | (fs, fnh) :: rest =>
    let (first, nh, s2) := dirFragLoop rest fs fnh s1
    dirTailLoop (chunk * 65536 + 0xffff) nh 70000 first s2

/-- Fragment list produced for a chunk by the walk phase of
DirectIPLookup::update_chunk (directiplookup.cc:262-308): seed the stack
and the first fragment from the longest match at the chunk base, walk the
trie, then flush the stack. -/
def dirChunkFrags (trie : List Rt4) (chunk : Nat) : List (Nat × Nat) :=
  let first := chunk <<< 16
  let e0 := dirInitheap trie first
  let st0 : DirWalkSt := ⟨[e0], [(first, e0.nexthop)]⟩
  let st1 := dirWalkAll trie chunk trie st0
  (dirFlushHeap trie chunk 4096 st1).frags.reverse

/-- DirectIPLookup::update_chunk (directiplookup.cc:262-372) for one /16
chunk: walk the (spec-modelled) radix table, then rewrite the chunk's
primary/secondary entries. -/
def dirUpdateChunk (trie : List Rt4) (chunk : Nat) (s : DirState) : DirState :=
  dirUpdateFrags chunk (dirChunkFrags trie chunk) s

/-- DirectIPLookup::lookup_nexthop (directiplookup.cc:462-470), verbatim:
the reader tests bit 0x1000 of the 16-bit primary entry to distinguish a
direct nexthop from a secondary-block index. -/
def dirLookupNexthop (s : DirState) (dst : Nat) : Nat :=
  let pri := priRead s (dst >>> 8)
  if pri &&& 0x1000 ≠ 0 then pri ^^^ 0xffff
  else secRead s ((pri <<< 8) + (dst &&& 0xff))

/-- Decode of a primary/secondary pair under the tag convention the
writer uses: update_chunk stores direct entries as `nh ^ 0xffff` and its
release loop and the status handler test bit 0x8000
(directiplookup.cc:310-331, 511-513).  This is the mapping of addresses
to handles that the primary/secondary arrays encode. -/
def dirDecode (s : DirState) (dst : Nat) : Nat :=
  let pri := priRead s (dst >>> 8)
  if pri &&& 0x8000 ≠ 0 then pri ^^^ 0xffff
  else secRead s ((pri <<< 8) + (dst &&& 0xff))

/-- Nexthop handle of the fragment of `frags` covering address `a`: the
last fragment whose start is at most `a` (fragment starts ascending). -/
def fragCover (a : Nat) : List (Nat × Nat) → Nat → Nat
  | [], nh => nh
  | f :: rest, nh => if f.1 ≤ a then fragCover a rest f.2 else nh

/-- Modelled from the spec: BSDIPLookup::lookup_nexthop (bsdiplookup.cc
absent from src/): resolve via the radix backend's longest match,
returning the leaf's handle, or 0 (the default-route slot) when no
non-root leaf matches. -/
def bsdLookupNexthop (trie : List Rt4) (a : Nat) : Nat :=
  match rnMatch trie a with
  | some r => r.nh
  | none => 0

/-- Free-list chaining: the list `fl` starts at `h` and each block `b` in
it stores the next element in its first slot, read by `sec (b <<< 8)`. -/
def dirChain (sec : Nat → Nat) : Nat → List Nat → Prop
  | _, [] => True
  | h, b :: rest => b = h ∧ dirChain sec (sec (b <<< 8)) rest

/-- Secondary free-list invariant claimed by the spec: a duplicate-free
list of the 32768 - used unused blocks is chained from
`_secondary_free_head` through the blocks' first slots. -/
def dirFreeInv (s : DirState) : Prop :=
  ∃ fl : List Nat, dirChain (secRead s) s.freeHead fl ∧
    fl.length = 32768 - s.used ∧ fl.Nodup

/-- Concrete pre-state for the free-list claim: the engine after one
update of chunk 1 installed route 0.1.0.128/25 with nexthop 0 below a
default cover of nexthop 0: secondary block 0 serves primary entry 0x100,
its first slot holding the nexthop value 0 written by the fill loop;
blocks 1..32767 are free. -/
def dirStateC7 : DirState := ⟨[(0x100, 0)], [(0, 0)], 1, 1⟩

/-- Routes of the LPM-equivalence counterexample, first batch:
0.0.0.128/25 -> handle 1 and 0.0.1.128/25 -> handle 2. -/
def dirTrie1 : List Rt4 := [⟨0x80, 25, 1⟩, ⟨0x180, 25, 2⟩]

/-- Routes after the second batch: 0.0.1.128/25 removed (its handle 2
freed and immediately recycled) and 0.0.255.128/25 -> handle 2 added. -/
def dirTrie2 : List Rt4 := [⟨0x80, 25, 1⟩, ⟨0xff80, 25, 2⟩]

/-- Fragment lists of the two batches over chunk 0, as produced by the
walk (see dirFrags1_eq, dirFrags2_eq below). -/
def dirFrags1 : List (Nat × Nat) := [(0, 0), (0x80, 1), (0x100, 0), (0x180, 2), (0x200, 0)]

/-- Fragment list of the second batch over chunk 0. -/
def dirFrags2 : List (Nat × Nat) := [(0, 0), (0x80, 1), (0x100, 0), (0xff80, 2)]

/-- Intermediate literal state of the staged DIR chunk rebuilds (see the
stage lemmas below). -/
def dirB11 : DirState where
  primary :=
  [(0,0)]
  secondary :=
  [(127,0),(126,0),(125,0),(124,0),(123,0),(122,0),(121,0),(120,0),(119,0),(118,0),(117,0),(116,0),
  (115,0),(114,0),(113,0),(112,0),(111,0),(110,0),(109,0),(108,0),(107,0),(106,0),(105,0),(104,0),
  (103,0),(102,0),(101,0),(100,0),(99,0),(98,0),(97,0),(96,0),(95,0),(94,0),(93,0),(92,0),(91,0),
  (90,0),(89,0),(88,0),(87,0),(86,0),(85,0),(84,0),(83,0),(82,0),(81,0),(80,0),(79,0),(78,0),
  (77,0),(76,0),(75,0),(74,0),(73,0),(72,0),(71,0),(70,0),(69,0),(68,0),(67,0),(66,0),(65,0),
  (64,0),(63,0),(62,0),(61,0),(60,0),(59,0),(58,0),(57,0),(56,0),(55,0),(54,0),(53,0),(52,0),
  (51,0),(50,0),(49,0),(48,0),(47,0),(46,0),(45,0),(44,0),(43,0),(42,0),(41,0),(40,0),(39,0),
  (38,0),(37,0),(36,0),(35,0),(34,0),(33,0),(32,0),(31,0),(30,0),(29,0),(28,0),(27,0),(26,0),
  (25,0),(24,0),(23,0),(22,0),(21,0),(20,0),(19,0),(18,0),(17,0),(16,0),(15,0),(14,0),(13,0),
  (12,0),(11,0),(10,0),(9,0),(8,0),(7,0),(6,0),(5,0),(4,0),(3,0),(2,0),(1,0),(0,0)]
  freeHead := 1
  used := 1

/-- Intermediate literal state of the staged DIR chunk rebuilds (see the
stage lemmas below). -/
def dirB12 : DirState where
  primary :=
  [(0,0)]
  secondary :=
  [(255,1),(254,1),(253,1),(252,1),(251,1),(250,1),(249,1),(248,1),(247,1),(246,1),(245,1),(244,1),
  (243,1),(242,1),(241,1),(240,1),(239,1),(238,1),(237,1),(236,1),(235,1),(234,1),(233,1),(232,1),
  (231,1),(230,1),(229,1),(228,1),(227,1),(226,1),(225,1),(224,1),(223,1),(222,1),(221,1),(220,1),
  (219,1),(218,1),(217,1),(216,1),(215,1),(214,1),(213,1),(212,1),(211,1),(210,1),(209,1),(208,1),
  (207,1),(206,1),(205,1),(204,1),(203,1),(202,1),(201,1),(200,1),(199,1),(198,1),(197,1),(196,1),
  (195,1),(194,1),(193,1),(192,1),(191,1),(190,1),(189,1),(188,1),(187,1),(186,1),(185,1),(184,1),
  (183,1),(182,1),(181,1),(180,1),(179,1),(178,1),(177,1),(176,1),(175,1),(174,1),(173,1),(172,1),
  (171,1),(170,1),(169,1),(168,1),(167,1),(166,1),(165,1),(164,1),(163,1),(162,1),(161,1),(160,1),
  (159,1),(158,1),(157,1),(156,1),(155,1),(154,1),(153,1),(152,1),(151,1),(150,1),(149,1),(148,1),
  (147,1),(146,1),(145,1),(144,1),(143,1),(142,1),(141,1),(140,1),(139,1),(138,1),(137,1),(136,1),
  (135,1),(134,1),(133,1),(132,1),(131,1),(130,1),(129,1),(128,1),(127,0),(126,0),(125,0),(124,0),
  (123,0),(122,0),(121,0),(120,0),(119,0),(118,0),(117,0),(116,0),(115,0),(114,0),(113,0),(112,0),
  (111,0),(110,0),(109,0),(108,0),(107,0),(106,0),(105,0),(104,0),(103,0),(102,0),(101,0),(100,0),
  (99,0),(98,0),(97,0),(96,0),(95,0),(94,0),(93,0),(92,0),(91,0),(90,0),(89,0),(88,0),(87,0),
  (86,0),(85,0),(84,0),(83,0),(82,0),(81,0),(80,0),(79,0),(78,0),(77,0),(76,0),(75,0),(74,0),
  (73,0),(72,0),(71,0),(70,0),(69,0),(68,0),(67,0),(66,0),(65,0),(64,0),(63,0),(62,0),(61,0),
  (60,0),(59,0),(58,0),(57,0),(56,0),(55,0),(54,0),(53,0),(52,0),(51,0),(50,0),(49,0),(48,0),
  (47,0),(46,0),(45,0),(44,0),(43,0),(42,0),(41,0),(40,0),(39,0),(38,0),(37,0),(36,0),(35,0),
  (34,0),(33,0),(32,0),(31,0),(30,0),(29,0),(28,0),(27,0),(26,0),(25,0),(24,0),(23,0),(22,0),
  (21,0),(20,0),(19,0),(18,0),(17,0),(16,0),(15,0),(14,0),(13,0),(12,0),(11,0),(10,0),(9,0),(8,0),
  (7,0),(6,0),(5,0),(4,0),(3,0),(2,0),(1,0),(0,0)]
  freeHead := 1
  used := 1

/-- Intermediate literal state of the staged DIR chunk rebuilds (see the
stage lemmas below). -/
def dirB13 : DirState where
  primary :=
  [(1,1),(0,0)]
  secondary :=
  [(383,0),(382,0),(381,0),(380,0),(379,0),(378,0),(377,0),(376,0),(375,0),(374,0),(373,0),(372,0),
  (371,0),(370,0),(369,0),(368,0),(367,0),(366,0),(365,0),(364,0),(363,0),(362,0),(361,0),(360,0),
  (359,0),(358,0),(357,0),(356,0),(355,0),(354,0),(353,0),(352,0),(351,0),(350,0),(349,0),(348,0),
  (347,0),(346,0),(345,0),(344,0),(343,0),(342,0),(341,0),(340,0),(339,0),(338,0),(337,0),(336,0),
  (335,0),(334,0),(333,0),(332,0),(331,0),(330,0),(329,0),(328,0),(327,0),(326,0),(325,0),(324,0),
  (323,0),(322,0),(321,0),(320,0),(319,0),(318,0),(317,0),(316,0),(315,0),(314,0),(313,0),(312,0),
  (311,0),(310,0),(309,0),(308,0),(307,0),(306,0),(305,0),(304,0),(303,0),(302,0),(301,0),(300,0),
  (299,0),(298,0),(297,0),(296,0),(295,0),(294,0),(293,0),(292,0),(291,0),(290,0),(289,0),(288,0),
  (287,0),(286,0),(285,0),(284,0),(283,0),(282,0),(281,0),(280,0),(279,0),(278,0),(277,0),(276,0),
  (275,0),(274,0),(273,0),(272,0),(271,0),(270,0),(269,0),(268,0),(267,0),(266,0),(265,0),(264,0),
  (263,0),(262,0),(261,0),(260,0),(259,0),(258,0),(257,0),(256,0),(255,1),(254,1),(253,1),(252,1),
  (251,1),(250,1),(249,1),(248,1),(247,1),(246,1),(245,1),(244,1),(243,1),(242,1),(241,1),(240,1),
  (239,1),(238,1),(237,1),(236,1),(235,1),(234,1),(233,1),(232,1),(231,1),(230,1),(229,1),(228,1),
  (227,1),(226,1),(225,1),(224,1),(223,1),(222,1),(221,1),(220,1),(219,1),(218,1),(217,1),(216,1),
  (215,1),(214,1),(213,1),(212,1),(211,1),(210,1),(209,1),(208,1),(207,1),(206,1),(205,1),(204,1),
  (203,1),(202,1),(201,1),(200,1),(199,1),(198,1),(197,1),(196,1),(195,1),(194,1),(193,1),(192,1),
  (191,1),(190,1),(189,1),(188,1),(187,1),(186,1),(185,1),(184,1),(183,1),(182,1),(181,1),(180,1),
  (179,1),(178,1),(177,1),(176,1),(175,1),(174,1),(173,1),(172,1),(171,1),(170,1),(169,1),(168,1),
  (167,1),(166,1),(165,1),(164,1),(163,1),(162,1),(161,1),(160,1),(159,1),(158,1),(157,1),(156,1),
  (155,1),(154,1),(153,1),(152,1),(151,1),(150,1),(149,1),(148,1),(147,1),(146,1),(145,1),(144,1),
  (143,1),(142,1),(141,1),(140,1),(139,1),(138,1),(137,1),(136,1),(135,1),(134,1),(133,1),(132,1),
  (131,1),(130,1),(129,1),(128,1),(127,0),(126,0),(125,0),(124,0),(123,0),(122,0),(121,0),(120,0),
  (119,0),(118,0),(117,0),(116,0),(115,0),(114,0),(113,0),(112,0),(111,0),(110,0),(109,0),(108,0),
  (107,0),(106,0),(105,0),(104,0),(103,0),(102,0),(101,0),(100,0),(99,0),(98,0),(97,0),(96,0),
  (95,0),(94,0),(93,0),(92,0),(91,0),(90,0),(89,0),(88,0),(87,0),(86,0),(85,0),(84,0),(83,0),
  (82,0),(81,0),(80,0),(79,0),(78,0),(77,0),(76,0),(75,0),(74,0),(73,0),(72,0),(71,0),(70,0),
  (69,0),(68,0),(67,0),(66,0),(65,0),(64,0),(63,0),(62,0),(61,0),(60,0),(59,0),(58,0),(57,0),
  (56,0),(55,0),(54,0),(53,0),(52,0),(51,0),(50,0),(49,0),(48,0),(47,0),(46,0),(45,0),(44,0),
  (43,0),(42,0),(41,0),(40,0),(39,0),(38,0),(37,0),(36,0),(35,0),(34,0),(33,0),(32,0),(31,0),
  (30,0),(29,0),(28,0),(27,0),(26,0),(25,0),(24,0),(23,0),(22,0),(21,0),(20,0),(19,0),(18,0),
  (17,0),(16,0),(15,0),(14,0),(13,0),(12,0),(11,0),(10,0),(9,0),(8,0),(7,0),(6,0),(5,0),(4,0),
  (3,0),(2,0),(1,0),(0,0)]
  freeHead := 2
  used := 2

/-- Intermediate literal state of the staged DIR chunk rebuilds (see the
stage lemmas below). -/
def dirB14 : DirState where
  primary :=
  [(1,1),(0,0)]
  secondary :=
  [(511,2),(510,2),(509,2),(508,2),(507,2),(506,2),(505,2),(504,2),(503,2),(502,2),(501,2),(500,2),
  (499,2),(498,2),(497,2),(496,2),(495,2),(494,2),(493,2),(492,2),(491,2),(490,2),(489,2),(488,2),
  (487,2),(486,2),(485,2),(484,2),(483,2),(482,2),(481,2),(480,2),(479,2),(478,2),(477,2),(476,2),
  (475,2),(474,2),(473,2),(472,2),(471,2),(470,2),(469,2),(468,2),(467,2),(466,2),(465,2),(464,2),
  (463,2),(462,2),(461,2),(460,2),(459,2),(458,2),(457,2),(456,2),(455,2),(454,2),(453,2),(452,2),
  (451,2),(450,2),(449,2),(448,2),(447,2),(446,2),(445,2),(444,2),(443,2),(442,2),(441,2),(440,2),
  (439,2),(438,2),(437,2),(436,2),(435,2),(434,2),(433,2),(432,2),(431,2),(430,2),(429,2),(428,2),
  (427,2),(426,2),(425,2),(424,2),(423,2),(422,2),(421,2),(420,2),(419,2),(418,2),(417,2),(416,2),
  (415,2),(414,2),(413,2),(412,2),(411,2),(410,2),(409,2),(408,2),(407,2),(406,2),(405,2),(404,2),
  (403,2),(402,2),(401,2),(400,2),(399,2),(398,2),(397,2),(396,2),(395,2),(394,2),(393,2),(392,2),
  (391,2),(390,2),(389,2),(388,2),(387,2),(386,2),(385,2),(384,2),(383,0),(382,0),(381,0),(380,0),
  (379,0),(378,0),(377,0),(376,0),(375,0),(374,0),(373,0),(372,0),(371,0),(370,0),(369,0),(368,0),
  (367,0),(366,0),(365,0),(364,0),(363,0),(362,0),(361,0),(360,0),(359,0),(358,0),(357,0),(356,0),
  (355,0),(354,0),(353,0),(352,0),(351,0),(350,0),(349,0),(348,0),(347,0),(346,0),(345,0),(344,0),
  (343,0),(342,0),(341,0),(340,0),(339,0),(338,0),(337,0),(336,0),(335,0),(334,0),(333,0),(332,0),
  (331,0),(330,0),(329,0),(328,0),(327,0),(326,0),(325,0),(324,0),(323,0),(322,0),(321,0),(320,0),
  (319,0),(318,0),(317,0),(316,0),(315,0),(314,0),(313,0),(312,0),(311,0),(310,0),(309,0),(308,0),
  (307,0),(306,0),(305,0),(304,0),(303,0),(302,0),(301,0),(300,0),(299,0),(298,0),(297,0),(296,0),
  (295,0),(294,0),(293,0),(292,0),(291,0),(290,0),(289,0),(288,0),(287,0),(286,0),(285,0),(284,0),
  (283,0),(282,0),(281,0),(280,0),(279,0),(278,0),(277,0),(276,0),(275,0),(274,0),(273,0),(272,0),
  (271,0),(270,0),(269,0),(268,0),(267,0),(266,0),(265,0),(264,0),(263,0),(262,0),(261,0),(260,0),
  (259,0),(258,0),(257,0),(256,0),(255,1),(254,1),(253,1),(252,1),(251,1),(250,1),(249,1),(248,1),
  (247,1),(246,1),(245,1),(244,1),(243,1),(242,1),(241,1),(240,1),(239,1),(238,1),(237,1),(236,1),
  (235,1),(234,1),(233,1),(232,1),(231,1),(230,1),(229,1),(228,1),(227,1),(226,1),(225,1),(224,1),
  (223,1),(222,1),(221,1),(220,1),(219,1),(218,1),(217,1),(216,1),(215,1),(214,1),(213,1),(212,1),
  (211,1),(210,1),(209,1),(208,1),(207,1),(206,1),(205,1),(204,1),(203,1),(202,1),(201,1),(200,1),
  (199,1),(198,1),(197,1),(196,1),(195,1),(194,1),(193,1),(192,1),(191,1),(190,1),(189,1),(188,1),
  (187,1),(186,1),(185,1),(184,1),(183,1),(182,1),(181,1),(180,1),(179,1),(178,1),(177,1),(176,1),
  (175,1),(174,1),(173,1),(172,1),(171,1),(170,1),(169,1),(168,1),(167,1),(166,1),(165,1),(164,1),
  (163,1),(162,1),(161,1),(160,1),(159,1),(158,1),(157,1),(156,1),(155,1),(154,1),(153,1),(152,1),
  (151,1),(150,1),(149,1),(148,1),(147,1),(146,1),(145,1),(144,1),(143,1),(142,1),(141,1),(140,1),
  (139,1),(138,1),(137,1),(136,1),(135,1),(134,1),(133,1),(132,1),(131,1),(130,1),(129,1),(128,1),
  (127,0),(126,0),(125,0),(124,0),(123,0),(122,0),(121,0),(120,0),(119,0),(118,0),(117,0),(116,0),
  (115,0),(114,0),(113,0),(112,0),(111,0),(110,0),(109,0),(108,0),(107,0),(106,0),(105,0),(104,0),
  (103,0),(102,0),(101,0),(100,0),(99,0),(98,0),(97,0),(96,0),(95,0),(94,0),(93,0),(92,0),(91,0),
  (90,0),(89,0),(88,0),(87,0),(86,0),(85,0),(84,0),(83,0),(82,0),(81,0),(80,0),(79,0),(78,0),
  (77,0),(76,0),(75,0),(74,0),(73,0),(72,0),(71,0),(70,0),(69,0),(68,0),(67,0),(66,0),(65,0),
  (64,0),(63,0),(62,0),(61,0),(60,0),(59,0),(58,0),(57,0),(56,0),(55,0),(54,0),(53,0),(52,0),
  (51,0),(50,0),(49,0),(48,0),(47,0),(46,0),(45,0),(44,0),(43,0),(42,0),(41,0),(40,0),(39,0),
  (38,0),(37,0),(36,0),(35,0),(34,0),(33,0),(32,0),(31,0),(30,0),(29,0),(28,0),(27,0),(26,0),
  (25,0),(24,0),(23,0),(22,0),(21,0),(20,0),(19,0),(18,0),(17,0),(16,0),(15,0),(14,0),(13,0),
  (12,0),(11,0),(10,0),(9,0),(8,0),(7,0),(6,0),(5,0),(4,0),(3,0),(2,0),(1,0),(0,0)]
  freeHead := 2
  used := 2

/-- Intermediate literal state of the staged DIR chunk rebuilds (see the
stage lemmas below). -/
def dirLit1 : DirState where
  primary :=
  [(255,65535),(254,65535),(253,65535),(252,65535),(251,65535),(250,65535),(249,65535),(248,65535),
  (247,65535),(246,65535),(245,65535),(244,65535),(243,65535),(242,65535),(241,65535),(240,65535),
  (239,65535),(238,65535),(237,65535),(236,65535),(235,65535),(234,65535),(233,65535),(232,65535),
  (231,65535),(230,65535),(229,65535),(228,65535),(227,65535),(226,65535),(225,65535),(224,65535),
  (223,65535),(222,65535),(221,65535),(220,65535),(219,65535),(218,65535),(217,65535),(216,65535),
  (215,65535),(214,65535),(213,65535),(212,65535),(211,65535),(210,65535),(209,65535),(208,65535),
  (207,65535),(206,65535),(205,65535),(204,65535),(203,65535),(202,65535),(201,65535),(200,65535),
  (199,65535),(198,65535),(197,65535),(196,65535),(195,65535),(194,65535),(193,65535),(192,65535),
  (191,65535),(190,65535),(189,65535),(188,65535),(187,65535),(186,65535),(185,65535),(184,65535),
  (183,65535),(182,65535),(181,65535),(180,65535),(179,65535),(178,65535),(177,65535),(176,65535),
  (175,65535),(174,65535),(173,65535),(172,65535),(171,65535),(170,65535),(169,65535),(168,65535),
  (167,65535),(166,65535),(165,65535),(164,65535),(163,65535),(162,65535),(161,65535),(160,65535),
  (159,65535),(158,65535),(157,65535),(156,65535),(155,65535),(154,65535),(153,65535),(152,65535),
  (151,65535),(150,65535),(149,65535),(148,65535),(147,65535),(146,65535),(145,65535),(144,65535),
  (143,65535),(142,65535),(141,65535),(140,65535),(139,65535),(138,65535),(137,65535),(136,65535),
  (135,65535),(134,65535),(133,65535),(132,65535),(131,65535),(130,65535),(129,65535),(128,65535),
  (127,65535),(126,65535),(125,65535),(124,65535),(123,65535),(122,65535),(121,65535),(120,65535),
  (119,65535),(118,65535),(117,65535),(116,65535),(115,65535),(114,65535),(113,65535),(112,65535),
  (111,65535),(110,65535),(109,65535),(108,65535),(107,65535),(106,65535),(105,65535),(104,65535),
  (103,65535),(102,65535),(101,65535),(100,65535),(99,65535),(98,65535),(97,65535),(96,65535),
  (95,65535),(94,65535),(93,65535),(92,65535),(91,65535),(90,65535),(89,65535),(88,65535),
  (87,65535),(86,65535),(85,65535),(84,65535),(83,65535),(82,65535),(81,65535),(80,65535),
  (79,65535),(78,65535),(77,65535),(76,65535),(75,65535),(74,65535),(73,65535),(72,65535),
  (71,65535),(70,65535),(69,65535),(68,65535),(67,65535),(66,65535),(65,65535),(64,65535),
  (63,65535),(62,65535),(61,65535),(60,65535),(59,65535),(58,65535),(57,65535),(56,65535),
  (55,65535),(54,65535),(53,65535),(52,65535),(51,65535),(50,65535),(49,65535),(48,65535),
  (47,65535),(46,65535),(45,65535),(44,65535),(43,65535),(42,65535),(41,65535),(40,65535),
  (39,65535),(38,65535),(37,65535),(36,65535),(35,65535),(34,65535),(33,65535),(32,65535),
  (31,65535),(30,65535),(29,65535),(28,65535),(27,65535),(26,65535),(25,65535),(24,65535),
  (23,65535),(22,65535),(21,65535),(20,65535),(19,65535),(18,65535),(17,65535),(16,65535),
  (15,65535),(14,65535),(13,65535),(12,65535),(11,65535),(10,65535),(9,65535),(8,65535),(7,65535),
  (6,65535),(5,65535),(4,65535),(3,65535),(2,65535),(1,1),(0,0)]
  secondary :=
  [(511,2),(510,2),(509,2),(508,2),(507,2),(506,2),(505,2),(504,2),(503,2),(502,2),(501,2),(500,2),
  (499,2),(498,2),(497,2),(496,2),(495,2),(494,2),(493,2),(492,2),(491,2),(490,2),(489,2),(488,2),
  (487,2),(486,2),(485,2),(484,2),(483,2),(482,2),(481,2),(480,2),(479,2),(478,2),(477,2),(476,2),
  (475,2),(474,2),(473,2),(472,2),(471,2),(470,2),(469,2),(468,2),(467,2),(466,2),(465,2),(464,2),
  (463,2),(462,2),(461,2),(460,2),(459,2),(458,2),(457,2),(456,2),(455,2),(454,2),(453,2),(452,2),
  (451,2),(450,2),(449,2),(448,2),(447,2),(446,2),(445,2),(444,2),(443,2),(442,2),(441,2),(440,2),
  (439,2),(438,2),(437,2),(436,2),(435,2),(434,2),(433,2),(432,2),(431,2),(430,2),(429,2),(428,2),
  (427,2),(426,2),(425,2),(424,2),(423,2),(422,2),(421,2),(420,2),(419,2),(418,2),(417,2),(416,2),
  (415,2),(414,2),(413,2),(412,2),(411,2),(410,2),(409,2),(408,2),(407,2),(406,2),(405,2),(404,2),
  (403,2),(402,2),(401,2),(400,2),(399,2),(398,2),(397,2),(396,2),(395,2),(394,2),(393,2),(392,2),
  (391,2),(390,2),(389,2),(388,2),(387,2),(386,2),(385,2),(384,2),(383,0),(382,0),(381,0),(380,0),
  (379,0),(378,0),(377,0),(376,0),(375,0),(374,0),(373,0),(372,0),(371,0),(370,0),(369,0),(368,0),
  (367,0),(366,0),(365,0),(364,0),(363,0),(362,0),(361,0),(360,0),(359,0),(358,0),(357,0),(356,0),
  (355,0),(354,0),(353,0),(352,0),(351,0),(350,0),(349,0),(348,0),(347,0),(346,0),(345,0),(344,0),
  (343,0),(342,0),(341,0),(340,0),(339,0),(338,0),(337,0),(336,0),(335,0),(334,0),(333,0),(332,0),
  (331,0),(330,0),(329,0),(328,0),(327,0),(326,0),(325,0),(324,0),(323,0),(322,0),(321,0),(320,0),
  (319,0),(318,0),(317,0),(316,0),(315,0),(314,0),(313,0),(312,0),(311,0),(310,0),(309,0),(308,0),
  (307,0),(306,0),(305,0),(304,0),(303,0),(302,0),(301,0),(300,0),(299,0),(298,0),(297,0),(296,0),
  (295,0),(294,0),(293,0),(292,0),(291,0),(290,0),(289,0),(288,0),(287,0),(286,0),(285,0),(284,0),
  (283,0),(282,0),(281,0),(280,0),(279,0),(278,0),(277,0),(276,0),(275,0),(274,0),(273,0),(272,0),
  (271,0),(270,0),(269,0),(268,0),(267,0),(266,0),(265,0),(264,0),(263,0),(262,0),(261,0),(260,0),
  (259,0),(258,0),(257,0),(256,0),(255,1),(254,1),(253,1),(252,1),(251,1),(250,1),(249,1),(248,1),
  (247,1),(246,1),(245,1),(244,1),(243,1),(242,1),(241,1),(240,1),(239,1),(238,1),(237,1),(236,1),
  (235,1),(234,1),(233,1),(232,1),(231,1),(230,1),(229,1),(228,1),(227,1),(226,1),(225,1),(224,1),
  (223,1),(222,1),(221,1),(220,1),(219,1),(218,1),(217,1),(216,1),(215,1),(214,1),(213,1),(212,1),
  (211,1),(210,1),(209,1),(208,1),(207,1),(206,1),(205,1),(204,1),(203,1),(202,1),(201,1),(200,1),
  (199,1),(198,1),(197,1),(196,1),(195,1),(194,1),(193,1),(192,1),(191,1),(190,1),(189,1),(188,1),
  (187,1),(186,1),(185,1),(184,1),(183,1),(182,1),(181,1),(180,1),(179,1),(178,1),(177,1),(176,1),
  (175,1),(174,1),(173,1),(172,1),(171,1),(170,1),(169,1),(168,1),(167,1),(166,1),(165,1),(164,1),
  (163,1),(162,1),(161,1),(160,1),(159,1),(158,1),(157,1),(156,1),(155,1),(154,1),(153,1),(152,1),
  (151,1),(150,1),(149,1),(148,1),(147,1),(146,1),(145,1),(144,1),(143,1),(142,1),(141,1),(140,1),
  (139,1),(138,1),(137,1),(136,1),(135,1),(134,1),(133,1),(132,1),(131,1),(130,1),(129,1),(128,1),
  (127,0),(126,0),(125,0),(124,0),(123,0),(122,0),(121,0),(120,0),(119,0),(118,0),(117,0),(116,0),
  (115,0),(114,0),(113,0),(112,0),(111,0),(110,0),(109,0),(108,0),(107,0),(106,0),(105,0),(104,0),
  (103,0),(102,0),(101,0),(100,0),(99,0),(98,0),(97,0),(96,0),(95,0),(94,0),(93,0),(92,0),(91,0),
  (90,0),(89,0),(88,0),(87,0),(86,0),(85,0),(84,0),(83,0),(82,0),(81,0),(80,0),(79,0),(78,0),
  (77,0),(76,0),(75,0),(74,0),(73,0),(72,0),(71,0),(70,0),(69,0),(68,0),(67,0),(66,0),(65,0),
  (64,0),(63,0),(62,0),(61,0),(60,0),(59,0),(58,0),(57,0),(56,0),(55,0),(54,0),(53,0),(52,0),
  (51,0),(50,0),(49,0),(48,0),(47,0),(46,0),(45,0),(44,0),(43,0),(42,0),(41,0),(40,0),(39,0),
  (38,0),(37,0),(36,0),(35,0),(34,0),(33,0),(32,0),(31,0),(30,0),(29,0),(28,0),(27,0),(26,0),
  (25,0),(24,0),(23,0),(22,0),(21,0),(20,0),(19,0),(18,0),(17,0),(16,0),(15,0),(14,0),(13,0),
  (12,0),(11,0),(10,0),(9,0),(8,0),(7,0),(6,0),(5,0),(4,0),(3,0),(2,0),(1,0),(0,0)]
  freeHead := 2
  used := 2

/-- Intermediate literal state of the staged DIR chunk rebuilds (see the
stage lemmas below). -/
def dirR2 : DirState where
  primary :=
  [(255,65535),(254,65535),(253,65535),(252,65535),(251,65535),(250,65535),(249,65535),(248,65535),
  (247,65535),(246,65535),(245,65535),(244,65535),(243,65535),(242,65535),(241,65535),(240,65535),
  (239,65535),(238,65535),(237,65535),(236,65535),(235,65535),(234,65535),(233,65535),(232,65535),
  (231,65535),(230,65535),(229,65535),(228,65535),(227,65535),(226,65535),(225,65535),(224,65535),
  (223,65535),(222,65535),(221,65535),(220,65535),(219,65535),(218,65535),(217,65535),(216,65535),
  (215,65535),(214,65535),(213,65535),(212,65535),(211,65535),(210,65535),(209,65535),(208,65535),
  (207,65535),(206,65535),(205,65535),(204,65535),(203,65535),(202,65535),(201,65535),(200,65535),
  (199,65535),(198,65535),(197,65535),(196,65535),(195,65535),(194,65535),(193,65535),(192,65535),
  (191,65535),(190,65535),(189,65535),(188,65535),(187,65535),(186,65535),(185,65535),(184,65535),
  (183,65535),(182,65535),(181,65535),(180,65535),(179,65535),(178,65535),(177,65535),(176,65535),
  (175,65535),(174,65535),(173,65535),(172,65535),(171,65535),(170,65535),(169,65535),(168,65535),
  (167,65535),(166,65535),(165,65535),(164,65535),(163,65535),(162,65535),(161,65535),(160,65535),
  (159,65535),(158,65535),(157,65535),(156,65535),(155,65535),(154,65535),(153,65535),(152,65535),
  (151,65535),(150,65535),(149,65535),(148,65535),(147,65535),(146,65535),(145,65535),(144,65535),
  (143,65535),(142,65535),(141,65535),(140,65535),(139,65535),(138,65535),(137,65535),(136,65535),
  (135,65535),(134,65535),(133,65535),(132,65535),(131,65535),(130,65535),(129,65535),(128,65535),
  (127,65535),(126,65535),(125,65535),(124,65535),(123,65535),(122,65535),(121,65535),(120,65535),
  (119,65535),(118,65535),(117,65535),(116,65535),(115,65535),(114,65535),(113,65535),(112,65535),
  (111,65535),(110,65535),(109,65535),(108,65535),(107,65535),(106,65535),(105,65535),(104,65535),
  (103,65535),(102,65535),(101,65535),(100,65535),(99,65535),(98,65535),(97,65535),(96,65535),
  (95,65535),(94,65535),(93,65535),(92,65535),(91,65535),(90,65535),(89,65535),(88,65535),
  (87,65535),(86,65535),(85,65535),(84,65535),(83,65535),(82,65535),(81,65535),(80,65535),
  (79,65535),(78,65535),(77,65535),(76,65535),(75,65535),(74,65535),(73,65535),(72,65535),
  (71,65535),(70,65535),(69,65535),(68,65535),(67,65535),(66,65535),(65,65535),(64,65535),
  (63,65535),(62,65535),(61,65535),(60,65535),(59,65535),(58,65535),(57,65535),(56,65535),
  (55,65535),(54,65535),(53,65535),(52,65535),(51,65535),(50,65535),(49,65535),(48,65535),
  (47,65535),(46,65535),(45,65535),(44,65535),(43,65535),(42,65535),(41,65535),(40,65535),
  (39,65535),(38,65535),(37,65535),(36,65535),(35,65535),(34,65535),(33,65535),(32,65535),
  (31,65535),(30,65535),(29,65535),(28,65535),(27,65535),(26,65535),(25,65535),(24,65535),
  (23,65535),(22,65535),(21,65535),(20,65535),(19,65535),(18,65535),(17,65535),(16,65535),
  (15,65535),(14,65535),(13,65535),(12,65535),(11,65535),(10,65535),(9,65535),(8,65535),(7,65535),
  (6,65535),(5,65535),(4,65535),(3,65535),(2,65535),(1,1),(0,0)]
  secondary :=
  [(256,0),(0,2),(511,2),(510,2),(509,2),(508,2),(507,2),(506,2),(505,2),(504,2),(503,2),(502,2),
  (501,2),(500,2),(499,2),(498,2),(497,2),(496,2),(495,2),(494,2),(493,2),(492,2),(491,2),(490,2),
  (489,2),(488,2),(487,2),(486,2),(485,2),(484,2),(483,2),(482,2),(481,2),(480,2),(479,2),(478,2),
  (477,2),(476,2),(475,2),(474,2),(473,2),(472,2),(471,2),(470,2),(469,2),(468,2),(467,2),(466,2),
  (465,2),(464,2),(463,2),(462,2),(461,2),(460,2),(459,2),(458,2),(457,2),(456,2),(455,2),(454,2),
  (453,2),(452,2),(451,2),(450,2),(449,2),(448,2),(447,2),(446,2),(445,2),(444,2),(443,2),(442,2),
  (441,2),(440,2),(439,2),(438,2),(437,2),(436,2),(435,2),(434,2),(433,2),(432,2),(431,2),(430,2),
  (429,2),(428,2),(427,2),(426,2),(425,2),(424,2),(423,2),(422,2),(421,2),(420,2),(419,2),(418,2),
  (417,2),(416,2),(415,2),(414,2),(413,2),(412,2),(411,2),(410,2),(409,2),(408,2),(407,2),(406,2),
  (405,2),(404,2),(403,2),(402,2),(401,2),(400,2),(399,2),(398,2),(397,2),(396,2),(395,2),(394,2),
  (393,2),(392,2),(391,2),(390,2),(389,2),(388,2),(387,2),(386,2),(385,2),(384,2),(383,0),(382,0),
  (381,0),(380,0),(379,0),(378,0),(377,0),(376,0),(375,0),(374,0),(373,0),(372,0),(371,0),(370,0),
  (369,0),(368,0),(367,0),(366,0),(365,0),(364,0),(363,0),(362,0),(361,0),(360,0),(359,0),(358,0),
  (357,0),(356,0),(355,0),(354,0),(353,0),(352,0),(351,0),(350,0),(349,0),(348,0),(347,0),(346,0),
  (345,0),(344,0),(343,0),(342,0),(341,0),(340,0),(339,0),(338,0),(337,0),(336,0),(335,0),(334,0),
  (333,0),(332,0),(331,0),(330,0),(329,0),(328,0),(327,0),(326,0),(325,0),(324,0),(323,0),(322,0),
  (321,0),(320,0),(319,0),(318,0),(317,0),(316,0),(315,0),(314,0),(313,0),(312,0),(311,0),(310,0),
  (309,0),(308,0),(307,0),(306,0),(305,0),(304,0),(303,0),(302,0),(301,0),(300,0),(299,0),(298,0),
  (297,0),(296,0),(295,0),(294,0),(293,0),(292,0),(291,0),(290,0),(289,0),(288,0),(287,0),(286,0),
  (285,0),(284,0),(283,0),(282,0),(281,0),(280,0),(279,0),(278,0),(277,0),(276,0),(275,0),(274,0),
  (273,0),(272,0),(271,0),(270,0),(269,0),(268,0),(267,0),(266,0),(265,0),(264,0),(263,0),(262,0),
  (261,0),(260,0),(259,0),(258,0),(257,0),(256,0),(255,1),(254,1),(253,1),(252,1),(251,1),(250,1),
  (249,1),(248,1),(247,1),(246,1),(245,1),(244,1),(243,1),(242,1),(241,1),(240,1),(239,1),(238,1),
  (237,1),(236,1),(235,1),(234,1),(233,1),(232,1),(231,1),(230,1),(229,1),(228,1),(227,1),(226,1),
  (225,1),(224,1),(223,1),(222,1),(221,1),(220,1),(219,1),(218,1),(217,1),(216,1),(215,1),(214,1),
  (213,1),(212,1),(211,1),(210,1),(209,1),(208,1),(207,1),(206,1),(205,1),(204,1),(203,1),(202,1),
  (201,1),(200,1),(199,1),(198,1),(197,1),(196,1),(195,1),(194,1),(193,1),(192,1),(191,1),(190,1),
  (189,1),(188,1),(187,1),(186,1),(185,1),(184,1),(183,1),(182,1),(181,1),(180,1),(179,1),(178,1),
  (177,1),(176,1),(175,1),(174,1),(173,1),(172,1),(171,1),(170,1),(169,1),(168,1),(167,1),(166,1),
  (165,1),(164,1),(163,1),(162,1),(161,1),(160,1),(159,1),(158,1),(157,1),(156,1),(155,1),(154,1),
  (153,1),(152,1),(151,1),(150,1),(149,1),(148,1),(147,1),(146,1),(145,1),(144,1),(143,1),(142,1),
  (141,1),(140,1),(139,1),(138,1),(137,1),(136,1),(135,1),(134,1),(133,1),(132,1),(131,1),(130,1),
  (129,1),(128,1),(127,0),(126,0),(125,0),(124,0),(123,0),(122,0),(121,0),(120,0),(119,0),(118,0),
  (117,0),(116,0),(115,0),(114,0),(113,0),(112,0),(111,0),(110,0),(109,0),(108,0),(107,0),(106,0),
  (105,0),(104,0),(103,0),(102,0),(101,0),(100,0),(99,0),(98,0),(97,0),(96,0),(95,0),(94,0),
  (93,0),(92,0),(91,0),(90,0),(89,0),(88,0),(87,0),(86,0),(85,0),(84,0),(83,0),(82,0),(81,0),
  (80,0),(79,0),(78,0),(77,0),(76,0),(75,0),(74,0),(73,0),(72,0),(71,0),(70,0),(69,0),(68,0),
  (67,0),(66,0),(65,0),(64,0),(63,0),(62,0),(61,0),(60,0),(59,0),(58,0),(57,0),(56,0),(55,0),
  (54,0),(53,0),(52,0),(51,0),(50,0),(49,0),(48,0),(47,0),(46,0),(45,0),(44,0),(43,0),(42,0),
  (41,0),(40,0),(39,0),(38,0),(37,0),(36,0),(35,0),(34,0),(33,0),(32,0),(31,0),(30,0),(29,0),
  (28,0),(27,0),(26,0),(25,0),(24,0),(23,0),(22,0),(21,0),(20,0),(19,0),(18,0),(17,0),(16,0),
  (15,0),(14,0),(13,0),(12,0),(11,0),(10,0),(9,0),(8,0),(7,0),(6,0),(5,0),(4,0),(3,0),(2,0),(1,0),
  (0,0)]
  freeHead := 1
  used := 0

/-- Intermediate literal state of the staged DIR chunk rebuilds (see the
stage lemmas below). -/
def dirB21 : DirState where
  primary :=
  [(0,1),(255,65535),(254,65535),(253,65535),(252,65535),(251,65535),(250,65535),(249,65535),
  (248,65535),(247,65535),(246,65535),(245,65535),(244,65535),(243,65535),(242,65535),(241,65535),
  (240,65535),(239,65535),(238,65535),(237,65535),(236,65535),(235,65535),(234,65535),(233,65535),
  (232,65535),(231,65535),(230,65535),(229,65535),(228,65535),(227,65535),(226,65535),(225,65535),
  (224,65535),(223,65535),(222,65535),(221,65535),(220,65535),(219,65535),(218,65535),(217,65535),
  (216,65535),(215,65535),(214,65535),(213,65535),(212,65535),(211,65535),(210,65535),(209,65535),
  (208,65535),(207,65535),(206,65535),(205,65535),(204,65535),(203,65535),(202,65535),(201,65535),
  (200,65535),(199,65535),(198,65535),(197,65535),(196,65535),(195,65535),(194,65535),(193,65535),
  (192,65535),(191,65535),(190,65535),(189,65535),(188,65535),(187,65535),(186,65535),(185,65535),
  (184,65535),(183,65535),(182,65535),(181,65535),(180,65535),(179,65535),(178,65535),(177,65535),
  (176,65535),(175,65535),(174,65535),(173,65535),(172,65535),(171,65535),(170,65535),(169,65535),
  (168,65535),(167,65535),(166,65535),(165,65535),(164,65535),(163,65535),(162,65535),(161,65535),
  (160,65535),(159,65535),(158,65535),(157,65535),(156,65535),(155,65535),(154,65535),(153,65535),
  (152,65535),(151,65535),(150,65535),(149,65535),(148,65535),(147,65535),(146,65535),(145,65535),
  (144,65535),(143,65535),(142,65535),(141,65535),(140,65535),(139,65535),(138,65535),(137,65535),
  (136,65535),(135,65535),(134,65535),(133,65535),(132,65535),(131,65535),(130,65535),(129,65535),
  (128,65535),(127,65535),(126,65535),(125,65535),(124,65535),(123,65535),(122,65535),(121,65535),
  (120,65535),(119,65535),(118,65535),(117,65535),(116,65535),(115,65535),(114,65535),(113,65535),
  (112,65535),(111,65535),(110,65535),(109,65535),(108,65535),(107,65535),(106,65535),(105,65535),
  (104,65535),(103,65535),(102,65535),(101,65535),(100,65535),(99,65535),(98,65535),(97,65535),
  (96,65535),(95,65535),(94,65535),(93,65535),(92,65535),(91,65535),(90,65535),(89,65535),
  (88,65535),(87,65535),(86,65535),(85,65535),(84,65535),(83,65535),(82,65535),(81,65535),
  (80,65535),(79,65535),(78,65535),(77,65535),(76,65535),(75,65535),(74,65535),(73,65535),
  (72,65535),(71,65535),(70,65535),(69,65535),(68,65535),(67,65535),(66,65535),(65,65535),
  (64,65535),(63,65535),(62,65535),(61,65535),(60,65535),(59,65535),(58,65535),(57,65535),
  (56,65535),(55,65535),(54,65535),(53,65535),(52,65535),(51,65535),(50,65535),(49,65535),
  (48,65535),(47,65535),(46,65535),(45,65535),(44,65535),(43,65535),(42,65535),(41,65535),
  (40,65535),(39,65535),(38,65535),(37,65535),(36,65535),(35,65535),(34,65535),(33,65535),
  (32,65535),(31,65535),(30,65535),(29,65535),(28,65535),(27,65535),(26,65535),(25,65535),
  (24,65535),(23,65535),(22,65535),(21,65535),(20,65535),(19,65535),(18,65535),(17,65535),
  (16,65535),(15,65535),(14,65535),(13,65535),(12,65535),(11,65535),(10,65535),(9,65535),
  (8,65535),(7,65535),(6,65535),(5,65535),(4,65535),(3,65535),(2,65535),(1,1),(0,0)]
  secondary :=
  [(383,0),(382,0),(381,0),(380,0),(379,0),(378,0),(377,0),(376,0),(375,0),(374,0),(373,0),(372,0),
  (371,0),(370,0),(369,0),(368,0),(367,0),(366,0),(365,0),(364,0),(363,0),(362,0),(361,0),(360,0),
  (359,0),(358,0),(357,0),(356,0),(355,0),(354,0),(353,0),(352,0),(351,0),(350,0),(349,0),(348,0),
  (347,0),(346,0),(345,0),(344,0),(343,0),(342,0),(341,0),(340,0),(339,0),(338,0),(337,0),(336,0),
  (335,0),(334,0),(333,0),(332,0),(331,0),(330,0),(329,0),(328,0),(327,0),(326,0),(325,0),(324,0),
  (323,0),(322,0),(321,0),(320,0),(319,0),(318,0),(317,0),(316,0),(315,0),(314,0),(313,0),(312,0),
  (311,0),(310,0),(309,0),(308,0),(307,0),(306,0),(305,0),(304,0),(303,0),(302,0),(301,0),(300,0),
  (299,0),(298,0),(297,0),(296,0),(295,0),(294,0),(293,0),(292,0),(291,0),(290,0),(289,0),(288,0),
  (287,0),(286,0),(285,0),(284,0),(283,0),(282,0),(281,0),(280,0),(279,0),(278,0),(277,0),(276,0),
  (275,0),(274,0),(273,0),(272,0),(271,0),(270,0),(269,0),(268,0),(267,0),(266,0),(265,0),(264,0),
  (263,0),(262,0),(261,0),(260,0),(259,0),(258,0),(257,0),(256,0),(256,0),(0,2),(511,2),(510,2),
  (509,2),(508,2),(507,2),(506,2),(505,2),(504,2),(503,2),(502,2),(501,2),(500,2),(499,2),(498,2),
  (497,2),(496,2),(495,2),(494,2),(493,2),(492,2),(491,2),(490,2),(489,2),(488,2),(487,2),(486,2),
  (485,2),(484,2),(483,2),(482,2),(481,2),(480,2),(479,2),(478,2),(477,2),(476,2),(475,2),(474,2),
  (473,2),(472,2),(471,2),(470,2),(469,2),(468,2),(467,2),(466,2),(465,2),(464,2),(463,2),(462,2),
  (461,2),(460,2),(459,2),(458,2),(457,2),(456,2),(455,2),(454,2),(453,2),(452,2),(451,2),(450,2),
  (449,2),(448,2),(447,2),(446,2),(445,2),(444,2),(443,2),(442,2),(441,2),(440,2),(439,2),(438,2),
  (437,2),(436,2),(435,2),(434,2),(433,2),(432,2),(431,2),(430,2),(429,2),(428,2),(427,2),(426,2),
  (425,2),(424,2),(423,2),(422,2),(421,2),(420,2),(419,2),(418,2),(417,2),(416,2),(415,2),(414,2),
  (413,2),(412,2),(411,2),(410,2),(409,2),(408,2),(407,2),(406,2),(405,2),(404,2),(403,2),(402,2),
  (401,2),(400,2),(399,2),(398,2),(397,2),(396,2),(395,2),(394,2),(393,2),(392,2),(391,2),(390,2),
  (389,2),(388,2),(387,2),(386,2),(385,2),(384,2),(383,0),(382,0),(381,0),(380,0),(379,0),(378,0),
  (377,0),(376,0),(375,0),(374,0),(373,0),(372,0),(371,0),(370,0),(369,0),(368,0),(367,0),(366,0),
  (365,0),(364,0),(363,0),(362,0),(361,0),(360,0),(359,0),(358,0),(357,0),(356,0),(355,0),(354,0),
  (353,0),(352,0),(351,0),(350,0),(349,0),(348,0),(347,0),(346,0),(345,0),(344,0),(343,0),(342,0),
  (341,0),(340,0),(339,0),(338,0),(337,0),(336,0),(335,0),(334,0),(333,0),(332,0),(331,0),(330,0),
  (329,0),(328,0),(327,0),(326,0),(325,0),(324,0),(323,0),(322,0),(321,0),(320,0),(319,0),(318,0),
  (317,0),(316,0),(315,0),(314,0),(313,0),(312,0),(311,0),(310,0),(309,0),(308,0),(307,0),(306,0),
  (305,0),(304,0),(303,0),(302,0),(301,0),(300,0),(299,0),(298,0),(297,0),(296,0),(295,0),(294,0),
  (293,0),(292,0),(291,0),(290,0),(289,0),(288,0),(287,0),(286,0),(285,0),(284,0),(283,0),(282,0),
  (281,0),(280,0),(279,0),(278,0),(277,0),(276,0),(275,0),(274,0),(273,0),(272,0),(271,0),(270,0),
  (269,0),(268,0),(267,0),(266,0),(265,0),(264,0),(263,0),(262,0),(261,0),(260,0),(259,0),(258,0),
  (257,0),(256,0),(255,1),(254,1),(253,1),(252,1),(251,1),(250,1),(249,1),(248,1),(247,1),(246,1),
  (245,1),(244,1),(243,1),(242,1),(241,1),(240,1),(239,1),(238,1),(237,1),(236,1),(235,1),(234,1),
  (233,1),(232,1),(231,1),(230,1),(229,1),(228,1),(227,1),(226,1),(225,1),(224,1),(223,1),(222,1),
  (221,1),(220,1),(219,1),(218,1),(217,1),(216,1),(215,1),(214,1),(213,1),(212,1),(211,1),(210,1),
  (209,1),(208,1),(207,1),(206,1),(205,1),(204,1),(203,1),(202,1),(201,1),(200,1),(199,1),(198,1),
  (197,1),(196,1),(195,1),(194,1),(193,1),(192,1),(191,1),(190,1),(189,1),(188,1),(187,1),(186,1),
  (185,1),(184,1),(183,1),(182,1),(181,1),(180,1),(179,1),(178,1),(177,1),(176,1),(175,1),(174,1),
  (173,1),(172,1),(171,1),(170,1),(169,1),(168,1),(167,1),(166,1),(165,1),(164,1),(163,1),(162,1),
  (161,1),(160,1),(159,1),(158,1),(157,1),(156,1),(155,1),(154,1),(153,1),(152,1),(151,1),(150,1),
  (149,1),(148,1),(147,1),(146,1),(145,1),(144,1),(143,1),(142,1),(141,1),(140,1),(139,1),(138,1),
  (137,1),(136,1),(135,1),(134,1),(133,1),(132,1),(131,1),(130,1),(129,1),(128,1),(127,0),(126,0),
  (125,0),(124,0),(123,0),(122,0),(121,0),(120,0),(119,0),(118,0),(117,0),(116,0),(115,0),(114,0),
  (113,0),(112,0),(111,0),(110,0),(109,0),(108,0),(107,0),(106,0),(105,0),(104,0),(103,0),(102,0),
  (101,0),(100,0),(99,0),(98,0),(97,0),(96,0),(95,0),(94,0),(93,0),(92,0),(91,0),(90,0),(89,0),
  (88,0),(87,0),(86,0),(85,0),(84,0),(83,0),(82,0),(81,0),(80,0),(79,0),(78,0),(77,0),(76,0),
  (75,0),(74,0),(73,0),(72,0),(71,0),(70,0),(69,0),(68,0),(67,0),(66,0),(65,0),(64,0),(63,0),
  (62,0),(61,0),(60,0),(59,0),(58,0),(57,0),(56,0),(55,0),(54,0),(53,0),(52,0),(51,0),(50,0),
  (49,0),(48,0),(47,0),(46,0),(45,0),(44,0),(43,0),(42,0),(41,0),(40,0),(39,0),(38,0),(37,0),
  (36,0),(35,0),(34,0),(33,0),(32,0),(31,0),(30,0),(29,0),(28,0),(27,0),(26,0),(25,0),(24,0),
  (23,0),(22,0),(21,0),(20,0),(19,0),(18,0),(17,0),(16,0),(15,0),(14,0),(13,0),(12,0),(11,0),
  (10,0),(9,0),(8,0),(7,0),(6,0),(5,0),(4,0),(3,0),(2,0),(1,0),(0,0)]
  freeHead := 0
  used := 1

/-- Intermediate literal state of the staged DIR chunk rebuilds (see the
stage lemmas below). -/
def dirB22 : DirState where
  primary :=
  [(0,1),(255,65535),(254,65535),(253,65535),(252,65535),(251,65535),(250,65535),(249,65535),
  (248,65535),(247,65535),(246,65535),(245,65535),(244,65535),(243,65535),(242,65535),(241,65535),
  (240,65535),(239,65535),(238,65535),(237,65535),(236,65535),(235,65535),(234,65535),(233,65535),
  (232,65535),(231,65535),(230,65535),(229,65535),(228,65535),(227,65535),(226,65535),(225,65535),
  (224,65535),(223,65535),(222,65535),(221,65535),(220,65535),(219,65535),(218,65535),(217,65535),
  (216,65535),(215,65535),(214,65535),(213,65535),(212,65535),(211,65535),(210,65535),(209,65535),
  (208,65535),(207,65535),(206,65535),(205,65535),(204,65535),(203,65535),(202,65535),(201,65535),
  (200,65535),(199,65535),(198,65535),(197,65535),(196,65535),(195,65535),(194,65535),(193,65535),
  (192,65535),(191,65535),(190,65535),(189,65535),(188,65535),(187,65535),(186,65535),(185,65535),
  (184,65535),(183,65535),(182,65535),(181,65535),(180,65535),(179,65535),(178,65535),(177,65535),
  (176,65535),(175,65535),(174,65535),(173,65535),(172,65535),(171,65535),(170,65535),(169,65535),
  (168,65535),(167,65535),(166,65535),(165,65535),(164,65535),(163,65535),(162,65535),(161,65535),
  (160,65535),(159,65535),(158,65535),(157,65535),(156,65535),(155,65535),(154,65535),(153,65535),
  (152,65535),(151,65535),(150,65535),(149,65535),(148,65535),(147,65535),(146,65535),(145,65535),
  (144,65535),(143,65535),(142,65535),(141,65535),(140,65535),(139,65535),(138,65535),(137,65535),
  (136,65535),(135,65535),(134,65535),(133,65535),(132,65535),(131,65535),(130,65535),(129,65535),
  (128,65535),(127,65535),(126,65535),(125,65535),(124,65535),(123,65535),(122,65535),(121,65535),
  (120,65535),(119,65535),(118,65535),(117,65535),(116,65535),(115,65535),(114,65535),(113,65535),
  (112,65535),(111,65535),(110,65535),(109,65535),(108,65535),(107,65535),(106,65535),(105,65535),
  (104,65535),(103,65535),(102,65535),(101,65535),(100,65535),(99,65535),(98,65535),(97,65535),
  (96,65535),(95,65535),(94,65535),(93,65535),(92,65535),(91,65535),(90,65535),(89,65535),
  (88,65535),(87,65535),(86,65535),(85,65535),(84,65535),(83,65535),(82,65535),(81,65535),
  (80,65535),(79,65535),(78,65535),(77,65535),(76,65535),(75,65535),(74,65535),(73,65535),
  (72,65535),(71,65535),(70,65535),(69,65535),(68,65535),(67,65535),(66,65535),(65,65535),
  (64,65535),(63,65535),(62,65535),(61,65535),(60,65535),(59,65535),(58,65535),(57,65535),
  (56,65535),(55,65535),(54,65535),(53,65535),(52,65535),(51,65535),(50,65535),(49,65535),
  (48,65535),(47,65535),(46,65535),(45,65535),(44,65535),(43,65535),(42,65535),(41,65535),
  (40,65535),(39,65535),(38,65535),(37,65535),(36,65535),(35,65535),(34,65535),(33,65535),
  (32,65535),(31,65535),(30,65535),(29,65535),(28,65535),(27,65535),(26,65535),(25,65535),
  (24,65535),(23,65535),(22,65535),(21,65535),(20,65535),(19,65535),(18,65535),(17,65535),
  (16,65535),(15,65535),(14,65535),(13,65535),(12,65535),(11,65535),(10,65535),(9,65535),
  (8,65535),(7,65535),(6,65535),(5,65535),(4,65535),(3,65535),(2,65535),(1,1),(0,0)]
  secondary :=
  [(511,1),(510,1),(509,1),(508,1),(507,1),(506,1),(505,1),(504,1),(503,1),(502,1),(501,1),(500,1),
  (499,1),(498,1),(497,1),(496,1),(495,1),(494,1),(493,1),(492,1),(491,1),(490,1),(489,1),(488,1),
  (487,1),(486,1),(485,1),(484,1),(483,1),(482,1),(481,1),(480,1),(479,1),(478,1),(477,1),(476,1),
  (475,1),(474,1),(473,1),(472,1),(471,1),(470,1),(469,1),(468,1),(467,1),(466,1),(465,1),(464,1),
  (463,1),(462,1),(461,1),(460,1),(459,1),(458,1),(457,1),(456,1),(455,1),(454,1),(453,1),(452,1),
  (451,1),(450,1),(449,1),(448,1),(447,1),(446,1),(445,1),(444,1),(443,1),(442,1),(441,1),(440,1),
  (439,1),(438,1),(437,1),(436,1),(435,1),(434,1),(433,1),(432,1),(431,1),(430,1),(429,1),(428,1),
  (427,1),(426,1),(425,1),(424,1),(423,1),(422,1),(421,1),(420,1),(419,1),(418,1),(417,1),(416,1),
  (415,1),(414,1),(413,1),(412,1),(411,1),(410,1),(409,1),(408,1),(407,1),(406,1),(405,1),(404,1),
  (403,1),(402,1),(401,1),(400,1),(399,1),(398,1),(397,1),(396,1),(395,1),(394,1),(393,1),(392,1),
  (391,1),(390,1),(389,1),(388,1),(387,1),(386,1),(385,1),(384,1),(383,0),(382,0),(381,0),(380,0),
  (379,0),(378,0),(377,0),(376,0),(375,0),(374,0),(373,0),(372,0),(371,0),(370,0),(369,0),(368,0),
  (367,0),(366,0),(365,0),(364,0),(363,0),(362,0),(361,0),(360,0),(359,0),(358,0),(357,0),(356,0),
  (355,0),(354,0),(353,0),(352,0),(351,0),(350,0),(349,0),(348,0),(347,0),(346,0),(345,0),(344,0),
  (343,0),(342,0),(341,0),(340,0),(339,0),(338,0),(337,0),(336,0),(335,0),(334,0),(333,0),(332,0),
  (331,0),(330,0),(329,0),(328,0),(327,0),(326,0),(325,0),(324,0),(323,0),(322,0),(321,0),(320,0),
  (319,0),(318,0),(317,0),(316,0),(315,0),(314,0),(313,0),(312,0),(311,0),(310,0),(309,0),(308,0),
  (307,0),(306,0),(305,0),(304,0),(303,0),(302,0),(301,0),(300,0),(299,0),(298,0),(297,0),(296,0),
  (295,0),(294,0),(293,0),(292,0),(291,0),(290,0),(289,0),(288,0),(287,0),(286,0),(285,0),(284,0),
  (283,0),(282,0),(281,0),(280,0),(279,0),(278,0),(277,0),(276,0),(275,0),(274,0),(273,0),(272,0),
  (271,0),(270,0),(269,0),(268,0),(267,0),(266,0),(265,0),(264,0),(263,0),(262,0),(261,0),(260,0),
  (259,0),(258,0),(257,0),(256,0),(256,0),(0,2),(511,2),(510,2),(509,2),(508,2),(507,2),(506,2),
  (505,2),(504,2),(503,2),(502,2),(501,2),(500,2),(499,2),(498,2),(497,2),(496,2),(495,2),(494,2),
  (493,2),(492,2),(491,2),(490,2),(489,2),(488,2),(487,2),(486,2),(485,2),(484,2),(483,2),(482,2),
  (481,2),(480,2),(479,2),(478,2),(477,2),(476,2),(475,2),(474,2),(473,2),(472,2),(471,2),(470,2),
  (469,2),(468,2),(467,2),(466,2),(465,2),(464,2),(463,2),(462,2),(461,2),(460,2),(459,2),(458,2),
  (457,2),(456,2),(455,2),(454,2),(453,2),(452,2),(451,2),(450,2),(449,2),(448,2),(447,2),(446,2),
  (445,2),(444,2),(443,2),(442,2),(441,2),(440,2),(439,2),(438,2),(437,2),(436,2),(435,2),(434,2),
  (433,2),(432,2),(431,2),(430,2),(429,2),(428,2),(427,2),(426,2),(425,2),(424,2),(423,2),(422,2),
  (421,2),(420,2),(419,2),(418,2),(417,2),(416,2),(415,2),(414,2),(413,2),(412,2),(411,2),(410,2),
  (409,2),(408,2),(407,2),(406,2),(405,2),(404,2),(403,2),(402,2),(401,2),(400,2),(399,2),(398,2),
  (397,2),(396,2),(395,2),(394,2),(393,2),(392,2),(391,2),(390,2),(389,2),(388,2),(387,2),(386,2),
  (385,2),(384,2),(383,0),(382,0),(381,0),(380,0),(379,0),(378,0),(377,0),(376,0),(375,0),(374,0),
  (373,0),(372,0),(371,0),(370,0),(369,0),(368,0),(367,0),(366,0),(365,0),(364,0),(363,0),(362,0),
  (361,0),(360,0),(359,0),(358,0),(357,0),(356,0),(355,0),(354,0),(353,0),(352,0),(351,0),(350,0),
  (349,0),(348,0),(347,0),(346,0),(345,0),(344,0),(343,0),(342,0),(341,0),(340,0),(339,0),(338,0),
  (337,0),(336,0),(335,0),(334,0),(333,0),(332,0),(331,0),(330,0),(329,0),(328,0),(327,0),(326,0),
  (325,0),(324,0),(323,0),(322,0),(321,0),(320,0),(319,0),(318,0),(317,0),(316,0),(315,0),(314,0),
  (313,0),(312,0),(311,0),(310,0),(309,0),(308,0),(307,0),(306,0),(305,0),(304,0),(303,0),(302,0),
  (301,0),(300,0),(299,0),(298,0),(297,0),(296,0),(295,0),(294,0),(293,0),(292,0),(291,0),(290,0),
  (289,0),(288,0),(287,0),(286,0),(285,0),(284,0),(283,0),(282,0),(281,0),(280,0),(279,0),(278,0),
  (277,0),(276,0),(275,0),(274,0),(273,0),(272,0),(271,0),(270,0),(269,0),(268,0),(267,0),(266,0),
  (265,0),(264,0),(263,0),(262,0),(261,0),(260,0),(259,0),(258,0),(257,0),(256,0),(255,1),(254,1),
  (253,1),(252,1),(251,1),(250,1),(249,1),(248,1),(247,1),(246,1),(245,1),(244,1),(243,1),(242,1),
  (241,1),(240,1),(239,1),(238,1),(237,1),(236,1),(235,1),(234,1),(233,1),(232,1),(231,1),(230,1),
  (229,1),(228,1),(227,1),(226,1),(225,1),(224,1),(223,1),(222,1),(221,1),(220,1),(219,1),(218,1),
  (217,1),(216,1),(215,1),(214,1),(213,1),(212,1),(211,1),(210,1),(209,1),(208,1),(207,1),(206,1),
  (205,1),(204,1),(203,1),(202,1),(201,1),(200,1),(199,1),(198,1),(197,1),(196,1),(195,1),(194,1),
  (193,1),(192,1),(191,1),(190,1),(189,1),(188,1),(187,1),(186,1),(185,1),(184,1),(183,1),(182,1),
  (181,1),(180,1),(179,1),(178,1),(177,1),(176,1),(175,1),(174,1),(173,1),(172,1),(171,1),(170,1),
  (169,1),(168,1),(167,1),(166,1),(165,1),(164,1),(163,1),(162,1),(161,1),(160,1),(159,1),(158,1),
  (157,1),(156,1),(155,1),(154,1),(153,1),(152,1),(151,1),(150,1),(149,1),(148,1),(147,1),(146,1),
  (145,1),(144,1),(143,1),(142,1),(141,1),(140,1),(139,1),(138,1),(137,1),(136,1),(135,1),(134,1),
  (133,1),(132,1),(131,1),(130,1),(129,1),(128,1),(127,0),(126,0),(125,0),(124,0),(123,0),(122,0),
  (121,0),(120,0),(119,0),(118,0),(117,0),(116,0),(115,0),(114,0),(113,0),(112,0),(111,0),(110,0),
  (109,0),(108,0),(107,0),(106,0),(105,0),(104,0),(103,0),(102,0),(101,0),(100,0),(99,0),(98,0),
  (97,0),(96,0),(95,0),(94,0),(93,0),(92,0),(91,0),(90,0),(89,0),(88,0),(87,0),(86,0),(85,0),
  (84,0),(83,0),(82,0),(81,0),(80,0),(79,0),(78,0),(77,0),(76,0),(75,0),(74,0),(73,0),(72,0),
  (71,0),(70,0),(69,0),(68,0),(67,0),(66,0),(65,0),(64,0),(63,0),(62,0),(61,0),(60,0),(59,0),
  (58,0),(57,0),(56,0),(55,0),(54,0),(53,0),(52,0),(51,0),(50,0),(49,0),(48,0),(47,0),(46,0),
  (45,0),(44,0),(43,0),(42,0),(41,0),(40,0),(39,0),(38,0),(37,0),(36,0),(35,0),(34,0),(33,0),
  (32,0),(31,0),(30,0),(29,0),(28,0),(27,0),(26,0),(25,0),(24,0),(23,0),(22,0),(21,0),(20,0),
  (19,0),(18,0),(17,0),(16,0),(15,0),(14,0),(13,0),(12,0),(11,0),(10,0),(9,0),(8,0),(7,0),(6,0),
  (5,0),(4,0),(3,0),(2,0),(1,0),(0,0)]
  freeHead := 0
  used := 1

/-- Intermediate literal state of the staged DIR chunk rebuilds (see the
stage lemmas below). -/
def dirB23 : DirState where
  primary :=
  [(255,0),(254,65535),(253,65535),(252,65535),(251,65535),(250,65535),(249,65535),(248,65535),
  (247,65535),(246,65535),(245,65535),(244,65535),(243,65535),(242,65535),(241,65535),(240,65535),
  (239,65535),(238,65535),(237,65535),(236,65535),(235,65535),(234,65535),(233,65535),(232,65535),
  (231,65535),(230,65535),(229,65535),(228,65535),(227,65535),(226,65535),(225,65535),(224,65535),
  (223,65535),(222,65535),(221,65535),(220,65535),(219,65535),(218,65535),(217,65535),(216,65535),
  (215,65535),(214,65535),(213,65535),(212,65535),(211,65535),(210,65535),(209,65535),(208,65535),
  (207,65535),(206,65535),(205,65535),(204,65535),(203,65535),(202,65535),(201,65535),(200,65535),
  (199,65535),(198,65535),(197,65535),(196,65535),(195,65535),(194,65535),(193,65535),(192,65535),
  (191,65535),(190,65535),(189,65535),(188,65535),(187,65535),(186,65535),(185,65535),(184,65535),
  (183,65535),(182,65535),(181,65535),(180,65535),(179,65535),(178,65535),(177,65535),(176,65535),
  (175,65535),(174,65535),(173,65535),(172,65535),(171,65535),(170,65535),(169,65535),(168,65535),
  (167,65535),(166,65535),(165,65535),(164,65535),(163,65535),(162,65535),(161,65535),(160,65535),
  (159,65535),(158,65535),(157,65535),(156,65535),(155,65535),(154,65535),(153,65535),(152,65535),
  (151,65535),(150,65535),(149,65535),(148,65535),(147,65535),(146,65535),(145,65535),(144,65535),
  (143,65535),(142,65535),(141,65535),(140,65535),(139,65535),(138,65535),(137,65535),(136,65535),
  (135,65535),(134,65535),(133,65535),(132,65535),(131,65535),(130,65535),(129,65535),(128,65535),
  (127,65535),(126,65535),(125,65535),(124,65535),(123,65535),(122,65535),(121,65535),(120,65535),
  (119,65535),(118,65535),(117,65535),(116,65535),(115,65535),(114,65535),(113,65535),(112,65535),
  (111,65535),(110,65535),(109,65535),(108,65535),(107,65535),(106,65535),(105,65535),(104,65535),
  (103,65535),(102,65535),(101,65535),(100,65535),(99,65535),(98,65535),(97,65535),(96,65535),
  (95,65535),(94,65535),(93,65535),(92,65535),(91,65535),(90,65535),(89,65535),(88,65535),
  (87,65535),(86,65535),(85,65535),(84,65535),(83,65535),(82,65535),(81,65535),(80,65535),
  (79,65535),(78,65535),(77,65535),(76,65535),(75,65535),(74,65535),(73,65535),(72,65535),
  (71,65535),(70,65535),(69,65535),(68,65535),(67,65535),(66,65535),(65,65535),(64,65535),
  (63,65535),(62,65535),(61,65535),(60,65535),(59,65535),(58,65535),(57,65535),(56,65535),
  (55,65535),(54,65535),(53,65535),(52,65535),(51,65535),(50,65535),(49,65535),(48,65535),
  (47,65535),(46,65535),(45,65535),(44,65535),(43,65535),(42,65535),(41,65535),(40,65535),
  (39,65535),(38,65535),(37,65535),(36,65535),(35,65535),(34,65535),(33,65535),(32,65535),
  (31,65535),(30,65535),(29,65535),(28,65535),(27,65535),(26,65535),(25,65535),(24,65535),
  (23,65535),(22,65535),(21,65535),(20,65535),(19,65535),(18,65535),(17,65535),(16,65535),
  (15,65535),(14,65535),(13,65535),(12,65535),(11,65535),(10,65535),(9,65535),(8,65535),(7,65535),
  (6,65535),(5,65535),(4,65535),(3,65535),(2,65535),(1,65535),(0,1),(255,65535),(254,65535),
  (253,65535),(252,65535),(251,65535),(250,65535),(249,65535),(248,65535),(247,65535),(246,65535),
  (245,65535),(244,65535),(243,65535),(242,65535),(241,65535),(240,65535),(239,65535),(238,65535),
  (237,65535),(236,65535),(235,65535),(234,65535),(233,65535),(232,65535),(231,65535),(230,65535),
  (229,65535),(228,65535),(227,65535),(226,65535),(225,65535),(224,65535),(223,65535),(222,65535),
  (221,65535),(220,65535),(219,65535),(218,65535),(217,65535),(216,65535),(215,65535),(214,65535),
  (213,65535),(212,65535),(211,65535),(210,65535),(209,65535),(208,65535),(207,65535),(206,65535),
  (205,65535),(204,65535),(203,65535),(202,65535),(201,65535),(200,65535),(199,65535),(198,65535),
  (197,65535),(196,65535),(195,65535),(194,65535),(193,65535),(192,65535),(191,65535),(190,65535),
  (189,65535),(188,65535),(187,65535),(186,65535),(185,65535),(184,65535),(183,65535),(182,65535),
  (181,65535),(180,65535),(179,65535),(178,65535),(177,65535),(176,65535),(175,65535),(174,65535),
  (173,65535),(172,65535),(171,65535),(170,65535),(169,65535),(168,65535),(167,65535),(166,65535),
  (165,65535),(164,65535),(163,65535),(162,65535),(161,65535),(160,65535),(159,65535),(158,65535),
  (157,65535),(156,65535),(155,65535),(154,65535),(153,65535),(152,65535),(151,65535),(150,65535),
  (149,65535),(148,65535),(147,65535),(146,65535),(145,65535),(144,65535),(143,65535),(142,65535),
  (141,65535),(140,65535),(139,65535),(138,65535),(137,65535),(136,65535),(135,65535),(134,65535),
  (133,65535),(132,65535),(131,65535),(130,65535),(129,65535),(128,65535),(127,65535),(126,65535),
  (125,65535),(124,65535),(123,65535),(122,65535),(121,65535),(120,65535),(119,65535),(118,65535),
  (117,65535),(116,65535),(115,65535),(114,65535),(113,65535),(112,65535),(111,65535),(110,65535),
  (109,65535),(108,65535),(107,65535),(106,65535),(105,65535),(104,65535),(103,65535),(102,65535),
  (101,65535),(100,65535),(99,65535),(98,65535),(97,65535),(96,65535),(95,65535),(94,65535),
  (93,65535),(92,65535),(91,65535),(90,65535),(89,65535),(88,65535),(87,65535),(86,65535),
  (85,65535),(84,65535),(83,65535),(82,65535),(81,65535),(80,65535),(79,65535),(78,65535),
  (77,65535),(76,65535),(75,65535),(74,65535),(73,65535),(72,65535),(71,65535),(70,65535),
  (69,65535),(68,65535),(67,65535),(66,65535),(65,65535),(64,65535),(63,65535),(62,65535),
  (61,65535),(60,65535),(59,65535),(58,65535),(57,65535),(56,65535),(55,65535),(54,65535),
  (53,65535),(52,65535),(51,65535),(50,65535),(49,65535),(48,65535),(47,65535),(46,65535),
  (45,65535),(44,65535),(43,65535),(42,65535),(41,65535),(40,65535),(39,65535),(38,65535),
  (37,65535),(36,65535),(35,65535),(34,65535),(33,65535),(32,65535),(31,65535),(30,65535),
  (29,65535),(28,65535),(27,65535),(26,65535),(25,65535),(24,65535),(23,65535),(22,65535),
  (21,65535),(20,65535),(19,65535),(18,65535),(17,65535),(16,65535),(15,65535),(14,65535),
  (13,65535),(12,65535),(11,65535),(10,65535),(9,65535),(8,65535),(7,65535),(6,65535),(5,65535),
  (4,65535),(3,65535),(2,65535),(1,1),(0,0)]
  secondary :=
  [(127,0),(126,0),(125,0),(124,0),(123,0),(122,0),(121,0),(120,0),(119,0),(118,0),(117,0),(116,0),
  (115,0),(114,0),(113,0),(112,0),(111,0),(110,0),(109,0),(108,0),(107,0),(106,0),(105,0),(104,0),
  (103,0),(102,0),(101,0),(100,0),(99,0),(98,0),(97,0),(96,0),(95,0),(94,0),(93,0),(92,0),(91,0),
  (90,0),(89,0),(88,0),(87,0),(86,0),(85,0),(84,0),(83,0),(82,0),(81,0),(80,0),(79,0),(78,0),
  (77,0),(76,0),(75,0),(74,0),(73,0),(72,0),(71,0),(70,0),(69,0),(68,0),(67,0),(66,0),(65,0),
  (64,0),(63,0),(62,0),(61,0),(60,0),(59,0),(58,0),(57,0),(56,0),(55,0),(54,0),(53,0),(52,0),
  (51,0),(50,0),(49,0),(48,0),(47,0),(46,0),(45,0),(44,0),(43,0),(42,0),(41,0),(40,0),(39,0),
  (38,0),(37,0),(36,0),(35,0),(34,0),(33,0),(32,0),(31,0),(30,0),(29,0),(28,0),(27,0),(26,0),
  (25,0),(24,0),(23,0),(22,0),(21,0),(20,0),(19,0),(18,0),(17,0),(16,0),(15,0),(14,0),(13,0),
  (12,0),(11,0),(10,0),(9,0),(8,0),(7,0),(6,0),(5,0),(4,0),(3,0),(2,0),(1,0),(0,0),(511,1),
  (510,1),(509,1),(508,1),(507,1),(506,1),(505,1),(504,1),(503,1),(502,1),(501,1),(500,1),(499,1),
  (498,1),(497,1),(496,1),(495,1),(494,1),(493,1),(492,1),(491,1),(490,1),(489,1),(488,1),(487,1),
  (486,1),(485,1),(484,1),(483,1),(482,1),(481,1),(480,1),(479,1),(478,1),(477,1),(476,1),(475,1),
  (474,1),(473,1),(472,1),(471,1),(470,1),(469,1),(468,1),(467,1),(466,1),(465,1),(464,1),(463,1),
  (462,1),(461,1),(460,1),(459,1),(458,1),(457,1),(456,1),(455,1),(454,1),(453,1),(452,1),(451,1),
  (450,1),(449,1),(448,1),(447,1),(446,1),(445,1),(444,1),(443,1),(442,1),(441,1),(440,1),(439,1),
  (438,1),(437,1),(436,1),(435,1),(434,1),(433,1),(432,1),(431,1),(430,1),(429,1),(428,1),(427,1),
  (426,1),(425,1),(424,1),(423,1),(422,1),(421,1),(420,1),(419,1),(418,1),(417,1),(416,1),(415,1),
  (414,1),(413,1),(412,1),(411,1),(410,1),(409,1),(408,1),(407,1),(406,1),(405,1),(404,1),(403,1),
  (402,1),(401,1),(400,1),(399,1),(398,1),(397,1),(396,1),(395,1),(394,1),(393,1),(392,1),(391,1),
  (390,1),(389,1),(388,1),(387,1),(386,1),(385,1),(384,1),(383,0),(382,0),(381,0),(380,0),(379,0),
  (378,0),(377,0),(376,0),(375,0),(374,0),(373,0),(372,0),(371,0),(370,0),(369,0),(368,0),(367,0),
  (366,0),(365,0),(364,0),(363,0),(362,0),(361,0),(360,0),(359,0),(358,0),(357,0),(356,0),(355,0),
  (354,0),(353,0),(352,0),(351,0),(350,0),(349,0),(348,0),(347,0),(346,0),(345,0),(344,0),(343,0),
  (342,0),(341,0),(340,0),(339,0),(338,0),(337,0),(336,0),(335,0),(334,0),(333,0),(332,0),(331,0),
  (330,0),(329,0),(328,0),(327,0),(326,0),(325,0),(324,0),(323,0),(322,0),(321,0),(320,0),(319,0),
  (318,0),(317,0),(316,0),(315,0),(314,0),(313,0),(312,0),(311,0),(310,0),(309,0),(308,0),(307,0),
  (306,0),(305,0),(304,0),(303,0),(302,0),(301,0),(300,0),(299,0),(298,0),(297,0),(296,0),(295,0),
  (294,0),(293,0),(292,0),(291,0),(290,0),(289,0),(288,0),(287,0),(286,0),(285,0),(284,0),(283,0),
  (282,0),(281,0),(280,0),(279,0),(278,0),(277,0),(276,0),(275,0),(274,0),(273,0),(272,0),(271,0),
  (270,0),(269,0),(268,0),(267,0),(266,0),(265,0),(264,0),(263,0),(262,0),(261,0),(260,0),(259,0),
  (258,0),(257,0),(256,0),(256,0),(0,2),(511,2),(510,2),(509,2),(508,2),(507,2),(506,2),(505,2),
  (504,2),(503,2),(502,2),(501,2),(500,2),(499,2),(498,2),(497,2),(496,2),(495,2),(494,2),(493,2),
  (492,2),(491,2),(490,2),(489,2),(488,2),(487,2),(486,2),(485,2),(484,2),(483,2),(482,2),(481,2),
  (480,2),(479,2),(478,2),(477,2),(476,2),(475,2),(474,2),(473,2),(472,2),(471,2),(470,2),(469,2),
  (468,2),(467,2),(466,2),(465,2),(464,2),(463,2),(462,2),(461,2),(460,2),(459,2),(458,2),(457,2),
  (456,2),(455,2),(454,2),(453,2),(452,2),(451,2),(450,2),(449,2),(448,2),(447,2),(446,2),(445,2),
  (444,2),(443,2),(442,2),(441,2),(440,2),(439,2),(438,2),(437,2),(436,2),(435,2),(434,2),(433,2),
  (432,2),(431,2),(430,2),(429,2),(428,2),(427,2),(426,2),(425,2),(424,2),(423,2),(422,2),(421,2),
  (420,2),(419,2),(418,2),(417,2),(416,2),(415,2),(414,2),(413,2),(412,2),(411,2),(410,2),(409,2),
  (408,2),(407,2),(406,2),(405,2),(404,2),(403,2),(402,2),(401,2),(400,2),(399,2),(398,2),(397,2),
  (396,2),(395,2),(394,2),(393,2),(392,2),(391,2),(390,2),(389,2),(388,2),(387,2),(386,2),(385,2),
  (384,2),(383,0),(382,0),(381,0),(380,0),(379,0),(378,0),(377,0),(376,0),(375,0),(374,0),(373,0),
  (372,0),(371,0),(370,0),(369,0),(368,0),(367,0),(366,0),(365,0),(364,0),(363,0),(362,0),(361,0),
  (360,0),(359,0),(358,0),(357,0),(356,0),(355,0),(354,0),(353,0),(352,0),(351,0),(350,0),(349,0),
  (348,0),(347,0),(346,0),(345,0),(344,0),(343,0),(342,0),(341,0),(340,0),(339,0),(338,0),(337,0),
  (336,0),(335,0),(334,0),(333,0),(332,0),(331,0),(330,0),(329,0),(328,0),(327,0),(326,0),(325,0),
  (324,0),(323,0),(322,0),(321,0),(320,0),(319,0),(318,0),(317,0),(316,0),(315,0),(314,0),(313,0),
  (312,0),(311,0),(310,0),(309,0),(308,0),(307,0),(306,0),(305,0),(304,0),(303,0),(302,0),(301,0),
  (300,0),(299,0),(298,0),(297,0),(296,0),(295,0),(294,0),(293,0),(292,0),(291,0),(290,0),(289,0),
  (288,0),(287,0),(286,0),(285,0),(284,0),(283,0),(282,0),(281,0),(280,0),(279,0),(278,0),(277,0),
  (276,0),(275,0),(274,0),(273,0),(272,0),(271,0),(270,0),(269,0),(268,0),(267,0),(266,0),(265,0),
  (264,0),(263,0),(262,0),(261,0),(260,0),(259,0),(258,0),(257,0),(256,0),(255,1),(254,1),(253,1),
  (252,1),(251,1),(250,1),(249,1),(248,1),(247,1),(246,1),(245,1),(244,1),(243,1),(242,1),(241,1),
  (240,1),(239,1),(238,1),(237,1),(236,1),(235,1),(234,1),(233,1),(232,1),(231,1),(230,1),(229,1),
  (228,1),(227,1),(226,1),(225,1),(224,1),(223,1),(222,1),(221,1),(220,1),(219,1),(218,1),(217,1),
  (216,1),(215,1),(214,1),(213,1),(212,1),(211,1),(210,1),(209,1),(208,1),(207,1),(206,1),(205,1),
  (204,1),(203,1),(202,1),(201,1),(200,1),(199,1),(198,1),(197,1),(196,1),(195,1),(194,1),(193,1),
  (192,1),(191,1),(190,1),(189,1),(188,1),(187,1),(186,1),(185,1),(184,1),(183,1),(182,1),(181,1),
  (180,1),(179,1),(178,1),(177,1),(176,1),(175,1),(174,1),(173,1),(172,1),(171,1),(170,1),(169,1),
  (168,1),(167,1),(166,1),(165,1),(164,1),(163,1),(162,1),(161,1),(160,1),(159,1),(158,1),(157,1),
  (156,1),(155,1),(154,1),(153,1),(152,1),(151,1),(150,1),(149,1),(148,1),(147,1),(146,1),(145,1),
  (144,1),(143,1),(142,1),(141,1),(140,1),(139,1),(138,1),(137,1),(136,1),(135,1),(134,1),(133,1),
  (132,1),(131,1),(130,1),(129,1),(128,1),(127,0),(126,0),(125,0),(124,0),(123,0),(122,0),(121,0),
  (120,0),(119,0),(118,0),(117,0),(116,0),(115,0),(114,0),(113,0),(112,0),(111,0),(110,0),(109,0),
  (108,0),(107,0),(106,0),(105,0),(104,0),(103,0),(102,0),(101,0),(100,0),(99,0),(98,0),(97,0),
  (96,0),(95,0),(94,0),(93,0),(92,0),(91,0),(90,0),(89,0),(88,0),(87,0),(86,0),(85,0),(84,0),
  (83,0),(82,0),(81,0),(80,0),(79,0),(78,0),(77,0),(76,0),(75,0),(74,0),(73,0),(72,0),(71,0),
  (70,0),(69,0),(68,0),(67,0),(66,0),(65,0),(64,0),(63,0),(62,0),(61,0),(60,0),(59,0),(58,0),
  (57,0),(56,0),(55,0),(54,0),(53,0),(52,0),(51,0),(50,0),(49,0),(48,0),(47,0),(46,0),(45,0),
  (44,0),(43,0),(42,0),(41,0),(40,0),(39,0),(38,0),(37,0),(36,0),(35,0),(34,0),(33,0),(32,0),
  (31,0),(30,0),(29,0),(28,0),(27,0),(26,0),(25,0),(24,0),(23,0),(22,0),(21,0),(20,0),(19,0),
  (18,0),(17,0),(16,0),(15,0),(14,0),(13,0),(12,0),(11,0),(10,0),(9,0),(8,0),(7,0),(6,0),(5,0),
  (4,0),(3,0),(2,0),(1,0),(0,0)]
  freeHead := 2
  used := 2

/-- Intermediate literal state of the staged DIR chunk rebuilds (see the
stage lemmas below). -/
def dirLit2 : DirState where
  primary :=
  [(255,0),(254,65535),(253,65535),(252,65535),(251,65535),(250,65535),(249,65535),(248,65535),
  (247,65535),(246,65535),(245,65535),(244,65535),(243,65535),(242,65535),(241,65535),(240,65535),
  (239,65535),(238,65535),(237,65535),(236,65535),(235,65535),(234,65535),(233,65535),(232,65535),
  (231,65535),(230,65535),(229,65535),(228,65535),(227,65535),(226,65535),(225,65535),(224,65535),
  (223,65535),(222,65535),(221,65535),(220,65535),(219,65535),(218,65535),(217,65535),(216,65535),
  (215,65535),(214,65535),(213,65535),(212,65535),(211,65535),(210,65535),(209,65535),(208,65535),
  (207,65535),(206,65535),(205,65535),(204,65535),(203,65535),(202,65535),(201,65535),(200,65535),
  (199,65535),(198,65535),(197,65535),(196,65535),(195,65535),(194,65535),(193,65535),(192,65535),
  (191,65535),(190,65535),(189,65535),(188,65535),(187,65535),(186,65535),(185,65535),(184,65535),
  (183,65535),(182,65535),(181,65535),(180,65535),(179,65535),(178,65535),(177,65535),(176,65535),
  (175,65535),(174,65535),(173,65535),(172,65535),(171,65535),(170,65535),(169,65535),(168,65535),
  (167,65535),(166,65535),(165,65535),(164,65535),(163,65535),(162,65535),(161,65535),(160,65535),
  (159,65535),(158,65535),(157,65535),(156,65535),(155,65535),(154,65535),(153,65535),(152,65535),
  (151,65535),(150,65535),(149,65535),(148,65535),(147,65535),(146,65535),(145,65535),(144,65535),
  (143,65535),(142,65535),(141,65535),(140,65535),(139,65535),(138,65535),(137,65535),(136,65535),
  (135,65535),(134,65535),(133,65535),(132,65535),(131,65535),(130,65535),(129,65535),(128,65535),
  (127,65535),(126,65535),(125,65535),(124,65535),(123,65535),(122,65535),(121,65535),(120,65535),
  (119,65535),(118,65535),(117,65535),(116,65535),(115,65535),(114,65535),(113,65535),(112,65535),
  (111,65535),(110,65535),(109,65535),(108,65535),(107,65535),(106,65535),(105,65535),(104,65535),
  (103,65535),(102,65535),(101,65535),(100,65535),(99,65535),(98,65535),(97,65535),(96,65535),
  (95,65535),(94,65535),(93,65535),(92,65535),(91,65535),(90,65535),(89,65535),(88,65535),
  (87,65535),(86,65535),(85,65535),(84,65535),(83,65535),(82,65535),(81,65535),(80,65535),
  (79,65535),(78,65535),(77,65535),(76,65535),(75,65535),(74,65535),(73,65535),(72,65535),
  (71,65535),(70,65535),(69,65535),(68,65535),(67,65535),(66,65535),(65,65535),(64,65535),
  (63,65535),(62,65535),(61,65535),(60,65535),(59,65535),(58,65535),(57,65535),(56,65535),
  (55,65535),(54,65535),(53,65535),(52,65535),(51,65535),(50,65535),(49,65535),(48,65535),
  (47,65535),(46,65535),(45,65535),(44,65535),(43,65535),(42,65535),(41,65535),(40,65535),
  (39,65535),(38,65535),(37,65535),(36,65535),(35,65535),(34,65535),(33,65535),(32,65535),
  (31,65535),(30,65535),(29,65535),(28,65535),(27,65535),(26,65535),(25,65535),(24,65535),
  (23,65535),(22,65535),(21,65535),(20,65535),(19,65535),(18,65535),(17,65535),(16,65535),
  (15,65535),(14,65535),(13,65535),(12,65535),(11,65535),(10,65535),(9,65535),(8,65535),(7,65535),
  (6,65535),(5,65535),(4,65535),(3,65535),(2,65535),(1,65535),(0,1),(255,65535),(254,65535),
  (253,65535),(252,65535),(251,65535),(250,65535),(249,65535),(248,65535),(247,65535),(246,65535),
  (245,65535),(244,65535),(243,65535),(242,65535),(241,65535),(240,65535),(239,65535),(238,65535),
  (237,65535),(236,65535),(235,65535),(234,65535),(233,65535),(232,65535),(231,65535),(230,65535),
  (229,65535),(228,65535),(227,65535),(226,65535),(225,65535),(224,65535),(223,65535),(222,65535),
  (221,65535),(220,65535),(219,65535),(218,65535),(217,65535),(216,65535),(215,65535),(214,65535),
  (213,65535),(212,65535),(211,65535),(210,65535),(209,65535),(208,65535),(207,65535),(206,65535),
  (205,65535),(204,65535),(203,65535),(202,65535),(201,65535),(200,65535),(199,65535),(198,65535),
  (197,65535),(196,65535),(195,65535),(194,65535),(193,65535),(192,65535),(191,65535),(190,65535),
  (189,65535),(188,65535),(187,65535),(186,65535),(185,65535),(184,65535),(183,65535),(182,65535),
  (181,65535),(180,65535),(179,65535),(178,65535),(177,65535),(176,65535),(175,65535),(174,65535),
  (173,65535),(172,65535),(171,65535),(170,65535),(169,65535),(168,65535),(167,65535),(166,65535),
  (165,65535),(164,65535),(163,65535),(162,65535),(161,65535),(160,65535),(159,65535),(158,65535),
  (157,65535),(156,65535),(155,65535),(154,65535),(153,65535),(152,65535),(151,65535),(150,65535),
  (149,65535),(148,65535),(147,65535),(146,65535),(145,65535),(144,65535),(143,65535),(142,65535),
  (141,65535),(140,65535),(139,65535),(138,65535),(137,65535),(136,65535),(135,65535),(134,65535),
  (133,65535),(132,65535),(131,65535),(130,65535),(129,65535),(128,65535),(127,65535),(126,65535),
  (125,65535),(124,65535),(123,65535),(122,65535),(121,65535),(120,65535),(119,65535),(118,65535),
  (117,65535),(116,65535),(115,65535),(114,65535),(113,65535),(112,65535),(111,65535),(110,65535),
  (109,65535),(108,65535),(107,65535),(106,65535),(105,65535),(104,65535),(103,65535),(102,65535),
  (101,65535),(100,65535),(99,65535),(98,65535),(97,65535),(96,65535),(95,65535),(94,65535),
  (93,65535),(92,65535),(91,65535),(90,65535),(89,65535),(88,65535),(87,65535),(86,65535),
  (85,65535),(84,65535),(83,65535),(82,65535),(81,65535),(80,65535),(79,65535),(78,65535),
  (77,65535),(76,65535),(75,65535),(74,65535),(73,65535),(72,65535),(71,65535),(70,65535),
  (69,65535),(68,65535),(67,65535),(66,65535),(65,65535),(64,65535),(63,65535),(62,65535),
  (61,65535),(60,65535),(59,65535),(58,65535),(57,65535),(56,65535),(55,65535),(54,65535),
  (53,65535),(52,65535),(51,65535),(50,65535),(49,65535),(48,65535),(47,65535),(46,65535),
  (45,65535),(44,65535),(43,65535),(42,65535),(41,65535),(40,65535),(39,65535),(38,65535),
  (37,65535),(36,65535),(35,65535),(34,65535),(33,65535),(32,65535),(31,65535),(30,65535),
  (29,65535),(28,65535),(27,65535),(26,65535),(25,65535),(24,65535),(23,65535),(22,65535),
  (21,65535),(20,65535),(19,65535),(18,65535),(17,65535),(16,65535),(15,65535),(14,65535),
  (13,65535),(12,65535),(11,65535),(10,65535),(9,65535),(8,65535),(7,65535),(6,65535),(5,65535),
  (4,65535),(3,65535),(2,65535),(1,1),(0,0)]
  secondary :=
  [(254,2),(253,2),(252,2),(251,2),(250,2),(249,2),(248,2),(247,2),(246,2),(245,2),(244,2),(243,2),
  (242,2),(241,2),(240,2),(239,2),(238,2),(237,2),(236,2),(235,2),(234,2),(233,2),(232,2),(231,2),
  (230,2),(229,2),(228,2),(227,2),(226,2),(225,2),(224,2),(223,2),(222,2),(221,2),(220,2),(219,2),
  (218,2),(217,2),(216,2),(215,2),(214,2),(213,2),(212,2),(211,2),(210,2),(209,2),(208,2),(207,2),
  (206,2),(205,2),(204,2),(203,2),(202,2),(201,2),(200,2),(199,2),(198,2),(197,2),(196,2),(195,2),
  (194,2),(193,2),(192,2),(191,2),(190,2),(189,2),(188,2),(187,2),(186,2),(185,2),(184,2),(183,2),
  (182,2),(181,2),(180,2),(179,2),(178,2),(177,2),(176,2),(175,2),(174,2),(173,2),(172,2),(171,2),
  (170,2),(169,2),(168,2),(167,2),(166,2),(165,2),(164,2),(163,2),(162,2),(161,2),(160,2),(159,2),
  (158,2),(157,2),(156,2),(155,2),(154,2),(153,2),(152,2),(151,2),(150,2),(149,2),(148,2),(147,2),
  (146,2),(145,2),(144,2),(143,2),(142,2),(141,2),(140,2),(139,2),(138,2),(137,2),(136,2),(135,2),
  (134,2),(133,2),(132,2),(131,2),(130,2),(129,2),(128,2),(127,0),(126,0),(125,0),(124,0),(123,0),
  (122,0),(121,0),(120,0),(119,0),(118,0),(117,0),(116,0),(115,0),(114,0),(113,0),(112,0),(111,0),
  (110,0),(109,0),(108,0),(107,0),(106,0),(105,0),(104,0),(103,0),(102,0),(101,0),(100,0),(99,0),
  (98,0),(97,0),(96,0),(95,0),(94,0),(93,0),(92,0),(91,0),(90,0),(89,0),(88,0),(87,0),(86,0),
  (85,0),(84,0),(83,0),(82,0),(81,0),(80,0),(79,0),(78,0),(77,0),(76,0),(75,0),(74,0),(73,0),
  (72,0),(71,0),(70,0),(69,0),(68,0),(67,0),(66,0),(65,0),(64,0),(63,0),(62,0),(61,0),(60,0),
  (59,0),(58,0),(57,0),(56,0),(55,0),(54,0),(53,0),(52,0),(51,0),(50,0),(49,0),(48,0),(47,0),
  (46,0),(45,0),(44,0),(43,0),(42,0),(41,0),(40,0),(39,0),(38,0),(37,0),(36,0),(35,0),(34,0),
  (33,0),(32,0),(31,0),(30,0),(29,0),(28,0),(27,0),(26,0),(25,0),(24,0),(23,0),(22,0),(21,0),
  (20,0),(19,0),(18,0),(17,0),(16,0),(15,0),(14,0),(13,0),(12,0),(11,0),(10,0),(9,0),(8,0),(7,0),
  (6,0),(5,0),(4,0),(3,0),(2,0),(1,0),(0,0),(511,1),(510,1),(509,1),(508,1),(507,1),(506,1),
  (505,1),(504,1),(503,1),(502,1),(501,1),(500,1),(499,1),(498,1),(497,1),(496,1),(495,1),(494,1),
  (493,1),(492,1),(491,1),(490,1),(489,1),(488,1),(487,1),(486,1),(485,1),(484,1),(483,1),(482,1),
  (481,1),(480,1),(479,1),(478,1),(477,1),(476,1),(475,1),(474,1),(473,1),(472,1),(471,1),(470,1),
  (469,1),(468,1),(467,1),(466,1),(465,1),(464,1),(463,1),(462,1),(461,1),(460,1),(459,1),(458,1),
  (457,1),(456,1),(455,1),(454,1),(453,1),(452,1),(451,1),(450,1),(449,1),(448,1),(447,1),(446,1),
  (445,1),(444,1),(443,1),(442,1),(441,1),(440,1),(439,1),(438,1),(437,1),(436,1),(435,1),(434,1),
  (433,1),(432,1),(431,1),(430,1),(429,1),(428,1),(427,1),(426,1),(425,1),(424,1),(423,1),(422,1),
  (421,1),(420,1),(419,1),(418,1),(417,1),(416,1),(415,1),(414,1),(413,1),(412,1),(411,1),(410,1),
  (409,1),(408,1),(407,1),(406,1),(405,1),(404,1),(403,1),(402,1),(401,1),(400,1),(399,1),(398,1),
  (397,1),(396,1),(395,1),(394,1),(393,1),(392,1),(391,1),(390,1),(389,1),(388,1),(387,1),(386,1),
  (385,1),(384,1),(383,0),(382,0),(381,0),(380,0),(379,0),(378,0),(377,0),(376,0),(375,0),(374,0),
  (373,0),(372,0),(371,0),(370,0),(369,0),(368,0),(367,0),(366,0),(365,0),(364,0),(363,0),(362,0),
  (361,0),(360,0),(359,0),(358,0),(357,0),(356,0),(355,0),(354,0),(353,0),(352,0),(351,0),(350,0),
  (349,0),(348,0),(347,0),(346,0),(345,0),(344,0),(343,0),(342,0),(341,0),(340,0),(339,0),(338,0),
  (337,0),(336,0),(335,0),(334,0),(333,0),(332,0),(331,0),(330,0),(329,0),(328,0),(327,0),(326,0),
  (325,0),(324,0),(323,0),(322,0),(321,0),(320,0),(319,0),(318,0),(317,0),(316,0),(315,0),(314,0),
  (313,0),(312,0),(311,0),(310,0),(309,0),(308,0),(307,0),(306,0),(305,0),(304,0),(303,0),(302,0),
  (301,0),(300,0),(299,0),(298,0),(297,0),(296,0),(295,0),(294,0),(293,0),(292,0),(291,0),(290,0),
  (289,0),(288,0),(287,0),(286,0),(285,0),(284,0),(283,0),(282,0),(281,0),(280,0),(279,0),(278,0),
  (277,0),(276,0),(275,0),(274,0),(273,0),(272,0),(271,0),(270,0),(269,0),(268,0),(267,0),(266,0),
  (265,0),(264,0),(263,0),(262,0),(261,0),(260,0),(259,0),(258,0),(257,0),(256,0),(256,0),(0,2),
  (511,2),(510,2),(509,2),(508,2),(507,2),(506,2),(505,2),(504,2),(503,2),(502,2),(501,2),(500,2),
  (499,2),(498,2),(497,2),(496,2),(495,2),(494,2),(493,2),(492,2),(491,2),(490,2),(489,2),(488,2),
  (487,2),(486,2),(485,2),(484,2),(483,2),(482,2),(481,2),(480,2),(479,2),(478,2),(477,2),(476,2),
  (475,2),(474,2),(473,2),(472,2),(471,2),(470,2),(469,2),(468,2),(467,2),(466,2),(465,2),(464,2),
  (463,2),(462,2),(461,2),(460,2),(459,2),(458,2),(457,2),(456,2),(455,2),(454,2),(453,2),(452,2),
  (451,2),(450,2),(449,2),(448,2),(447,2),(446,2),(445,2),(444,2),(443,2),(442,2),(441,2),(440,2),
  (439,2),(438,2),(437,2),(436,2),(435,2),(434,2),(433,2),(432,2),(431,2),(430,2),(429,2),(428,2),
  (427,2),(426,2),(425,2),(424,2),(423,2),(422,2),(421,2),(420,2),(419,2),(418,2),(417,2),(416,2),
  (415,2),(414,2),(413,2),(412,2),(411,2),(410,2),(409,2),(408,2),(407,2),(406,2),(405,2),(404,2),
  (403,2),(402,2),(401,2),(400,2),(399,2),(398,2),(397,2),(396,2),(395,2),(394,2),(393,2),(392,2),
  (391,2),(390,2),(389,2),(388,2),(387,2),(386,2),(385,2),(384,2),(383,0),(382,0),(381,0),(380,0),
  (379,0),(378,0),(377,0),(376,0),(375,0),(374,0),(373,0),(372,0),(371,0),(370,0),(369,0),(368,0),
  (367,0),(366,0),(365,0),(364,0),(363,0),(362,0),(361,0),(360,0),(359,0),(358,0),(357,0),(356,0),
  (355,0),(354,0),(353,0),(352,0),(351,0),(350,0),(349,0),(348,0),(347,0),(346,0),(345,0),(344,0),
  (343,0),(342,0),(341,0),(340,0),(339,0),(338,0),(337,0),(336,0),(335,0),(334,0),(333,0),(332,0),
  (331,0),(330,0),(329,0),(328,0),(327,0),(326,0),(325,0),(324,0),(323,0),(322,0),(321,0),(320,0),
  (319,0),(318,0),(317,0),(316,0),(315,0),(314,0),(313,0),(312,0),(311,0),(310,0),(309,0),(308,0),
  (307,0),(306,0),(305,0),(304,0),(303,0),(302,0),(301,0),(300,0),(299,0),(298,0),(297,0),(296,0),
  (295,0),(294,0),(293,0),(292,0),(291,0),(290,0),(289,0),(288,0),(287,0),(286,0),(285,0),(284,0),
  (283,0),(282,0),(281,0),(280,0),(279,0),(278,0),(277,0),(276,0),(275,0),(274,0),(273,0),(272,0),
  (271,0),(270,0),(269,0),(268,0),(267,0),(266,0),(265,0),(264,0),(263,0),(262,0),(261,0),(260,0),
  (259,0),(258,0),(257,0),(256,0),(255,1),(254,1),(253,1),(252,1),(251,1),(250,1),(249,1),(248,1),
  (247,1),(246,1),(245,1),(244,1),(243,1),(242,1),(241,1),(240,1),(239,1),(238,1),(237,1),(236,1),
  (235,1),(234,1),(233,1),(232,1),(231,1),(230,1),(229,1),(228,1),(227,1),(226,1),(225,1),(224,1),
  (223,1),(222,1),(221,1),(220,1),(219,1),(218,1),(217,1),(216,1),(215,1),(214,1),(213,1),(212,1),
  (211,1),(210,1),(209,1),(208,1),(207,1),(206,1),(205,1),(204,1),(203,1),(202,1),(201,1),(200,1),
  (199,1),(198,1),(197,1),(196,1),(195,1),(194,1),(193,1),(192,1),(191,1),(190,1),(189,1),(188,1),
  (187,1),(186,1),(185,1),(184,1),(183,1),(182,1),(181,1),(180,1),(179,1),(178,1),(177,1),(176,1),
  (175,1),(174,1),(173,1),(172,1),(171,1),(170,1),(169,1),(168,1),(167,1),(166,1),(165,1),(164,1),
  (163,1),(162,1),(161,1),(160,1),(159,1),(158,1),(157,1),(156,1),(155,1),(154,1),(153,1),(152,1),
  (151,1),(150,1),(149,1),(148,1),(147,1),(146,1),(145,1),(144,1),(143,1),(142,1),(141,1),(140,1),
  (139,1),(138,1),(137,1),(136,1),(135,1),(134,1),(133,1),(132,1),(131,1),(130,1),(129,1),(128,1),
  (127,0),(126,0),(125,0),(124,0),(123,0),(122,0),(121,0),(120,0),(119,0),(118,0),(117,0),(116,0),
  (115,0),(114,0),(113,0),(112,0),(111,0),(110,0),(109,0),(108,0),(107,0),(106,0),(105,0),(104,0),
  (103,0),(102,0),(101,0),(100,0),(99,0),(98,0),(97,0),(96,0),(95,0),(94,0),(93,0),(92,0),(91,0),
  (90,0),(89,0),(88,0),(87,0),(86,0),(85,0),(84,0),(83,0),(82,0),(81,0),(80,0),(79,0),(78,0),
  (77,0),(76,0),(75,0),(74,0),(73,0),(72,0),(71,0),(70,0),(69,0),(68,0),(67,0),(66,0),(65,0),
  (64,0),(63,0),(62,0),(61,0),(60,0),(59,0),(58,0),(57,0),(56,0),(55,0),(54,0),(53,0),(52,0),
  (51,0),(50,0),(49,0),(48,0),(47,0),(46,0),(45,0),(44,0),(43,0),(42,0),(41,0),(40,0),(39,0),
  (38,0),(37,0),(36,0),(35,0),(34,0),(33,0),(32,0),(31,0),(30,0),(29,0),(28,0),(27,0),(26,0),
  (25,0),(24,0),(23,0),(22,0),(21,0),(20,0),(19,0),(18,0),(17,0),(16,0),(15,0),(14,0),(13,0),
  (12,0),(11,0),(10,0),(9,0),(8,0),(7,0),(6,0),(5,0),(4,0),(3,0),(2,0),(1,0),(0,0)]
  freeHead := 2
  used := 2

/-- Literal state after rebuilding chunk 0 with the single fragment
(0, 4096): every /24 of the chunk becomes the direct entry
4096 ^ 0xffff = 61439 (0xefff). -/
def dirC2Lit : DirState where
  primary :=
  [(255,61439),(254,61439),(253,61439),(252,61439),(251,61439),(250,61439),(249,61439),(248,61439),
  (247,61439),(246,61439),(245,61439),(244,61439),(243,61439),(242,61439),(241,61439),(240,61439),
  (239,61439),(238,61439),(237,61439),(236,61439),(235,61439),(234,61439),(233,61439),(232,61439),
  (231,61439),(230,61439),(229,61439),(228,61439),(227,61439),(226,61439),(225,61439),(224,61439),
  (223,61439),(222,61439),(221,61439),(220,61439),(219,61439),(218,61439),(217,61439),(216,61439),
  (215,61439),(214,61439),(213,61439),(212,61439),(211,61439),(210,61439),(209,61439),(208,61439),
  (207,61439),(206,61439),(205,61439),(204,61439),(203,61439),(202,61439),(201,61439),(200,61439),
  (199,61439),(198,61439),(197,61439),(196,61439),(195,61439),(194,61439),(193,61439),(192,61439),
  (191,61439),(190,61439),(189,61439),(188,61439),(187,61439),(186,61439),(185,61439),(184,61439),
  (183,61439),(182,61439),(181,61439),(180,61439),(179,61439),(178,61439),(177,61439),(176,61439),
  (175,61439),(174,61439),(173,61439),(172,61439),(171,61439),(170,61439),(169,61439),(168,61439),
  (167,61439),(166,61439),(165,61439),(164,61439),(163,61439),(162,61439),(161,61439),(160,61439),
  (159,61439),(158,61439),(157,61439),(156,61439),(155,61439),(154,61439),(153,61439),(152,61439),
  (151,61439),(150,61439),(149,61439),(148,61439),(147,61439),(146,61439),(145,61439),(144,61439),
  (143,61439),(142,61439),(141,61439),(140,61439),(139,61439),(138,61439),(137,61439),(136,61439),
  (135,61439),(134,61439),(133,61439),(132,61439),(131,61439),(130,61439),(129,61439),(128,61439),
  (127,61439),(126,61439),(125,61439),(124,61439),(123,61439),(122,61439),(121,61439),(120,61439),
  (119,61439),(118,61439),(117,61439),(116,61439),(115,61439),(114,61439),(113,61439),(112,61439),
  (111,61439),(110,61439),(109,61439),(108,61439),(107,61439),(106,61439),(105,61439),(104,61439),
  (103,61439),(102,61439),(101,61439),(100,61439),(99,61439),(98,61439),(97,61439),(96,61439),(95,
  61439),(94,61439),(93,61439),(92,61439),(91,61439),(90,61439),(89,61439),(88,61439),(87,61439),
  (86,61439),(85,61439),(84,61439),(83,61439),(82,61439),(81,61439),(80,61439),(79,61439),(78,
  61439),(77,61439),(76,61439),(75,61439),(74,61439),(73,61439),(72,61439),(71,61439),(70,61439),
  (69,61439),(68,61439),(67,61439),(66,61439),(65,61439),(64,61439),(63,61439),(62,61439),(61,
  61439),(60,61439),(59,61439),(58,61439),(57,61439),(56,61439),(55,61439),(54,61439),(53,61439),
  (52,61439),(51,61439),(50,61439),(49,61439),(48,61439),(47,61439),(46,61439),(45,61439),(44,
  61439),(43,61439),(42,61439),(41,61439),(40,61439),(39,61439),(38,61439),(37,61439),(36,61439),
  (35,61439),(34,61439),(33,61439),(32,61439),(31,61439),(30,61439),(29,61439),(28,61439),(27,
  61439),(26,61439),(25,61439),(24,61439),(23,61439),(22,61439),(21,61439),(20,61439),(19,61439),
  (18,61439),(17,61439),(16,61439),(15,61439),(14,61439),(13,61439),(12,61439),(11,61439),(10,
  61439),(9,61439),(8,61439),(7,61439),(6,61439),(5,61439),(4,61439),(3,61439),(2,61439),(1,
  61439),(0,61439)]
  secondary := []
  freeHead := 0
  used := 0

end Dir

namespace B6

/-- Nexthop-table slot (struct nexthop6, bsdip6lookup.hh:83-89; the IPv4
variant nexthop4 in bsdiplookup.hh:295-301 is identical with a 32-bit
gateway): interned (gateway, port) pair with reference count and
intrusive doubly-linked list fields.  Addresses are modelled as Nat. -/
structure Nexthop where
  gw : Nat
  port : Int
  refcount : Int
  ll_next : Int
  ll_prev : Int
deriving DecidableEq, Repr

/-- Contents of a never-written table slot (the table is modelled as
zero-initialised; the code never reads a slot's fields before assigning
them, except the refcount sum which is 0 for unused slots). -/
def zeroSlot : Nexthop := ⟨0, 0, 0, 0, 0⟩

/-- Capacity of the nexthop table (bsdiplookup.hh:304). -/
def VPORTS_MAX : Nat := 8192

/-- Prefix key of a radix leaf: address and contiguous mask, both as
Nat.  Keys are stored masked (addr &&& mask), matching the radix trie's
masked key comparisons. -/
structure Pfx where
  addr : Nat
  mask : Nat
deriving DecidableEq, Repr

/-- Normalised key of a route given as (address, mask). -/
def pnorm (a m : Nat) : Pfx := ⟨a &&& m, m⟩

/-- Radix leaf: key plus the nexthop handle stored in rtentry6.nh
(bsdiplookup.hh:289-293). -/
structure Leaf where
  key : Pfx
  nh : Nat
deriving DecidableEq, Repr

/-- Modelled from the spec: rnh_lookup exact lookup (radix.c absent from
src/): find the leaf with the given key, returning its nexthop handle. -/
def trieFind : List Leaf → Pfx → Option Nat
  | [], _ => none
  | l :: rest, k => if l.key = k then some l.nh else trieFind rest k

/-- Key order of the radix walk, modelled as lexicographic on
(address, mask). -/
def keyLtB (k1 k2 : Pfx) : Bool := k1.addr < k2.addr ∨ (k1.addr = k2.addr ∧ k1.mask < k2.mask)

/-- Modelled from the spec: rnh_addaddr (radix.c absent from src/):
insert a leaf, keeping the walk order; callers check for duplicates
first. -/
def trieInsert (k : Pfx) (nh : Nat) : List Leaf → List Leaf
  | [] => [⟨k, nh⟩]
  | l :: rest => if keyLtB l.key k then l :: trieInsert k nh rest else ⟨k, nh⟩ :: l :: rest

/-- Modelled from the spec: rnh_deladdr (radix.c absent from src/):
remove the leaf with the given key (the one rnh_lookup finds). -/
def trieDel (k : Pfx) : List Leaf → List Leaf
  | [] => []
  | l :: rest => if l.key = k then rest else l :: trieDel k rest

/-- Modelled from the spec: rnh_matchaddr longest-prefix match (radix.c
absent from src/): among leaves whose masked key covers `a`, the one with
the largest (contiguous) mask. -/
def trieMatch (trie : List Leaf) (a : Nat) : Option Leaf :=
  trie.foldl
    (fun acc l =>
      if a &&& l.key.mask = l.key.addr then
        match acc with
        | none => some l
        | some b => if l.key.mask > b.key.mask then some l else acc
      else acc)
    none

/-- State of BSDIP6Lookup (bsdip6lookup.hh:108-133): the (spec-modelled)
radix trie as a leaf list in walk order, and the nexthop table exactly as
in the source: flat slot array, allocation bound `_nexthop_tbl_size`,
live-list head `_nexthop_head`, free-list head `_nexthop_empty_head`,
live count `_nexthops`, prefix count `_prefix_cnt`. -/
structure S6 where
  trie : List Leaf
  tbl : Nat → Nexthop
  size : Nat
  head : Int
  emptyHead : Int
  nexthops : Int
  pfxCnt : Int

/-- Pointwise update of the slot array. -/
def updTbl (t : Nat → Nexthop) (i : Nat) (v : Nexthop) : Nat → Nexthop :=
  fun j => if j = i then v else t j

/-- Constructor state (BSDIP6Lookup::BSDIP6Lookup, bsdip6lookup.cc:27-45):
slot 0 holds the default route (null gateway, port -1, refcount 0), first
empty slot is 1, both lists empty. -/
def init6 : S6 where
  trie := []
  tbl := fun i => if i = 0 then ⟨0, -1, 0, 0, 0⟩ else zeroSlot
  size := 1
  head := -1
  emptyHead := -1
  nexthops := 0
  pfxCnt := 0

/-- Linear scan of the live list for an existing (gw, port) entry
(BSDIP6Lookup::nexthop_ref, bsdip6lookup.cc:269-273).  The fuel bounds
the traversal; it is called with fuel = size, which exceeds the live
list's length in every well-formed state. -/
def findNh (t : Nat → Nexthop) (gw : Nat) (port : Int) : Nat → Int → Int
  | 0, _ => -1
  | fuel + 1, i =>
    if i < 0 then -1
    else if (t i.toNat).gw = gw ∧ (t i.toNat).port = port then i
    else findNh t gw port fuel (t i.toNat).ll_next

/-- BSDIP6Lookup::nexthop_ref (bsdip6lookup.cc:264-298): bump an existing
entry's refcount, or take a slot from the empty list (else extend the
array) and link it at the head of the live list.  The source contains no
capacity check: when all VPORTS_MAX slots are allocated and no match
exists it still returns `_nexthop_tbl_size++`, one past the table. -/
def nexthop_ref (s : S6) (gw : Nat) (port : Int) : Nat × S6 :=
  let f := findNh s.tbl gw port s.size s.head
  if 0 ≤ f then
    (f.toNat,
      { s with
        tbl := updTbl s.tbl f.toNat
          { s.tbl f.toNat with refcount := (s.tbl f.toNat).refcount + 1 } })
  else
    let i := if 0 ≤ s.emptyHead then s.emptyHead.toNat else s.size
    let s1 :=
      if 0 ≤ s.emptyHead then { s with emptyHead := (s.tbl s.emptyHead.toNat).ll_next }
      else { s with size := s.size + 1 }
    let t1 := updTbl s1.tbl i ⟨gw, port, 1, s1.head, -1⟩
    let t2 :=
      if 0 ≤ s1.head then updTbl t1 s1.head.toNat { t1 s1.head.toNat with ll_prev := (i : Int) }
      else t1
    (i, { s1 with tbl := t2, head := (i : Int), nexthops := s1.nexthops + 1 })

/-- BSDIP6Lookup::nexthop_unref (bsdip6lookup.cc:301-325): decrement the
refcount; on zero, mark the port discarded, unlink from the live list and
push onto the empty list.  Returns the new refcount. -/
def nexthop_unref (s : S6) (i : Nat) : Int × S6 :=
  let refc := (s.tbl i).refcount - 1
  let t0 := updTbl s.tbl i { s.tbl i with refcount := refc }
  if refc = 0 then
    let t1 := updTbl t0 i { t0 i with port := -1 }
    let prev := (s.tbl i).ll_prev
    let next := (s.tbl i).ll_next
    let t2 :=
      if 0 ≤ prev then updTbl t1 prev.toNat { t1 prev.toNat with ll_next := next } else t1
    let head' := if 0 ≤ prev then s.head else next
    let t3 :=
      if 0 ≤ next then updTbl t2 next.toNat { t2 next.toNat with ll_prev := prev } else t2
    let t4 := updTbl t3 i { t3 i with ll_next := s.emptyHead }
    (0, { s with tbl := t4, head := head', emptyHead := (i : Int), nexthops := s.nexthops - 1 })
  else (refc, { s with tbl := t0 })

/-- BSDIP6Lookup::add_route (bsdip6lookup.cc:128-169): reject an existing
prefix with -EEXIST leaving the state unchanged; otherwise insert a leaf
(the radix insert is spec-modelled), update slot 0 directly for the
default route (prefix length 0), else intern the nexthop.  R_Zalloc
failure (-ENOMEM) is not modelled. -/
def add_route (s : S6) (a m gw : Nat) (port : Int) : Int × S6 :=
  match trieFind s.trie (pnorm a m) with
  | some _ => (-17, s)
  | none =>
    if m = 0 then
      (0,
        { s with
          trie := trieInsert (pnorm a m) 0 s.trie
          tbl := updTbl s.tbl 0 { s.tbl 0 with gw := gw, port := port }
          pfxCnt := s.pfxCnt + 1 })
    else
      let (nh, s1) := nexthop_ref s gw port
      (0,
        { s1 with
          trie := trieInsert (pnorm a m) nh s1.trie
          pfxCnt := s1.pfxCnt + 1 })

/-- BSDIP6Lookup::remove_route (bsdip6lookup.cc:172-206): -ENOENT when
the prefix is absent, leaving the state unchanged; otherwise delete the
leaf, reset slot 0 for the default route, else unref the leaf's
nexthop. -/
def remove_route (s : S6) (a m : Nat) : Int × S6 :=
  match trieFind s.trie (pnorm a m) with
  | none => (-2, s)
  | some nh =>
    let s1 := { s with trie := trieDel (pnorm a m) s.trie }
    if m = 0 then
      (0,
        { s1 with
          tbl := updTbl s1.tbl 0 { s1.tbl 0 with gw := 0, port := -1 }
          pfxCnt := s1.pfxCnt - 1 })
    else
      let (_, s2) := nexthop_unref s1 nh
      (0, { s2 with pfxCnt := s2.pfxCnt - 1 })

/-- BSDIP6Lookup::lookup_route (bsdip6lookup.cc:209-226): longest match
via the radix trie; on a hit return the slot's (port, gw), else port -1
(discard) with a null gateway. -/
def lookup_route (s : S6) (a : Nat) : Int × Nat :=
  match trieMatch s.trie a with
  | some l => ((s.tbl l.nh).port, (s.tbl l.nh).gw)
  | none => (-1, 0)

/-- BSDIP6Lookup::dump_routes (bsdip6lookup.cc:229-261), with the textual
rendering abstracted to the list of (prefix, gateway, port) lines in walk
order. -/
def dump_routes (s : S6) : List (Pfx × Nat × Int) :=
  s.trie.map fun l => (l.key, (s.tbl l.nh).gw, (s.tbl l.nh).port)

/-- BSDIP6Lookup::flush_walk (bsdip6lookup.cc:339-356) for one leaf:
delete it; reset slot 0 if it was the default route (nh = 0), else unref
its nexthop. -/
def flush_walk (s : S6) (l : Leaf) : S6 :=
  let s1 := { s with trie := trieDel l.key s.trie }
  if l.nh = 0 then
    { s1 with
      tbl := updTbl s1.tbl 0 { s1.tbl 0 with gw := 0, port := -1 }
      pfxCnt := s1.pfxCnt - 1 }
  else
    let (_, s2) := nexthop_unref s1 l.nh
    { s2 with pfxCnt := s2.pfxCnt - 1 }

/-- BSDIP6Lookup::flush_table (bsdip6lookup.cc:359-365): walk every leaf
and flush it. -/
def flush_table (s : S6) : S6 := s.trie.foldl flush_walk s

/-- Doubly-linked chain predicate for the live list: `dchain t p c L`
says the list L hangs from link `c` with back-pointer `p`: the code walks
it via ll_next and repairs it via ll_prev. -/
def dchain (t : Nat → Nexthop) : Int → Int → List Nat → Prop
  | _, c, [] => c = -1
  | p, c, a :: L => c = (a : Int) ∧ (t a).ll_prev = p ∧ dchain t (a : Int) (t a).ll_next L

/-- Singly-linked chain predicate for the empty list: only ll_next is
maintained there. -/
def schain (t : Nat → Nexthop) : Int → List Nat → Prop
  | c, [] => c = -1
  | c, a :: L => c = (a : Int) ∧ schain t (t a).ll_next L

/-- Number of trie leaves referencing slot `i`. -/
def countRefs (trie : List Leaf) (i : Nat) : Nat :=
  (trie.filter fun l => l.nh = i).length

/-- Sum of the refcounts of all allocated slots other than slot 0 (a slot
not on the live list has refcount 0, so this is the sum over live
slots). -/
def refSum (s : S6) : Int :=
  ∑ i ∈ Finset.range s.size, if i = 0 then 0 else (s.tbl i).refcount

/-- Number of non-default trie leaves (the model has no sentinel root
leaves; every listed leaf is a real route). -/
def leafCnt (s : S6) : Nat := (s.trie.filter fun l => l.nh ≠ 0).length

/-- Well-formedness of a backend state, with ghost lists L (live slots in
list order) and E (empty slots in list order): the invariants the code
maintains between operations. -/
structure WF (s : S6) (L E : List Nat) : Prop where
  hL : dchain s.tbl (-1) s.head L
  hE : schain s.tbl s.emptyHead E
  nodup : (L ++ E).Nodup
  bounds : ∀ i ∈ L ++ E, 1 ≤ i ∧ i < s.size
  cover : ∀ i, 1 ≤ i → i < s.size → i ∈ L ∨ i ∈ E
  liveRef : ∀ i ∈ L, 0 < (s.tbl i).refcount
  cntL : s.nexthops = L.length
  refAcc : ∀ i, 1 ≤ i → (s.tbl i).refcount = (countRefs s.trie i : Int)
  leafIn : ∀ l ∈ s.trie, (l.nh = 0 ↔ l.key.mask = 0) ∧ (l.nh ≠ 0 → l.nh ∈ L)
  sizePos : 1 ≤ s.size
  norm : ∀ l ∈ s.trie, l.key.addr = l.key.addr &&& l.key.mask

/-- States reachable from the constructor state through the public
operations. -/
inductive Reachable : S6 → Prop
  | init : Reachable init6
  | add (s : S6) (a m gw : Nat) (port : Int) :
      Reachable s → Reachable (add_route s a m gw port).2
  | rem (s : S6) (a m : Nat) :
      Reachable s → Reachable (remove_route s a m).2
  | flush (s : S6) : Reachable s → Reachable (flush_table s)

/-- Sum of non-default refcounts over the first n slots. -/
def refSumT (t : Nat → Nexthop) (n : Nat) : Int :=
  ∑ j ∈ Finset.range n, if j = 0 then 0 else (t j).refcount

/-- The slot table written by the refcount-reaches-zero branch of
BSDIP6Lookup::nexthop_unref (bsdip6lookup.cc:301-325), as a function of
the old table, the slot and the old empty-list head. -/
def unrefTbl (t : Nat → Nexthop) (i : Nat) (eh : Int) : Nat → Nexthop :=
  let refc := (t i).refcount - 1
  let t0 := updTbl t i { t i with refcount := refc }
  let t1 := updTbl t0 i { t0 i with port := -1 }
  let prev := (t i).ll_prev
  let next := (t i).ll_next
  let t2 :=
    if 0 ≤ prev then updTbl t1 prev.toNat { t1 prev.toNat with ll_next := next } else t1
  let t3 :=
    if 0 ≤ next then updTbl t2 next.toNat { t2 next.toNat with ll_prev := prev } else t2
  updTbl t3 i { t3 i with ll_next := eh }

/-- A table state with all VPORTS_MAX slots allocated (allocation bound
at the capacity, empty free list): the exhaustion scenario of
bsdip6lookup.cc:281-297. -/
def b6FullState : S6 where
  trie := []
  tbl := fun i => if i = 0 then ⟨0, -1, 0, 0, 0⟩ else zeroSlot
  size := VPORTS_MAX
  head := -1
  emptyHead := -1
  nexthops := 0
  pfxCnt := 0

end B6

namespace Dxr

/-- Constants from dxriplookup.hh:107-111: DESC_BASE_BITS 19,
FRAG_BITS 12, FRAG_MAX = 2^12 - 1. -/
def FRAG_MAX : Nat := (1 <<< 12) - 1

/-- Result of DXRIPLookup::add_route: success, an error from the backend,
or the failure of the assertion `assert(nh <= FRAG_MAX)`
(dxriplookup.cc:831). -/
inductive AddResult where
  | ok : AddResult
  | err : Int → AddResult
  | assertFail : AddResult
deriving DecidableEq, Repr

/-- Modelled from the spec: BSDIPLookup::add_route for IPv4
(bsdiplookup.cc absent from src/).  The spec gives add_route(route, set,
&old) -> status; on success the present caller DXRIPLookup::add_route
(dxriplookup.cc:824-836) binds the non-negative return to `nh`, asserts
`nh <= FRAG_MAX` and converts it to 0, so the model returns the route's
nexthop handle on success.  Duplicate without `set` is -EEXIST; duplicate
with `set` replaces the leaf's nexthop (unref the old interned entry,
reference the new one, per the spec's add_route description); a
default-route update writes slot 0 and returns 0. -/
def bsd4AddRoute (s : B6.S6) (a m gw : Nat) (port : Int) (set : Bool) : Int × B6.S6 :=
  match B6.trieFind s.trie (B6.pnorm a m) with
  | some oldNh =>
    if set then
      if m = 0 then
        (0, { s with tbl := B6.updTbl s.tbl 0 { s.tbl 0 with gw := gw, port := port } })
      else
        let (_, s1) := B6.nexthop_unref s oldNh
        let (nh, s2) := B6.nexthop_ref s1 gw port
        (nh,
          { s2 with
            trie := B6.trieInsert (B6.pnorm a m) nh (B6.trieDel (B6.pnorm a m) s2.trie) })
    else (-17, s)
  | none =>
    if m = 0 then
      (0,
        { s with
          trie := B6.trieInsert (B6.pnorm a m) 0 s.trie
          tbl := B6.updTbl s.tbl 0 { s.tbl 0 with gw := gw, port := port }
          pfxCnt := s.pfxCnt + 1 })
    else
      let (nh, s1) := B6.nexthop_ref s gw port
      ((nh : Int),
        { s1 with
          trie := B6.trieInsert (B6.pnorm a m) nh s1.trie
          pfxCnt := s1.pfxCnt + 1 })

/-- DXRIPLookup::add_route (dxriplookup.cc:824-836): delegate to the
backend; a non-negative return is the nexthop handle, asserted to fit the
FRAG_MAX direct-table encoding before the update is scheduled (the
deferred-update bookkeeping is not part of this claim).  The state is the
backend state after the call (the assertion aborts afterwards). -/
def add_route (s : B6.S6) (a m gw : Nat) (port : Int) (set : Bool) : AddResult × B6.S6 :=
  let (nh, s') := bsd4AddRoute s a m gw port set
  if 0 ≤ nh then
    if nh ≤ (FRAG_MAX : Int) then (.ok, s') else (.assertFail, s')
  else (.err nh, s')

end Dxr

-- ======================================================================
-- Theorems
-- ======================================================================

open Dir

/-- Helper: the walk over the first batch's routes produces the fragment
list dirFrags1. -/
theorem dirFrags1_eq : dirChunkFrags dirTrie1 0 = dirFrags1 := by decide

/-- Helper: the walk over the second batch's routes produces the fragment
list dirFrags2. -/
theorem dirFrags2_eq : dirChunkFrags dirTrie2 0 = dirFrags2 := by decide

set_option maxRecDepth 400000 in
/-- Stage: release phase of the first rebuild of chunk 0 (nothing to
release, every primary entry still 0xffff). -/
theorem dirStageRel1 : dirRelease 0 dirInitState = dirInitState := by decide

set_option maxRecDepth 400000 in
/-- Stage: fill of fragment range [0, 0x80) with nexthop 0. -/
theorem dirStage11 : dirFillLoop 128 0 70000 0 dirInitState = (128, dirB11) := by decide

set_option maxRecDepth 400000 in
/-- Stage: fill of fragment range [0x80, 0x100) with nexthop 1. -/
theorem dirStage12 : dirFillLoop 256 1 70000 128 dirB11 = (256, dirB12) := by decide

set_option maxRecDepth 400000 in
/-- Stage: fill of fragment range [0x100, 0x180) with nexthop 0. -/
theorem dirStage13 : dirFillLoop 384 0 70000 256 dirB12 = (384, dirB13) := by decide

set_option maxRecDepth 400000 in
/-- Stage: fill of fragment range [0x180, 0x200) with nexthop 2. -/
theorem dirStage14 : dirFillLoop 512 2 70000 384 dirB13 = (512, dirB14) := by decide

set_option maxRecDepth 400000 in
/-- Stage: trailing fill of the first rebuild, [0x200, 0xffff). -/
theorem dirStage15 : dirTailLoop 65535 0 70000 512 dirB14 = dirLit1 := by decide

/-- Helper: the first rebuild of chunk 0 from its fragment list computes
the literal state dirLit1. -/
theorem dirUpd1_eq : dirUpdateFrags 0 dirFrags1 dirInitState = dirLit1 := by
  simp only [dirUpdateFrags, dirFrags1, dirFragLoop, dirStageRel1, dirStage11, dirStage12,
    dirStage13, dirStage14, Nat.reduceMul, Nat.reduceAdd, dirStage15]

set_option maxRecDepth 400000 in
/-- Stage: release phase of the second rebuild of chunk 0: blocks 0 and 1
are pushed back onto the free list. -/
theorem dirStageRel2 : dirRelease 0 dirLit1 = dirR2 := by decide

set_option maxRecDepth 400000 in
/-- Stage: second rebuild, fill of [0, 0x80) with nexthop 0. -/
theorem dirStage21 : dirFillLoop 128 0 70000 0 dirR2 = (128, dirB21) := by decide

set_option maxRecDepth 400000 in
/-- Stage: second rebuild, fill of [0x80, 0x100) with nexthop 1. -/
theorem dirStage22 : dirFillLoop 256 1 70000 128 dirB21 = (256, dirB22) := by decide

set_option maxRecDepth 400000 in
/-- Stage: second rebuild, fill of [0x100, 0xff80) with nexthop 0. -/
theorem dirStage23 : dirFillLoop 65408 0 70000 256 dirB22 = (65408, dirB23) := by decide

set_option maxRecDepth 400000 in
/-- Stage: second rebuild, trailing fill of [0xff80, 0xffff) with
nexthop 2; the chunk's final address 0xffff is left unwritten. -/
theorem dirStage24 : dirTailLoop 65535 2 70000 65408 dirB23 = dirLit2 := by decide

/-- Helper: the second rebuild of chunk 0 from its fragment list computes
the literal state dirLit2. -/
theorem dirUpd2_eq : dirUpdateFrags 0 dirFrags2 dirLit1 = dirLit2 := by
  simp only [dirUpdateFrags, dirFrags2, dirFragLoop, dirStageRel2, dirStage21, dirStage22,
    Nat.reduceMul, Nat.reduceAdd, dirStage23, dirStage24]

set_option maxRecDepth 400000 in
/-- C1: the DIR engine's lookup and the radix backend's longest-prefix
match disagree after all pending updates have been applied.  Batch 1
installs 0.0.0.128/25 (handle 1) and 0.0.1.128/25 (handle 2) and rebuilds
chunk 0; batch 2 removes 0.0.1.128/25, installs 0.0.255.128/25 (handle 2,
recycled) and rebuilds chunk 0 again.  For address 0.0.255.255 the radix
backend returns handle 2 (route 0.0.255.128/25), but DIR returns handle 1:
update_chunk's trailing loop runs `while (first < last)` with `last` the
chunk's inclusive final address, so the secondary slot of the final
address is never written and retains the handle the recycled block held
from the previous batch. -/
theorem dir_bsd_lookup_disagree :
    dirLookupNexthop (dirUpdateChunk dirTrie2 0 (dirUpdateChunk dirTrie1 0 dirInitState))
        0xffff = 1 ∧
    bsdLookupNexthop dirTrie2 0xffff = 2 ∧
    dirLookupNexthop (dirUpdateChunk dirTrie2 0 (dirUpdateChunk dirTrie1 0 dirInitState))
        0xffff ≠ bsdLookupNexthop dirTrie2 0xffff := by
  simp only [dirUpdateChunk, dirFrags1_eq, dirFrags2_eq, dirUpd1_eq, dirUpd2_eq]
  decide

set_option maxRecDepth 400000 in
/-- Stage: rebuild of chunk 0 with the single fragment (0, 4096): the
trailing loop writes every /24 as the direct entry 4096 ^ 0xffff. -/
theorem dirStageC2 : dirTailLoop 65535 4096 70000 0 dirInitState = dirC2Lit := by decide

/-- Helper: the rebuild with fragment list [(0, 4096)] computes
dirC2Lit. -/
theorem dirUpdC2_eq : dirUpdateFrags 0 [(0, 4096)] dirInitState = dirC2Lit := by
  simp only [dirUpdateFrags, dirFragLoop, dirStageRel1, Nat.reduceMul, Nat.reduceAdd,
    dirStageC2]

set_option maxRecDepth 400000 in
/-- C2: the writer encodes a direct nexthop as `nh ^ 0xffff` (bit 0x8000
set for any handle below 0x8000), but the reader lookup_nexthop tests bit
0x1000.  For nexthop handle 4096 (bit 12 set; up to 8191 distinct handles
exist under VPORTS_MAX = 8192), the direct entry is 0xefff: its 0x8000
bit is set, yet lookup_nexthop takes the secondary branch and returns an
unrelated secondary cell instead of pri ^ 0xffff = 4096. -/
theorem dir_lookup_tag_mismatch :
    priRead (dirUpdateFrags 0 [(0, 4096)] dirInitState) 0 = 0xefff ∧
    0xefff &&& 0x8000 ≠ 0 ∧
    0xefff ^^^ 0xffff = 4096 ∧
    dirLookupNexthop (dirUpdateFrags 0 [(0, 4096)] dirInitState) 0 =
      secRead (dirUpdateFrags 0 [(0, 4096)] dirInitState) ((0xefff <<< 8) + 0) ∧
    dirLookupNexthop (dirUpdateFrags 0 [(0, 4096)] dirInitState) 0 ≠ 4096 := by
  simp only [dirUpdC2_eq]
  decide

set_option maxRecDepth 400000 in
/-- C3: after update_chunk completes, the chunk's final address is NOT
mapped to the handle of the covering fragment.  With the fragment lists
of the two batches of the scenario above, the final address 0.0.255.255
of chunk 0 is covered by fragment (0xff80, 2), but the arrays map it to
handle 1, the stale content the recycled secondary block received in the
first batch: the trailing loop's strict bound `first < last` skips the
final address. -/
theorem dir_update_chunk_last_addr_stale :
    fragCover 0xffff dirFrags2 0 = 2 ∧
    dirDecode (dirUpdateFrags 0 dirFrags2 (dirUpdateFrags 0 dirFrags1 dirInitState)) 0xffff = 1 ∧
    dirDecode (dirUpdateFrags 0 dirFrags2 (dirUpdateFrags 0 dirFrags1 dirInitState)) 0xffff ≠
      fragCover 0xffff dirFrags2 0 := by
  simp only [dirUpd1_eq, dirUpd2_eq]
  decide

/-- Helper: free blocks k..32767 are chained when every block's first
slot holds its successor. -/
theorem dirChain_range' (sec : Nat → Nat)
    (h : ∀ b, 1 ≤ b → b < 32768 → sec (b <<< 8) = b + 1) :
    ∀ n k, 1 ≤ k → k + n = 32768 → dirChain sec k (List.range' k n) := by
  intro n
  induction n with
  | zero => intro k _ _; trivial
  | succ m ih =>
    intro k hk hsum
    rw [List.range'_succ]
    refine ⟨rfl, ?_⟩
    have hb : k < 32768 := by omega
    rw [h k hk hb]
    exact ih (k + 1) (by omega) (by omega)

set_option maxRecDepth 400000 in
/-- C7: the secondary free-list invariant is not preserved by
update_chunk.  dirStateC7 is the engine state after chunk 1 was rebuilt
for route 0.1.0.128/25 (block 0 allocated to primary entry 0x100, blocks
1..32767 free and correctly chained).  Rebuilding chunk 1 after the route
is removed releases block 0, but writes the free-list link into
_secondary[i << 8] with i = 0x100 the primary index -- block 0x100's
first slot -- instead of the freed block's own first slot; the resulting
free list starts at block 0 whose first slot still holds the nexthop
value 0, so the chain repeats block 0 and no duplicate-free chain of the
32768 unused blocks exists. -/
theorem dir_free_inv_not_preserved :
    dirFreeInv dirStateC7 ∧ ¬ dirFreeInv (dirUpdateChunk [] 1 dirStateC7) := by
  constructor
  · refine ⟨List.range' 1 32767, ?_, by simp [dirStateC7], List.nodup_range' 1 32767⟩
    refine dirChain_range' _ ?_ 32767 1 le_rfl (by omega)
    intro b hb1 hb2
    have hne : ¬ b <<< 8 = 0 := by
      simp only [Nat.shiftLeft_eq]
      positivity
    simp only [secRead, dirStateC7, logGet, if_neg hne]
    rw [secInit, if_pos]
    · rw [Nat.shiftLeft_eq]
      omega
    · rw [Nat.shiftLeft_eq]
      constructor
      · omega
      · omega
  · rintro ⟨fl, hc, hlen, hnd⟩
    have hfacts : ((dirUpdateChunk [] 1 dirStateC7).freeHead,
        (dirUpdateChunk [] 1 dirStateC7).used,
        secRead (dirUpdateChunk [] 1 dirStateC7) 0) = (0, 0, 0) := by decide
    have h0 := congrArg Prod.fst hfacts
    have h1 := congrArg (fun p => p.2.1) hfacts
    have h2 := congrArg (fun p => p.2.2) hfacts
    simp only at h0 h1 h2
    rw [h1] at hlen
    match fl, hlen with
    | a :: b :: t, _ =>
      simp only [dirChain] at hc
      obtain ⟨ha, hb, -⟩ := hc
      have ha0 : a = 0 := by rw [ha, h0]
      have hb0 : b = 0 := by
        rw [hb, ha0]
        rw [show (0 : Nat) <<< 8 = 0 by decide]
        exact h2
      rw [ha0, hb0] at hnd
      simp at hnd


namespace B6

theorem updTbl_same (t : Nat → Nexthop) (i : Nat) (v : Nexthop) : updTbl t i v i = v := by
  simp [updTbl]

theorem updTbl_other (t : Nat → Nexthop) (i : Nat) (v : Nexthop) (j : Nat) (h : j ≠ i) :
    updTbl t i v j = t j := by
  simp [updTbl, h]

/-- Chains only look at the ll fields of their members. -/
theorem dchain_congr (t t' : Nat → Nexthop) :
    ∀ (L : List Nat) (p c : Int),
      (∀ a ∈ L, (t' a).ll_next = (t a).ll_next ∧ (t' a).ll_prev = (t a).ll_prev) →
      dchain t p c L → dchain t' p c L := by
  intro L
  induction L with
  | nil => intro p c _ h; exact h
  | cons a L ih =>
    intro p c hagree h
    obtain ⟨hc, hp, ht⟩ := h
    obtain ⟨hn, hpv⟩ := hagree a (List.mem_cons_self a L)
    refine ⟨hc, by rw [hpv]; exact hp, ?_⟩
    rw [hn]
    exact ih a (t a).ll_next (fun b hb => hagree b (List.mem_cons_of_mem a hb)) ht

/-- The empty list only looks at ll_next. -/
theorem schain_congr (t t' : Nat → Nexthop) :
    ∀ (E : List Nat) (c : Int),
      (∀ a ∈ E, (t' a).ll_next = (t a).ll_next) →
      schain t c E → schain t' c E := by
  intro E
  induction E with
  | nil => intro c _ h; exact h
  | cons a E ih =>
    intro c hagree h
    obtain ⟨hc, ht⟩ := h
    refine ⟨hc, ?_⟩
    rw [hagree a (List.mem_cons_self a E)]
    exact ih (t a).ll_next (fun b hb => hagree b (List.mem_cons_of_mem a hb)) ht

/-- A successful linear scan returns a member of the live chain holding
the sought pair. -/
theorem findNh_mem (t : Nat → Nexthop) (gw : Nat) (port : Int) :
    ∀ (fuel : Nat) (L : List Nat) (p c : Int),
      dchain t p c L → 0 ≤ findNh t gw port fuel c →
      (findNh t gw port fuel c).toNat ∈ L ∧
      (t (findNh t gw port fuel c).toNat).gw = gw ∧
      (t (findNh t gw port fuel c).toNat).port = port := by
  intro fuel
  induction fuel with
  | zero => intro L p c _ hge; simp [findNh] at hge
  | succ m ih =>
    intro L p c hch hge
    match L, hch with
    | [], hch =>
      rw [show c = -1 from hch] at hge ⊢
      simp [findNh] at hge
    | a :: L', hch =>
      obtain ⟨hc, hp, ht⟩ := hch
      rw [hc] at hge ⊢
      by_cases hmatch : (t (a : Int).toNat).gw = gw ∧ (t (a : Int).toNat).port = port
      · rw [findNh, if_neg (by omega), if_pos hmatch] at hge ⊢
        simpa using hmatch
      · rw [findNh, if_neg (by omega), if_neg hmatch] at hge ⊢
        simp only [Int.toNat_natCast] at *
        have := ih L' a (t a).ll_next ht hge
        exact ⟨List.mem_cons_of_mem a this.1, this.2⟩

end B6

namespace B6

/-- Rewriting the back-pointer stored in a chain's head element rebases
the chain on a new back-pointer. -/
theorem dchain_set_prev (t : Nat → Nexthop) (a : Nat) (L : List Nat) (p q c : Int)
    (hnd : (a :: L).Nodup) (h : dchain t p c (a :: L)) :
    dchain (updTbl t a { t a with ll_prev := q }) q c (a :: L) := by
  obtain ⟨hc, _, ht⟩ := h
  refine ⟨hc, by rw [updTbl_same], ?_⟩
  rw [updTbl_same]
  have hna : a ∉ L := (List.nodup_cons.mp hnd).1
  exact dchain_congr t _ L a (t a).ll_next
    (fun b hb => by
      have : b ≠ a := fun hba => hna (hba ▸ hb)
      rw [updTbl_other _ _ _ _ this]
      exact ⟨rfl, rfl⟩) ht

/-- The forward link of a chain member points at the next member (or -1
at the end). -/
theorem dchain_ll_next_last (t : Nat → Nexthop) (i : Nat) :
    ∀ (X : List Nat) (p c : Int) (B : List Nat),
      dchain t p c (X ++ i :: B) →
      (t i).ll_next = (match B with | [] => (-1 : Int) | b :: _ => (b : Int)) := by
  intro X
  induction X with
  | nil =>
    intro p c B h
    obtain ⟨hc, hp, ht⟩ := h
    match B, ht with
    | [], ht => exact ht
    | b :: B', ht => exact ht.1
  | cons x X ih =>
    intro p c B h
    obtain ⟨hc, hp, ht⟩ := h
    exact ih x (t x).ll_next B ht

/-- The running fold that keeps the last element seen (or the seed). -/
theorem foldl_last_mem (X : List Nat) :
    ∀ p : Int, X = [] ∨ ∃ y ∈ X, X.foldl (fun _ y => (y : Int)) p = (y : Int) := by
  induction X with
  | nil => intro _; exact Or.inl rfl
  | cons x X ih =>
    intro p
    right
    rcases ih (x : Int) with h | ⟨y, hy, hEq⟩
    · subst h
      exact ⟨x, by simp, by simp⟩
    · exact ⟨y, List.mem_cons_of_mem x hy, by simpa using hEq⟩

/-- The back link of a chain member equals the chain's back-pointer
carried over the preceding members. -/
theorem dchain_ll_prev_last (t : Nat → Nexthop) (i : Nat) :
    ∀ (X : List Nat) (p c : Int) (B : List Nat),
      dchain t p c (X ++ i :: B) →
      (t i).ll_prev = X.foldl (fun _ y => (y : Int)) p := by
  intro X
  induction X with
  | nil =>
    intro p c B h
    exact h.2.1
  | cons x X ih =>
    intro p c B h
    obtain ⟨hc, hp, ht⟩ := h
    simpa using ih (x : Int) (t x).ll_next B ht

/-- Unlinking element i from a doubly-linked chain: if the new table t'
redirects the forward link of i's predecessor to i's successor and the
back link of i's successor to i's predecessor (and i is no longer on the
chain), the chain without i is intact. -/
theorem dchain_unlink (t t' : Nat → Nexthop) (i : Nat)
    (hpn : ∀ j, j ≠ i →
      (t' j).ll_next = (if (t i).ll_prev = (j : Int) then (t i).ll_next else (t j).ll_next))
    (hpp : ∀ j, j ≠ i →
      (t' j).ll_prev = (if (t i).ll_next = (j : Int) then (t i).ll_prev else (t j).ll_prev)) :
    ∀ (A : List Nat) (p c : Int) (B : List Nat),
      dchain t p c (A ++ i :: B) →
      (A ++ i :: B).Nodup →
      (∀ j ∈ B, p ≠ (j : Int)) →
      dchain t' p (if A = [] then (t i).ll_next else c) (A ++ B) := by
  intro A
  induction A with
  | nil =>
    intro p c B h hnd hp
    obtain ⟨hc, hprev, ht⟩ := h
    simp only [List.nil_append] at *
    match B, ht with
    | [], ht => simpa using ht
    | b :: B', ht =>
      obtain ⟨hb, hbp, htt⟩ := ht
      have hbi : b ≠ i := by
        intro hEq
        rw [hEq] at hnd
        simp at hnd
      refine ⟨hb, ?_, ?_⟩
      · rw [hpp b hbi, if_pos (by rw [hb]), hprev]
      · have hbB' : b ∉ B' := by
          have := hnd.of_cons
          exact (List.nodup_cons.mp this).1
        have hiB : i ∉ b :: B' := (List.nodup_cons.mp hnd).1
        rw [hpn b hbi, if_neg ?_]
        · refine dchain_congr t t' B' b (t b).ll_next ?_ htt
          intro j hj
          have hji : j ≠ i := by
            intro hEq
            exact hiB (hEq ▸ List.mem_cons_of_mem b hj)
          constructor
          · rw [hpn j hji, if_neg ?_]
            rw [hprev]
            exact fun hEq => hp j (List.mem_cons_of_mem b hj) hEq
          · rw [hpp j hji, if_neg ?_]
            rw [hb]
            intro hEq
            refine hbB' ?_
            rw [Nat.cast_inj.mp hEq]
            exact hj
        · rw [hprev]
          exact fun hEq => hp b (List.mem_cons_self b B') hEq
  | cons a A ih =>
    intro p c B h hnd hp
    obtain ⟨hc, hprev, ht⟩ := h
    have hai : a ≠ i := by
      intro hEq
      rw [hEq] at hnd
      simp at hnd
    have hnext := dchain_ll_next_last t i (a :: A) p c B ⟨hc, hprev, ht⟩
    have hanext : (t i).ll_next ≠ (a : Int) := by
      rw [hnext]
      match B with
      | [] => simp
      | b :: B' =>
        have : a ≠ b := by
          intro hEq
          rw [hEq] at hnd
          simp at hnd
        simpa using fun hEq => this (by exact_mod_cast hEq.symm)
    have hA : dchain t' a (if A = [] then (t i).ll_next else (t a).ll_next) (A ++ B) := by
      refine ih a (t a).ll_next B ht hnd.of_cons ?_
      intro j hj hEq
      have : a ∉ A ++ i :: B := (List.nodup_cons.mp hnd).1
      have haj : a = j := by exact_mod_cast hEq
      exact this (haj ▸ List.mem_append_right _ (List.mem_cons_of_mem i hj))
    simp only [List.cons_append, List.nil_append]
    refine ⟨hc, ?_, ?_⟩
    · rw [hpp a hai, if_neg hanext]
      exact hprev
    · rw [hpn a hai]
      by_cases hA0 : A = []
      · subst hA0
        have hpr : (t i).ll_prev = (a : Int) := by
          obtain ⟨hia, hipv, _⟩ := ht
          exact hipv
        rw [if_pos hpr]
        simpa using hA
      · have hpr : (t i).ll_prev ≠ (a : Int) := by
          have hlast := dchain_ll_prev_last t i A (a : Int) (t a).ll_next B ht
          rcases foldl_last_mem A (a : Int) with h | ⟨y, hy, hEq⟩
          · exact absurd h hA0
          · rw [hlast, hEq]
            have hya : y ≠ a := by
              intro hContra
              have : a ∉ A ++ i :: B := (List.nodup_cons.mp hnd).1
              exact this (List.mem_append_left _ (hContra ▸ hy))
            simpa using fun hh => hya (by exact_mod_cast hh)
        rw [if_neg hpr]
        rw [if_neg hA0] at hA
        exact hA

end B6

namespace B6

theorem refSumT_upd (t : Nat → Nexthop) (n i : Nat) (v : Nexthop)
    (hi : i < n) (h0 : 1 ≤ i) :
    refSumT (updTbl t i v) n = refSumT t n + (v.refcount - (t i).refcount) := by
  unfold refSumT
  have hmem : i ∈ Finset.range n := Finset.mem_range.mpr hi
  rw [Finset.sum_eq_sum_diff_singleton_add hmem, Finset.sum_eq_sum_diff_singleton_add hmem
    (fun j => if j = 0 then 0 else (t j).refcount)]
  have hcongr :
      ∑ j ∈ Finset.range n \ {i}, (if j = 0 then 0 else (updTbl t i v j).refcount) =
      ∑ j ∈ Finset.range n \ {i}, (if j = 0 then 0 else (t j).refcount) := by
    refine Finset.sum_congr rfl ?_
    intro j hj
    have hji : j ≠ i := by
      intro hEq
      simp [hEq] at hj
    rw [updTbl_other _ _ _ _ hji]
  rw [hcongr, updTbl_same]
  have : i ≠ 0 := by omega
  simp only [this, if_false]
  ring

theorem refSumT_congr (t t' : Nat → Nexthop) (n : Nat)
    (h : ∀ j, 1 ≤ j → j < n → (t' j).refcount = (t j).refcount) :
    refSumT t' n = refSumT t n := by
  unfold refSumT
  refine Finset.sum_congr rfl ?_
  intro j hj
  by_cases hj0 : j = 0
  · simp [hj0]
  · have := h j (by omega) (Finset.mem_range.mp hj)
    simp [hj0, this]

theorem refSumT_succ (t : Nat → Nexthop) (n : Nat) :
    refSumT t (n + 1) = refSumT t n + (if n = 0 then 0 else (t n).refcount) := by
  unfold refSumT
  rw [Finset.sum_range_succ]

/-- Linking a fresh slot at the head of the live list: writing the new
slot with ll_next = old head, ll_prev = -1 and repairing the old head's
back pointer yields a chain extended by the new slot. -/
theorem dchain_link_head (t : Nat → Nexthop) (hd : Int) (L : List Nat) (e : Nat)
    (v : Nexthop) (hvnext : v.ll_next = hd) (hvprev : v.ll_prev = -1)
    (hL : dchain t (-1) hd L) (hnd : L.Nodup) (he : e ∉ L) :
    dchain
      (if 0 ≤ hd then
        updTbl (updTbl t e v) hd.toNat { (updTbl t e v) hd.toNat with ll_prev := (e : Int) }
      else updTbl t e v)
      (-1) (e : Int) (e :: L) := by
  match L, hL with
  | [], hL =>
    rw [show hd = -1 from hL]
    rw [if_neg (by decide)]
    refine ⟨rfl, by rw [updTbl_same]; exact hvprev, ?_⟩
    rw [updTbl_same, hvnext]
    exact hL
  | a :: L2, hL =>
    have hha : hd = (a : Int) := hL.1
    rw [hha, if_pos (by positivity)]
    have hea : e ≠ a := by
      intro hEq
      exact he (hEq ▸ List.mem_cons_self a L2)
    have hL1 : dchain (updTbl t e v) (-1) (a : Int) (a :: L2) := by
      refine dchain_congr t _ (a :: L2) (-1) (a : Int) ?_ (hha ▸ hL)
      intro b hb
      have hbe : b ≠ e := fun hEq => he (hEq ▸ hb)
      rw [updTbl_other _ _ _ _ hbe]
      exact ⟨rfl, rfl⟩
    have hset := dchain_set_prev (updTbl t e v) a L2 (-1) (e : Int) (a : Int) hnd hL1
    simp only [Int.toNat_natCast]
    refine ⟨rfl, ?_, ?_⟩
    · rw [updTbl_other _ _ _ _ hea, updTbl_same]
      exact hvprev
    · rw [updTbl_other _ _ _ _ hea, updTbl_same, hvnext, hha]
      exact hset

/-- Effect of nexthop_ref on a well-formed table: the returned slot is
live at the head of the live list, every refcount other than the new
slot is unchanged, and the refcount sum grows by exactly one. -/
theorem nexthop_ref_spec (s : S6) (L E : List Nat) (gw : Nat) (port : Int)
    (nh : Nat) (s' : S6) (heq : nexthop_ref s gw port = (nh, s'))
    (hL : dchain s.tbl (-1) s.head L)
    (hE : schain s.tbl s.emptyHead E)
    (hnd : (L ++ E).Nodup)
    (hb : ∀ i ∈ L ++ E, 1 ≤ i ∧ i < s.size)
    (hcov : ∀ i, 1 ≤ i → i < s.size → i ∈ L ∨ i ∈ E)
    (hcnt : s.nexthops = L.length)
    (hsz : 1 ≤ s.size)
    (hERef : ∀ i ∈ E, (s.tbl i).refcount = 0)
    (hFresh : ∀ i, s.size ≤ i → (s.tbl i).refcount = 0) :
    ∃ L' E',
      dchain s'.tbl (-1) s'.head L' ∧
      schain s'.tbl s'.emptyHead E' ∧
      (L' ++ E').Nodup ∧
      (∀ i ∈ L' ++ E', 1 ≤ i ∧ i < s'.size) ∧
      (∀ i, 1 ≤ i → i < s'.size → i ∈ L' ∨ i ∈ E') ∧
      s'.nexthops = L'.length ∧
      (1 ≤ s'.size ∧ s.size ≤ s'.size) ∧
      (s'.trie = s.trie ∧ s'.pfxCnt = s.pfxCnt) ∧
      (1 ≤ nh ∧ nh ∈ L' ∧ (∀ i ∈ L, i ∈ L')) ∧
      (∀ j, 1 ≤ j → (s'.tbl j).refcount = (s.tbl j).refcount + (if j = nh then 1 else 0)) ∧
      refSumT s'.tbl s'.size = refSumT s.tbl s.size + 1 ∧
      ((∀ i ∈ L, 0 < (s.tbl i).refcount) → ∀ i ∈ L', 0 < (s'.tbl i).refcount) ∧
      (s'.size = s.size ∨ (s'.size = s.size + 1 ∧ nh = s.size ∧ E = [])) ∧
      nh < s'.size ∧
      (∀ i ∈ E', i ∈ E) := by
  simp only [nexthop_ref] at heq
  by_cases hf : 0 ≤ findNh s.tbl gw port s.size s.head
  · rw [if_pos hf] at heq
    obtain ⟨hmemL, hgw, hport⟩ := findNh_mem s.tbl gw port s.size L (-1) s.head hL hf
    injection heq with h1 h2
    subst h1
    subst h2
    dsimp only
    have hfb := hb _ (List.mem_append_left E hmemL)
    refine ⟨L, E, ?_, ?_, hnd, hb, hcov, hcnt, ⟨hsz, le_refl _⟩, ⟨rfl, rfl⟩,
      ⟨hfb.1, hmemL, fun i hi => hi⟩, ?_, ?_, ?_, Or.inl rfl, hfb.2, fun i hi => hi⟩
    · refine dchain_congr s.tbl _ L (-1) s.head ?_ hL
      intro a _
      by_cases ha : a = (findNh s.tbl gw port s.size s.head).toNat
      · subst ha
        rw [updTbl_same]
        exact ⟨rfl, rfl⟩
      · rw [updTbl_other _ _ _ _ ha]
        exact ⟨rfl, rfl⟩
    · refine schain_congr s.tbl _ E s.emptyHead ?_ hE
      intro a _
      by_cases ha : a = (findNh s.tbl gw port s.size s.head).toNat
      · subst ha
        rw [updTbl_same]
      · rw [updTbl_other _ _ _ _ ha]
    · intro j _
      by_cases hj : j = (findNh s.tbl gw port s.size s.head).toNat
      · subst hj
        rw [updTbl_same, if_pos rfl]
      · rw [updTbl_other _ _ _ _ hj, if_neg hj]
        omega
    · rw [refSumT_upd s.tbl s.size _ _ hfb.2 hfb.1]
      dsimp only
      omega
    · intro hlive i hi
      by_cases hif : i = (findNh s.tbl gw port s.size s.head).toNat
      · subst hif
        rw [updTbl_same]
        have := hlive _ hmemL
        dsimp only
        omega
      · rw [updTbl_other _ _ _ _ hif]
        exact hlive i hi
  · rw [if_neg hf] at heq
    by_cases hEmp : 0 ≤ s.emptyHead
    · rw [if_pos hEmp] at heq
      match E, hE with
      | [], hE => exact absurd (show s.emptyHead = -1 from hE) (by omega)
      | e :: E2, hE =>
        obtain ⟨hehead, hE2⟩ := hE
        have htoe : s.emptyHead.toNat = e := by rw [hehead]; exact Int.toNat_natCast e
        rw [htoe, hehead] at heq
        injection heq with h1 h2
        subst h1
        subst h2
        dsimp only
        simp only [if_pos (Int.natCast_nonneg e)]
        have heL : e ∉ L := by
          have := (List.nodup_middle.mp hnd)
          exact fun hc => (List.nodup_cons.mp this).1 (List.mem_append_left E2 hc)
        have heE2 : e ∉ E2 := by
          have := (List.nodup_middle.mp hnd)
          exact fun hc => (List.nodup_cons.mp this).1 (List.mem_append_right L hc)
        have hLnd : L.Nodup := (List.Nodup.of_append_left hnd)
        have heb := hb e (List.mem_append_right L (List.mem_cons_self e E2))
        have hchain := dchain_link_head s.tbl s.head L e ⟨gw, port, 1, s.head, -1⟩
          rfl rfl hL hLnd heL
        have htbl2 : ∀ j, j ≠ e →
            (∀ a ∈ L, (j : Int) ≠ s.head) → True := fun _ _ _ => trivial
        refine ⟨e :: L, E2, hchain, ?_, ?_, ?_, ?_, ?_, ⟨hsz, le_refl _⟩, ⟨trivial, trivial⟩,
          ⟨heb.1, List.mem_cons_self e L, fun i hi => List.mem_cons_of_mem e hi⟩,
          ?_, ?_, ?_, Or.inl trivial, heb.2, fun i hi => List.mem_cons_of_mem e hi⟩
        · refine schain_congr s.tbl _ E2 (s.tbl e).ll_next ?_ hE2
          intro a ha
          have hae : a ≠ e := fun hc => heE2 (hc ▸ ha)
          by_cases hh : 0 ≤ s.head
          · rw [if_pos hh]
            have hahd : a ≠ s.head.toNat ∨ a = s.head.toNat := by tauto
            by_cases hax : a = s.head.toNat
            · subst hax
              rw [updTbl_same, updTbl_other _ _ _ _ hae]
            · rw [updTbl_other _ _ _ _ hax, updTbl_other _ _ _ _ hae]
          · rw [if_neg hh, updTbl_other _ _ _ _ hae]
        · rw [show (e :: L) ++ E2 = e :: (L ++ E2) from rfl]
          exact List.nodup_middle.mp hnd
        · intro i hi
          rw [show (e :: L) ++ E2 = e :: (L ++ E2) from rfl] at hi
          rcases List.mem_cons.mp hi with h | h
          · exact h ▸ heb
          · rcases List.mem_append.mp h with h' | h'
            · exact hb i (List.mem_append_left _ h')
            · exact hb i (List.mem_append_right _ (List.mem_cons_of_mem e h'))
        · intro i h1 h2
          rcases hcov i h1 h2 with h | h
          · exact Or.inl (List.mem_cons_of_mem e h)
          · rcases List.mem_cons.mp h with h' | h'
            · exact Or.inl (h' ▸ List.mem_cons_self e L)
            · exact Or.inr h'
        · simp only [List.length_cons]
          omega
        · intro j hj
          have hrefe : (s.tbl e).refcount = 0 :=
            hERef e (List.mem_cons_self e E2)
          by_cases hje : j = e
          · subst hje
            rw [if_pos rfl, hrefe]
            by_cases hh : 0 ≤ s.head
            · rw [if_pos hh]
              by_cases hjh : j = s.head.toNat
              · rw [hjh, updTbl_same]
                dsimp only
                rw [updTbl_same]
                simp
              · rw [updTbl_other _ _ _ _ hjh, updTbl_same]
                simp
            · rw [if_neg hh, updTbl_same]
              simp
          · rw [if_neg hje]
            by_cases hh : 0 ≤ s.head
            · rw [if_pos hh]
              by_cases hjh : j = s.head.toNat
              · subst hjh
                rw [updTbl_same, updTbl_other _ _ _ _ hje]
                simp
              · rw [updTbl_other _ _ _ _ hjh, updTbl_other _ _ _ _ hje]
                simp
            · rw [if_neg hh, updTbl_other _ _ _ _ hje]
              simp
        · have hs1 : refSumT (updTbl s.tbl e ⟨gw, port, 1, s.head, -1⟩) s.size =
              refSumT s.tbl s.size + 1 := by
            rw [refSumT_upd s.tbl s.size e _ heb.2 heb.1]
            rw [hERef e (List.mem_cons_self e E2)]
            simp
          by_cases hh : 0 ≤ s.head
          · rw [if_pos hh]
            refine Eq.trans (refSumT_congr (updTbl s.tbl e ⟨gw, port, 1, s.head, -1⟩) _ s.size ?_) hs1
            intro j _ _
            by_cases hjh : j = s.head.toNat
            · subst hjh
              rw [updTbl_same]
            · rw [updTbl_other _ _ _ _ hjh]
          · rw [if_neg hh]
            exact hs1
        · intro hlive i hi
          have hupdval : ∀ j, 1 ≤ j → j ≠ e →
              ((if 0 ≤ s.head then
                  updTbl (updTbl s.tbl e ⟨gw, port, 1, s.head, -1⟩) s.head.toNat
                    { (updTbl s.tbl e ⟨gw, port, 1, s.head, -1⟩) s.head.toNat with
                        ll_prev := (e : Int) }
                else updTbl s.tbl e ⟨gw, port, 1, s.head, -1⟩) j).refcount =
              (s.tbl j).refcount := by
            intro j _ hje
            by_cases hh : 0 ≤ s.head
            · rw [if_pos hh]
              by_cases hjh : j = s.head.toNat
              · subst hjh
                rw [updTbl_same, updTbl_other _ _ _ _ hje]
              · rw [updTbl_other _ _ _ _ hjh, updTbl_other _ _ _ _ hje]
            · rw [if_neg hh, updTbl_other _ _ _ _ hje]
          rcases List.mem_cons.mp hi with h | h
          · subst h
            have : ∀ tb : Nat → Nexthop, (updTbl tb i ⟨gw, port, 1, s.head, -1⟩ i).refcount = 1 :=
              fun tb => by rw [updTbl_same]
            by_cases hh : 0 ≤ s.head
            · rw [if_pos hh]
              by_cases hih : i = s.head.toNat
              · rw [hih, updTbl_same]
                rw [← hih, updTbl_same]
                simp
              · rw [updTbl_other _ _ _ _ hih, updTbl_same]
                simp
            · rw [if_neg hh, updTbl_same]
              simp
          · have hie : i ≠ e := fun hc => heL (hc ▸ h)
            rw [hupdval i (hb i (List.mem_append_left _ h)).1 hie]
            exact hlive i h
    · rw [if_neg hEmp] at heq
      have hEnil : E = [] := by
        match E, hE with
        | [], _ => rfl
        | x :: E2, hE => exact absurd (hE.1 ▸ Int.natCast_nonneg x) hEmp
      subst hEnil
      injection heq with h1 h2
      subst h1
      subst h2
      dsimp only
      simp only [if_neg hEmp]
      have heL : s.size ∉ L := by
        intro hc
        have := hb _ (List.mem_append_left [] hc)
        omega
      have hLnd : L.Nodup := List.Nodup.of_append_left hnd
      have hchain := dchain_link_head s.tbl s.head L s.size ⟨gw, port, 1, s.head, -1⟩
        rfl rfl hL hLnd heL
      refine ⟨s.size :: L, [], hchain, ?_, ?_, ?_, ?_, ?_, ⟨by omega, by omega⟩, ⟨trivial, trivial⟩,
        ⟨hsz, List.mem_cons_self _ L, fun i hi => List.mem_cons_of_mem _ hi⟩,
        ?_, ?_, ?_, Or.inr ⟨trivial, trivial, trivial⟩, by omega, fun i hi => hi⟩
      · exact hE
      · simp only [List.append_nil] at hnd ⊢
        exact List.nodup_cons.mpr ⟨heL, hnd⟩
      · intro i hi
        simp only [List.append_nil] at hi ⊢
        rcases List.mem_cons.mp hi with h | h
        · subst h
          omega
        · have := hb i (List.mem_append_left [] h)
          omega
      · intro i h1 h2
        by_cases his : i = s.size
        · exact Or.inl (his ▸ List.mem_cons_self _ L)
        · have : i < s.size := by
            omega
          rcases hcov i h1 this with h | h
          · exact Or.inl (List.mem_cons_of_mem _ h)
          · exact absurd h (List.not_mem_nil i)
      · simp only [List.length_cons]
        omega
      · intro j hj
        have hrefz : (s.tbl s.size).refcount = 0 := hFresh s.size (le_refl _)
        by_cases hje : j = s.size
        · subst hje
          rw [if_pos rfl, hrefz]
          by_cases hh : 0 ≤ s.head
          · rw [if_pos hh]
            by_cases hjh : s.size = s.head.toNat
            · rw [hjh, updTbl_same]
              dsimp only
              rw [updTbl_same]
              simp
            · rw [updTbl_other _ _ _ _ hjh, updTbl_same]
              simp
          · rw [if_neg hh, updTbl_same]
            simp
        · rw [if_neg hje]
          by_cases hh : 0 ≤ s.head
          · rw [if_pos hh]
            by_cases hjh : j = s.head.toNat
            · subst hjh
              rw [updTbl_same, updTbl_other _ _ _ _ hje]
              simp
            · rw [updTbl_other _ _ _ _ hjh, updTbl_other _ _ _ _ hje]
              simp
          · rw [if_neg hh, updTbl_other _ _ _ _ hje]
            simp
      · have hs1 : refSumT (updTbl s.tbl s.size ⟨gw, port, 1, s.head, -1⟩) (s.size + 1) =
            refSumT s.tbl s.size + 1 := by
          rw [refSumT_upd s.tbl (s.size + 1) s.size _ (by omega) hsz]
          rw [refSumT_succ, hFresh s.size (le_refl _)]
          have : ¬ s.size = 0 := by omega
          simp [this]
        by_cases hh : 0 ≤ s.head
        · rw [if_pos hh]
          refine Eq.trans (refSumT_congr (updTbl s.tbl s.size ⟨gw, port, 1, s.head, -1⟩) _ (s.size + 1) ?_) hs1
          intro j _ _
          by_cases hjh : j = s.head.toNat
          · subst hjh
            rw [updTbl_same]
          · rw [updTbl_other _ _ _ _ hjh]
        · rw [if_neg hh]
          exact hs1
      · intro hlive i hi
        rcases List.mem_cons.mp hi with h | h
        · subst h
          by_cases hh : 0 ≤ s.head
          · rw [if_pos hh]
            by_cases hih : s.size = s.head.toNat
            · rw [hih, updTbl_same]
              dsimp only
              rw [updTbl_same]
              simp
            · rw [updTbl_other _ _ _ _ hih, updTbl_same]
              simp
          · rw [if_neg hh, updTbl_same]
            simp
        · have hie : i ≠ s.size := fun hc => heL (hc ▸ h)
          by_cases hh : 0 ≤ s.head
          · rw [if_pos hh]
            by_cases hjh : i = s.head.toNat
            · subst hjh
              rw [updTbl_same, updTbl_other _ _ _ _ hie]
              exact hlive _ h
            · rw [updTbl_other _ _ _ _ hjh, updTbl_other _ _ _ _ hie]
              exact hlive _ h
          · rw [if_neg hh, updTbl_other _ _ _ _ hie]
            exact hlive _ h

end B6

namespace B6

/-- nexthop_unref, refactored through unrefTbl. -/
theorem nexthop_unref_eq (s : S6) (i : Nat) :
    nexthop_unref s i =
      (if (s.tbl i).refcount - 1 = 0 then
        (0, { s with
          tbl := unrefTbl s.tbl i s.emptyHead,
          head := if 0 ≤ (s.tbl i).ll_prev then s.head else (s.tbl i).ll_next,
          emptyHead := (i : Int),
          nexthops := s.nexthops - 1 })
      else ((s.tbl i).refcount - 1,
        { s with tbl := updTbl s.tbl i ({ s.tbl i with refcount := (s.tbl i).refcount - 1 }) })) := rfl

/-- The freed slot aside, the unlink only redirects the predecessor's
forward link and the successor's back link. -/
theorem unrefTbl_at_j (t : Nat → Nexthop) (i : Nat) (eh : Int) (j : Nat) (hj : j ≠ i) :
    (unrefTbl t i eh) j =
      { t j with
          ll_next := if 0 ≤ (t i).ll_prev ∧ j = (t i).ll_prev.toNat
            then (t i).ll_next else (t j).ll_next,
          ll_prev := if 0 ≤ (t i).ll_next ∧ j = (t i).ll_next.toNat
            then (t i).ll_prev else (t j).ll_prev } := by
  simp only [unrefTbl]
  rw [updTbl_other _ _ _ _ hj]
  by_cases hn : 0 ≤ (t i).ll_next
  · rw [if_pos hn]
    by_cases hjn : j = (t i).ll_next.toNat
    · subst hjn
      rw [updTbl_same]
      have hc2 : 0 ≤ (t i).ll_next ∧ (t i).ll_next.toNat = (t i).ll_next.toNat :=
        ⟨hn, rfl⟩
      rw [if_pos hc2]
      by_cases hp : 0 ≤ (t i).ll_prev
      · rw [if_pos hp]
        by_cases hjp : (t i).ll_next.toNat = (t i).ll_prev.toNat
        · have hc1 : 0 ≤ (t i).ll_prev ∧ (t i).ll_next.toNat = (t i).ll_prev.toNat :=
            ⟨hp, hjp⟩
          rw [if_pos hc1, ← hjp, updTbl_same, updTbl_other _ _ _ _ hj,
            updTbl_other _ _ _ _ hj]
        · have hc1 : ¬(0 ≤ (t i).ll_prev ∧ (t i).ll_next.toNat = (t i).ll_prev.toNat) :=
            fun h => hjp h.2
          rw [if_neg hc1, updTbl_other _ _ _ _ hjp, updTbl_other _ _ _ _ hj,
            updTbl_other _ _ _ _ hj]
      · rw [if_neg hp]
        have hc1 : ¬(0 ≤ (t i).ll_prev ∧ (t i).ll_next.toNat = (t i).ll_prev.toNat) :=
          fun h => hp h.1
        rw [if_neg hc1, updTbl_other _ _ _ _ hj, updTbl_other _ _ _ _ hj]
    · rw [updTbl_other _ _ _ _ hjn]
      have hc2 : ¬(0 ≤ (t i).ll_next ∧ j = (t i).ll_next.toNat) := fun h => hjn h.2
      rw [if_neg hc2]
      by_cases hp : 0 ≤ (t i).ll_prev
      · rw [if_pos hp]
        by_cases hjp : j = (t i).ll_prev.toNat
        · subst hjp
          have hc1 : 0 ≤ (t i).ll_prev ∧ (t i).ll_prev.toNat = (t i).ll_prev.toNat :=
            ⟨hp, rfl⟩
          rw [if_pos hc1, updTbl_same, updTbl_other _ _ _ _ hj, updTbl_other _ _ _ _ hj]
        · have hc1 : ¬(0 ≤ (t i).ll_prev ∧ j = (t i).ll_prev.toNat) := fun h => hjp h.2
          rw [if_neg hc1, updTbl_other _ _ _ _ hjp, updTbl_other _ _ _ _ hj,
            updTbl_other _ _ _ _ hj]
      · rw [if_neg hp]
        have hc1 : ¬(0 ≤ (t i).ll_prev ∧ j = (t i).ll_prev.toNat) := fun h => hp h.1
        rw [if_neg hc1, updTbl_other _ _ _ _ hj, updTbl_other _ _ _ _ hj]
  · rw [if_neg hn]
    have hc2 : ¬(0 ≤ (t i).ll_next ∧ j = (t i).ll_next.toNat) := fun h => hn h.1
    rw [if_neg hc2]
    by_cases hp : 0 ≤ (t i).ll_prev
    · rw [if_pos hp]
      by_cases hjp : j = (t i).ll_prev.toNat
      · subst hjp
        have hc1 : 0 ≤ (t i).ll_prev ∧ (t i).ll_prev.toNat = (t i).ll_prev.toNat :=
          ⟨hp, rfl⟩
        rw [if_pos hc1, updTbl_same, updTbl_other _ _ _ _ hj, updTbl_other _ _ _ _ hj]
      · have hc1 : ¬(0 ≤ (t i).ll_prev ∧ j = (t i).ll_prev.toNat) := fun h => hjp h.2
        rw [if_neg hc1, updTbl_other _ _ _ _ hjp, updTbl_other _ _ _ _ hj,
          updTbl_other _ _ _ _ hj]
    · rw [if_neg hp]
      have hc1 : ¬(0 ≤ (t i).ll_prev ∧ j = (t i).ll_prev.toNat) := fun h => hp h.1
      rw [if_neg hc1, updTbl_other _ _ _ _ hj, updTbl_other _ _ _ _ hj]

/-- The freed slot: refcount decremented, forward link onto the old empty
head. -/
theorem unrefTbl_at_i (t : Nat → Nexthop) (i : Nat) (eh : Int)
    (hpi : (t i).ll_prev ≠ (i : Int)) (hni : (t i).ll_next ≠ (i : Int)) :
    ((unrefTbl t i eh) i).refcount = (t i).refcount - 1 ∧
    ((unrefTbl t i eh) i).ll_next = eh := by
  simp only [unrefTbl]
  rw [updTbl_same]
  refine ⟨?_, rfl⟩
  by_cases hn : 0 ≤ (t i).ll_next
  · have hin : i ≠ (t i).ll_next.toNat := fun hc => hni (by omega)
    rw [if_pos hn, updTbl_other _ _ _ _ hin]
    by_cases hp : 0 ≤ (t i).ll_prev
    · have hip : i ≠ (t i).ll_prev.toNat := fun hc => hpi (by omega)
      rw [if_pos hp, updTbl_other _ _ _ _ hip, updTbl_same]
      dsimp only
      rw [updTbl_same]
    · rw [if_neg hp, updTbl_same]
      dsimp only
      rw [updTbl_same]
  · rw [if_neg hn]
    by_cases hp : 0 ≤ (t i).ll_prev
    · have hip : i ≠ (t i).ll_prev.toNat := fun hc => hpi (by omega)
      rw [if_pos hp, updTbl_other _ _ _ _ hip, updTbl_same]
      dsimp only
      rw [updTbl_same]
    · rw [if_neg hp, updTbl_same]
      dsimp only
      rw [updTbl_same]

end B6

namespace B6

/-- Effect of nexthop_unref on a well-formed table: the refcount drops by
one; if it reaches zero the slot leaves the live chain and heads the
empty chain, otherwise the lists are untouched. -/
theorem nexthop_unref_spec (s : S6) (L E : List Nat) (i : Nat) (r : Int) (s' : S6)
    (heq : nexthop_unref s i = (r, s'))
    (hL : dchain s.tbl (-1) s.head L) (hE : schain s.tbl s.emptyHead E)
    (hnd : (L ++ E).Nodup) (hb : ∀ j ∈ L ++ E, 1 ≤ j ∧ j < s.size)
    (hcov : ∀ j, 1 ≤ j → j < s.size → j ∈ L ∨ j ∈ E)
    (hcnt : s.nexthops = (L.length : Int))
    (hERef : ∀ j ∈ E, (s.tbl j).refcount = 0)
    (hlive : ∀ j ∈ L, 0 < (s.tbl j).refcount)
    (hmem : i ∈ L) :
    ∃ L' E',
      dchain s'.tbl (-1) s'.head L' ∧
      schain s'.tbl s'.emptyHead E' ∧
      (L' ++ E').Nodup ∧
      (∀ j ∈ L' ++ E', 1 ≤ j ∧ j < s'.size) ∧
      (∀ j, 1 ≤ j → j < s'.size → j ∈ L' ∨ j ∈ E') ∧
      s'.size = s.size ∧
      s'.trie = s.trie ∧
      s'.pfxCnt = s.pfxCnt ∧
      s'.nexthops = (L'.length : Int) ∧
      r = (s.tbl i).refcount - 1 ∧
      (∀ j, j ≠ i → (s'.tbl j).refcount = (s.tbl j).refcount) ∧
      (s'.tbl i).refcount = (s.tbl i).refcount - 1 ∧
      refSumT s'.tbl s'.size = refSumT s.tbl s.size - 1 ∧
      (∀ j ∈ E', (s'.tbl j).refcount = 0) ∧
      (∀ j ∈ L', 0 < (s'.tbl j).refcount) ∧
      ((¬(s.tbl i).refcount = 1 ∧ L' = L ∧ E' = E) ∨
        ((s.tbl i).refcount = 1 ∧ E' = i :: E ∧ ∀ j, j ∈ L' ↔ j ∈ L ∧ j ≠ i)) := by
  have h1i : 1 ≤ i ∧ i < s.size := hb i (List.mem_append_left E hmem)
  have hdisjLE : L.Disjoint E := (List.nodup_append.mp hnd).2.2
  rw [nexthop_unref_eq] at heq
  by_cases hz : (s.tbl i).refcount - 1 = 0
  · rw [if_pos hz] at heq
    injection heq with h1 h2
    subst h1
    subst h2
    dsimp only
    obtain ⟨A, B, rfl⟩ := List.append_of_mem hmem
    have hndL : (A ++ i :: B).Nodup := List.Nodup.of_append_left hnd
    have hmid := List.nodup_middle.mp hndL
    have hiAB : i ∉ A ++ B := (List.nodup_cons.mp hmid).1
    have hprevf := dchain_ll_prev_last s.tbl i A (-1) s.head B hL
    have hnextf := dchain_ll_next_last s.tbl i A (-1) s.head B hL
    have hpi : (s.tbl i).ll_prev ≠ (i : Int) := by
      rcases foldl_last_mem A (-1) with hA0 | ⟨y, hy, hEq⟩
      · have h2 : (s.tbl i).ll_prev = (-1 : Int) := by rw [hprevf, hA0]; rfl
        rw [h2]
        omega
      · rw [hprevf, hEq]
        intro hc
        have : y = i := by exact_mod_cast hc
        exact hiAB (List.mem_append_left B (this ▸ hy))
    have hni : (s.tbl i).ll_next ≠ (i : Int) := by
      cases B with
      | nil =>
        have h2 : (s.tbl i).ll_next = (-1 : Int) := hnextf
        rw [h2]
        omega
      | cons b B' =>
        have h2 : (s.tbl i).ll_next = (b : Int) := hnextf
        rw [h2]
        intro hc
        have hbi : b = i := by exact_mod_cast hc
        exact hiAB (List.mem_append_right A (hbi ▸ List.mem_cons_self b B'))
    have hati := unrefTbl_at_i s.tbl i s.emptyHead hpi hni
    have hpn : ∀ j, j ≠ i → ((unrefTbl s.tbl i s.emptyHead) j).ll_next =
        (if (s.tbl i).ll_prev = (j : Int) then (s.tbl i).ll_next
         else (s.tbl j).ll_next) := by
      intro j hj
      rw [unrefTbl_at_j s.tbl i s.emptyHead j hj]
      dsimp only
      by_cases h1 : (s.tbl i).ll_prev = (j : Int)
      · have hc : 0 ≤ (s.tbl i).ll_prev ∧ j = (s.tbl i).ll_prev.toNat :=
          ⟨by rw [h1]; exact Int.natCast_nonneg j,
           by rw [h1]; exact (Int.toNat_natCast j).symm⟩
        rw [if_pos hc, if_pos h1]
      · have hc : ¬(0 ≤ (s.tbl i).ll_prev ∧ j = (s.tbl i).ll_prev.toNat) := by
          rintro ⟨hge, hEq⟩
          exact h1 (by rw [hEq]; exact (Int.toNat_of_nonneg hge).symm)
        rw [if_neg hc, if_neg h1]
    have hpp : ∀ j, j ≠ i → ((unrefTbl s.tbl i s.emptyHead) j).ll_prev =
        (if (s.tbl i).ll_next = (j : Int) then (s.tbl i).ll_prev
         else (s.tbl j).ll_prev) := by
      intro j hj
      rw [unrefTbl_at_j s.tbl i s.emptyHead j hj]
      dsimp only
      by_cases h1 : (s.tbl i).ll_next = (j : Int)
      · have hc : 0 ≤ (s.tbl i).ll_next ∧ j = (s.tbl i).ll_next.toNat :=
          ⟨by rw [h1]; exact Int.natCast_nonneg j,
           by rw [h1]; exact (Int.toNat_natCast j).symm⟩
        rw [if_pos hc, if_pos h1]
      · have hc : ¬(0 ≤ (s.tbl i).ll_next ∧ j = (s.tbl i).ll_next.toNat) := by
          rintro ⟨hge, hEq⟩
          exact h1 (by rw [hEq]; exact (Int.toNat_of_nonneg hge).symm)
        rw [if_neg hc, if_neg h1]
    have hunlink := dchain_unlink s.tbl (unrefTbl s.tbl i s.emptyHead) i hpn hpp
      A (-1) s.head B hL hndL (fun j _ => by omega)
    have hhead : (if 0 ≤ (s.tbl i).ll_prev then s.head else (s.tbl i).ll_next)
        = (if A = [] then (s.tbl i).ll_next else s.head) := by
      rcases foldl_last_mem A (-1) with hA0 | ⟨y, hy, hEq⟩
      · have h2 : (s.tbl i).ll_prev = (-1 : Int) := by rw [hprevf, hA0]; rfl
        rw [if_neg (by rw [h2]; omega), if_pos hA0]
      · have hyge : 0 ≤ (s.tbl i).ll_prev := by
          rw [hprevf, hEq]; exact Int.natCast_nonneg y
        have hA0 : A ≠ [] := by
          intro hc
          subst hc
          simp at hy
        rw [if_pos hyge, if_neg hA0]
    have hperm : ((A ++ i :: B) ++ E).Perm ((A ++ B) ++ i :: E) :=
      ((List.perm_middle.append_right E).trans List.perm_middle.symm)
    refine ⟨A ++ B, i :: E, ?_, ?_, hperm.nodup hnd, ?_, ?_, rfl, rfl, rfl, ?_,
      by omega, ?_, hati.1, ?_, ?_, ?_, Or.inr ⟨by omega, rfl, ?_⟩⟩
    · rw [hhead]
      exact hunlink
    · refine ⟨rfl, ?_⟩
      rw [hati.2]
      refine schain_congr s.tbl _ E s.emptyHead ?_ hE
      intro a ha
      have hai : a ≠ i := fun hc => hdisjLE hmem (hc ▸ ha)
      rw [hpn a hai, if_neg ?_]
      rcases foldl_last_mem A (-1) with hA0 | ⟨y, hy, hEq⟩
      · have h2 : (s.tbl i).ll_prev = (-1 : Int) := by rw [hprevf, hA0]; rfl
        rw [h2]
        omega
      · rw [hprevf, hEq]
        intro hc
        have hya : y = a := by exact_mod_cast hc
        exact hdisjLE (List.mem_append_left _ (hya ▸ hy)) ha
    · intro j hj
      exact hb j (hperm.mem_iff.mpr hj)
    · intro j hj1 hj2
      rcases hcov j hj1 hj2 with h | h
      · rcases List.mem_append.mp h with h' | h'
        · exact Or.inl (List.mem_append_left B h')
        · rcases List.mem_cons.mp h' with h'' | h''
          · exact Or.inr (h'' ▸ List.mem_cons_self i E)
          · exact Or.inl (List.mem_append_right A h'')
      · exact Or.inr (List.mem_cons_of_mem i h)
    · simp only [List.length_append, List.length_cons] at hcnt ⊢
      omega
    · intro j hj
      rw [unrefTbl_at_j s.tbl i s.emptyHead j hj]
    · have hcong : refSumT (unrefTbl s.tbl i s.emptyHead) s.size =
          refSumT (updTbl s.tbl i
            ({ s.tbl i with refcount := (s.tbl i).refcount - 1 })) s.size := by
        refine refSumT_congr _ _ s.size ?_
        intro j _ _
        by_cases hji : j = i
        · subst hji
          rw [updTbl_same, hati.1]
        · rw [updTbl_other _ _ _ _ hji, unrefTbl_at_j s.tbl i s.emptyHead j hji]
      rw [hcong, refSumT_upd s.tbl s.size i _ h1i.2 h1i.1]
      dsimp only
      omega
    · intro j hj
      rcases List.mem_cons.mp hj with h | h
      · subst h
        rw [hati.1]
        omega
      · have hji : j ≠ i := fun hc => hdisjLE hmem (hc ▸ h)
        rw [unrefTbl_at_j s.tbl i s.emptyHead j hji]
        exact hERef j h
    · intro j hj
      have hji : j ≠ i := fun hc => hiAB (hc ▸ hj)
      have hjL : j ∈ A ++ i :: B := by
        rcases List.mem_append.mp hj with h | h
        · exact List.mem_append_left _ h
        · exact List.mem_append_right A (List.mem_cons_of_mem i h)
      rw [unrefTbl_at_j s.tbl i s.emptyHead j hji]
      exact hlive j hjL
    · intro j
      constructor
      · intro hj
        have hji : j ≠ i := fun hc => hiAB (hc ▸ hj)
        refine ⟨?_, hji⟩
        rcases List.mem_append.mp hj with h | h
        · exact List.mem_append_left _ h
        · exact List.mem_append_right A (List.mem_cons_of_mem i h)
      · rintro ⟨hjL, hji⟩
        rcases List.mem_append.mp hjL with h | h
        · exact List.mem_append_left B h
        · rcases List.mem_cons.mp h with h' | h'
          · exact absurd h' hji
          · exact List.mem_append_right A h'
  · rw [if_neg hz] at heq
    injection heq with h1 h2
    subst h1
    subst h2
    dsimp only
    refine ⟨L, E, ?_, ?_, hnd, hb, hcov, rfl, rfl, rfl, hcnt, rfl, ?_, ?_, ?_, ?_, ?_,
      Or.inl ⟨by omega, rfl, rfl⟩⟩
    · refine dchain_congr s.tbl _ L (-1) s.head ?_ hL
      intro a _
      by_cases hai : a = i
      · subst hai
        rw [updTbl_same]
        exact ⟨rfl, rfl⟩
      · rw [updTbl_other _ _ _ _ hai]
        exact ⟨rfl, rfl⟩
    · refine schain_congr s.tbl _ E s.emptyHead ?_ hE
      intro a _
      by_cases hai : a = i
      · subst hai
        rw [updTbl_same]
      · rw [updTbl_other _ _ _ _ hai]
    · intro j hj
      rw [updTbl_other _ _ _ _ hj]
    · rw [updTbl_same]
    · rw [refSumT_upd s.tbl s.size i _ h1i.2 h1i.1]
      dsimp only
      omega
    · intro j hj
      have hji : j ≠ i := fun hc => hdisjLE hmem (hc ▸ hj)
      rw [updTbl_other _ _ _ _ hji]
      exact hERef j hj
    · intro j hj
      by_cases hji : j = i
      · subst hji
        rw [updTbl_same]
        have := hlive j hj
        dsimp only
        omega
      · rw [updTbl_other _ _ _ _ hji]
        exact hlive j hj

end B6

namespace B6

theorem trieFind_eq_none (k : Pfx) :
    ∀ trie : List Leaf, trieFind trie k = none ↔ ∀ l ∈ trie, l.key ≠ k := by
  intro trie
  induction trie with
  | nil => simp [trieFind]
  | cons l rest ih =>
    by_cases hk : l.key = k
    · simp [trieFind, hk]
    · simp only [trieFind, if_neg hk, ih, List.mem_cons]
      constructor
      · rintro h a (rfl | ha)
        · exact hk
        · exact h a ha
      · intro h a ha
        exact h a (Or.inr ha)

theorem trieFind_some_mem (k : Pfx) :
    ∀ (trie : List Leaf) (nh : Nat), trieFind trie k = some nh → (⟨k, nh⟩ : Leaf) ∈ trie := by
  intro trie
  induction trie with
  | nil => intro nh h; simp [trieFind] at h
  | cons l rest ih =>
    intro nh h
    by_cases hk : l.key = k
    · rw [trieFind, if_pos hk] at h
      injection h with h
      subst h
      subst hk
      exact List.mem_cons_self _ rest
    · rw [trieFind, if_neg hk] at h
      exact List.mem_cons_of_mem l (ih nh h)

theorem trieInsert_mem (k : Pfx) (nh : Nat) :
    ∀ (trie : List Leaf) (l : Leaf), l ∈ trieInsert k nh trie →
      l = (⟨k, nh⟩ : Leaf) ∨ l ∈ trie := by
  intro trie
  induction trie with
  | nil => intro l h; simp [trieInsert] at h; exact Or.inl h
  | cons a rest ih =>
    intro l h
    rw [trieInsert] at h
    by_cases hlt : keyLtB a.key k
    · rw [if_pos hlt] at h
      rcases List.mem_cons.mp h with h' | h'
      · exact Or.inr (h' ▸ List.mem_cons_self a rest)
      · rcases ih l h' with h'' | h''
        · exact Or.inl h''
        · exact Or.inr (List.mem_cons_of_mem a h'')
    · rw [if_neg hlt] at h
      rcases List.mem_cons.mp h with h' | h'
      · exact Or.inl h'
      · exact Or.inr h'

theorem countRefs_cons (a : Leaf) (rest : List Leaf) (i : Nat) :
    countRefs (a :: rest) i = (if a.nh = i then 1 else 0) + countRefs rest i := by
  by_cases ha : a.nh = i
  · simp [countRefs, List.filter_cons, ha]
    omega
  · simp [countRefs, List.filter_cons, ha]

theorem countRefs_insert (k : Pfx) (nh : Nat) (i : Nat) :
    ∀ trie : List Leaf,
      countRefs (trieInsert k nh trie) i = countRefs trie i + (if nh = i then 1 else 0) := by
  intro trie
  induction trie with
  | nil =>
    by_cases h : nh = i
    · simp [trieInsert, countRefs, h]
    · simp [trieInsert, countRefs, h]
  | cons a rest ih =>
    rw [trieInsert]
    by_cases hlt : keyLtB a.key k
    · rw [if_pos hlt, countRefs_cons, ih, countRefs_cons]
      omega
    · rw [if_neg hlt, countRefs_cons, countRefs_cons]
      dsimp only
      omega

theorem countRefs_del (k : Pfx) (i : Nat) :
    ∀ (trie : List Leaf) (nh0 : Nat), trieFind trie k = some nh0 →
      countRefs trie i = countRefs (trieDel k trie) i + (if nh0 = i then 1 else 0) := by
  intro trie
  induction trie with
  | nil => intro nh0 h; simp [trieFind] at h
  | cons a rest ih =>
    intro nh0 h
    by_cases hk : a.key = k
    · rw [trieFind, if_pos hk] at h
      injection h with h
      subst h
      rw [trieDel, if_pos hk, countRefs_cons]
      omega
    · rw [trieFind, if_neg hk] at h
      rw [trieDel, if_neg hk, countRefs_cons, countRefs_cons, ih nh0 h]
      omega

theorem trieDel_mem (k : Pfx) :
    ∀ (trie : List Leaf) (l : Leaf), l ∈ trieDel k trie → l ∈ trie := by
  intro trie
  induction trie with
  | nil => intro l h; simp [trieDel] at h
  | cons a rest ih =>
    intro l h
    rw [trieDel] at h
    by_cases hk : a.key = k
    · rw [if_pos hk] at h
      exact List.mem_cons_of_mem a h
    · rw [if_neg hk] at h
      rcases List.mem_cons.mp h with h' | h'
      · exact h' ▸ List.mem_cons_self a rest
      · exact List.mem_cons_of_mem a (ih l h')

theorem countRefs_pos (i : Nat) :
    ∀ trie : List Leaf, countRefs trie i ≠ 0 → ∃ l ∈ trie, l.nh = i := by
  intro trie
  induction trie with
  | nil => intro h; simp [countRefs] at h
  | cons a rest ih =>
    intro h
    by_cases ha : a.nh = i
    · exact ⟨a, List.mem_cons_self a rest, ha⟩
    · simp only [countRefs, List.filter_cons, decide_eq_true_eq, if_neg ha] at h
      obtain ⟨l, hl, hli⟩ := ih h
      exact ⟨l, List.mem_cons_of_mem a hl, hli⟩

theorem trieDel_insert (k : Pfx) (nh : Nat) :
    ∀ trie : List Leaf, (∀ l ∈ trie, l.key ≠ k) →
      trieDel k (trieInsert k nh trie) = trie := by
  intro trie
  induction trie with
  | nil => intro _; simp [trieInsert, trieDel]
  | cons a rest ih =>
    intro hne
    rw [trieInsert]
    by_cases hlt : keyLtB a.key k
    · rw [if_pos hlt, trieDel, if_neg (hne a (List.mem_cons_self a rest))]
      rw [ih (fun l hl => hne l (List.mem_cons_of_mem a hl))]
    · rw [if_neg hlt, trieDel, if_pos rfl]

end B6

namespace B6

/-- The refcounts WF forces on the empty list and on unallocated slots. -/
theorem wf_eref (s : S6) (L E : List Nat) (h : WF s L E) :
    (∀ i ∈ E, (s.tbl i).refcount = 0) ∧
    (∀ i, s.size ≤ i → (s.tbl i).refcount = 0) := by
  constructor
  · intro i hiE
    have h1 : 1 ≤ i := (h.bounds i (List.mem_append_right L hiE)).1
    rw [h.refAcc i h1]
    by_contra hc
    have hnz : countRefs s.trie i ≠ 0 := fun hz => hc (by rw [hz]; rfl)
    obtain ⟨l, hl, hli⟩ := countRefs_pos i s.trie hnz
    have hnh0 : l.nh ≠ 0 := by omega
    have hmem := (h.leafIn l hl).2 hnh0
    exact (List.nodup_append.mp h.nodup).2.2 (hli ▸ hmem) hiE
  · intro i hi
    have h1 : 1 ≤ i := le_trans h.sizePos hi
    rw [h.refAcc i h1]
    by_contra hc
    have hnz : countRefs s.trie i ≠ 0 := fun hz => hc (by rw [hz]; rfl)
    obtain ⟨l, hl, hli⟩ := countRefs_pos i s.trie hnz
    have hnh0 : l.nh ≠ 0 := by omega
    have hmem := (h.leafIn l hl).2 hnh0
    have := h.bounds l.nh (List.mem_append_left E hmem)
    omega

/-- add_route preserves well-formedness. -/
theorem wf_add (s : S6) (L E : List Nat) (a m gw : Nat) (port : Int)
    (h : WF s L E) : ∃ L' E', WF (add_route s a m gw port).2 L' E' := by
  obtain ⟨hERef, hFresh⟩ := wf_eref s L E h
  cases hfind : trieFind s.trie (pnorm a m) with
  | some x =>
    have hstate : (add_route s a m gw port).2 = s := by
      simp only [add_route, hfind]
    rw [hstate]
    exact ⟨L, E, h⟩
  | none =>
    by_cases hm : m = 0
    · subst hm
      have hstate : (add_route s a 0 gw port).2 = { s with
          trie := trieInsert (pnorm a 0) 0 s.trie,
          tbl := updTbl s.tbl 0 ({ s.tbl 0 with gw := gw, port := port }),
          pfxCnt := s.pfxCnt + 1 } := by
        simp [add_route, hfind]
      rw [hstate]
      have hne0 : ∀ i ∈ L ++ E, i ≠ 0 := fun i hi => by
        have := h.bounds i hi
        omega
      refine ⟨L, E, ?_, ?_, h.nodup, h.bounds, h.cover, ?_, h.cntL, ?_, ?_, h.sizePos, ?_⟩
      · refine dchain_congr s.tbl _ L (-1) s.head ?_ h.hL
        intro b hb
        dsimp only
        rw [updTbl_other _ _ _ _ (hne0 b (List.mem_append_left E hb))]
        exact ⟨rfl, rfl⟩
      · refine schain_congr s.tbl _ E s.emptyHead ?_ h.hE
        intro b hb
        dsimp only
        rw [updTbl_other _ _ _ _ (hne0 b (List.mem_append_right L hb))]
      · intro i hi
        dsimp only
        rw [updTbl_other _ _ _ _ (hne0 i (List.mem_append_left E hi))]
        exact h.liveRef i hi
      · intro i h1
        dsimp only
        rw [updTbl_other _ _ _ _ (by omega : i ≠ 0), h.refAcc i h1,
          countRefs_insert (pnorm a 0) 0 i s.trie, if_neg (by omega : ¬ 0 = i),
          Nat.add_zero]
      · intro l hl
        rcases trieInsert_mem (pnorm a 0) 0 s.trie l hl with hnew | hold
        · subst hnew
          exact ⟨by constructor <;> intro <;> rfl, fun hc => absurd rfl hc⟩
        · exact h.leafIn l hold
      · intro l hl
        rcases trieInsert_mem (pnorm a 0) 0 s.trie l hl with hnew | hold
        · subst hnew
          show (pnorm a 0).addr = (pnorm a 0).addr &&& (pnorm a 0).mask
          simp [pnorm]
        · exact h.norm l hold
    · rcases hps : nexthop_ref s gw port with ⟨n1, s1⟩
      have hstate : (add_route s a m gw port).2 =
          { s1 with trie := trieInsert (pnorm a m) n1 s1.trie,
                    pfxCnt := s1.pfxCnt + 1 } := by
        simp only [add_route, hfind, if_neg hm, hps]
      rw [hstate]
      obtain ⟨L', E', hL', hE', hnd', hb', hcov', hcnt', ⟨hsz1, hszle⟩, ⟨htrie, hpfx⟩,
        ⟨hnh1, hnhL, hLL⟩, hrc, hrs, hlv, hcase, hnhlt, hEE⟩ :=
        nexthop_ref_spec s L E gw port n1 s1 hps h.hL h.hE h.nodup h.bounds h.cover
          h.cntL h.sizePos hERef hFresh
      refine ⟨L', E', hL', hE', hnd', hb', hcov', ?_, hcnt', ?_, ?_, hsz1, ?_⟩
      · intro i hi
        exact hlv h.liveRef i hi
      · intro i h1
        show (s1.tbl i).refcount = _
        rw [hrc i h1, h.refAcc i h1, htrie,
          countRefs_insert (pnorm a m) n1 i s.trie]
        push_cast
        by_cases hin : i = n1
        · rw [if_pos hin, if_pos (hin.symm)]
        · rw [if_neg hin, if_neg (fun hc => hin hc.symm)]
      · intro l hl
        show (l.nh = 0 ↔ l.key.mask = 0) ∧ (l.nh ≠ 0 → l.nh ∈ L')
        rcases trieInsert_mem (pnorm a m) n1 s1.trie l hl with hnew | hold
        · subst hnew
          refine ⟨?_, fun _ => hnhL⟩
          show (n1 = 0 ↔ m = 0)
          constructor
          · intro hc
            omega
          · intro hc
            exact absurd hc hm
        · rw [htrie] at hold
          obtain ⟨hiff, hmem⟩ := h.leafIn l hold
          exact ⟨hiff, fun hnz => hLL l.nh (hmem hnz)⟩
      · intro l hl
        rcases trieInsert_mem (pnorm a m) n1 s1.trie l hl with hnew | hold
        · subst hnew
          show (pnorm a m).addr = (pnorm a m).addr &&& (pnorm a m).mask
          show a &&& m = (a &&& m) &&& m
          rw [Nat.and_assoc, Nat.and_self]
        · rw [htrie] at hold
          exact h.norm l hold

end B6

namespace B6

theorem countRefs_mem_pos (trie : List Leaf) (l : Leaf) (i : Nat)
    (hl : l ∈ trie) (hi : l.nh = i) : countRefs trie i ≠ 0 := by
  have hmem : l ∈ trie.filter (fun l => l.nh = i) :=
    List.mem_filter.mpr ⟨hl, by simp [hi]⟩
  have := List.length_pos_of_mem hmem
  simp only [countRefs]
  omega

/-- Deleting a non-default leaf and unreferencing its nexthop preserves
well-formedness (the shared shape of remove_route's and flush_walk's
non-default branches). -/
theorem wf_unref_del (s : S6) (L E : List Nat) (k : Pfx) (nh : Nat) (r2 : Int) (s2 : S6)
    (h : WF s L E)
    (hfind : trieFind s.trie k = some nh)
    (hnhm : nh ≠ 0)
    (hr : nexthop_unref ({ s with trie := trieDel k s.trie }) nh = (r2, s2)) :
    (∃ L' E', WF { s2 with pfxCnt := s2.pfxCnt - 1 } L' E') ∧
      s2.trie = trieDel k s.trie := by
  obtain ⟨hERef, hFresh⟩ := wf_eref s L E h
  have hleaf := trieFind_some_mem k s.trie nh hfind
  have hmem : nh ∈ L := (h.leafIn _ hleaf).2 hnhm
  obtain ⟨L', E', hL', hE', hnd', hb', hcov', hsz', htrie', hpfx', hcnt', hr2, hkeep,
    hati, hrs, hERef2, hlive2, hdisj⟩ :=
    nexthop_unref_spec ({ s with trie := trieDel k s.trie }) L E nh r2 s2 hr
      h.hL h.hE h.nodup h.bounds h.cover h.cntL hERef h.liveRef hmem
  have htrie2 : s2.trie = trieDel k s.trie := htrie'
  refine ⟨⟨L', E', hL', hE', hnd', hb', hcov', ?_, hcnt', ?_, ?_, ?_, ?_⟩, htrie2⟩
  · intro i hi
    exact hlive2 i hi
  · intro i h1
    show (s2.tbl i).refcount = (countRefs s2.trie i : Int)
    rw [htrie2]
    have hdel := countRefs_del k i s.trie nh hfind
    by_cases hin : i = nh
    · subst hin
      rw [hati]
      show (s.tbl i).refcount - 1 = _
      rw [h.refAcc i h1, if_pos rfl] at *
      omega
    · rw [hkeep i hin]
      show (s.tbl i).refcount = _
      rw [h.refAcc i h1, if_neg (fun hc => hin hc.symm)] at *
      omega
  · intro l hl
    rw [htrie2] at hl
    have hold : l ∈ s.trie := trieDel_mem k s.trie l hl
    obtain ⟨hiff, hmemL⟩ := h.leafIn l hold
    refine ⟨hiff, ?_⟩
    intro hnz
    rcases hdisj with ⟨-, hLeq, -⟩ | ⟨hrc1, -, hiffL⟩
    · rw [hLeq]
      exact hmemL hnz
    · refine (hiffL l.nh).mpr ⟨hmemL hnz, ?_⟩
      intro hc
      have hcr1 : countRefs s.trie nh = 1 := by
        have := h.refAcc nh (by omega)
        rw [hrc1] at this
        exact_mod_cast this.symm
      have hdel := countRefs_del k nh s.trie nh hfind
      rw [if_pos rfl, hcr1] at hdel
      have hzero : countRefs (trieDel k s.trie) nh = 0 := by omega
      exact countRefs_mem_pos (trieDel k s.trie) l nh hl hc hzero
  · show 1 ≤ s2.size
    rw [hsz']
    exact h.sizePos
  · intro l hl
    rw [show ({ s2 with pfxCnt := s2.pfxCnt - 1 } : S6).trie = s2.trie from rfl, htrie2] at hl
    exact h.norm l (trieDel_mem k s.trie l hl)

/-- remove_route preserves well-formedness. -/
theorem wf_rem (s : S6) (L E : List Nat) (a m : Nat)
    (h : WF s L E) : ∃ L' E', WF (remove_route s a m).2 L' E' := by
  cases hfind : trieFind s.trie (pnorm a m) with
  | none =>
    have hstate : (remove_route s a m).2 = s := by
      simp only [remove_route, hfind]
    rw [hstate]
    exact ⟨L, E, h⟩
  | some nh =>
    by_cases hm : m = 0
    · subst hm
      have hstate : (remove_route s a 0).2 = { s with
          trie := trieDel (pnorm a 0) s.trie,
          tbl := updTbl s.tbl 0 ({ s.tbl 0 with gw := 0, port := -1 }),
          pfxCnt := s.pfxCnt - 1 } := by
        simp [remove_route, hfind]
      rw [hstate]
      have hleaf := trieFind_some_mem (pnorm a 0) s.trie nh hfind
      have hnh0 : nh = 0 := (h.leafIn _ hleaf).1.mpr rfl
      have hne0 : ∀ i ∈ L ++ E, i ≠ 0 := fun i hi => by
        have := h.bounds i hi
        omega
      refine ⟨L, E, ?_, ?_, h.nodup, h.bounds, h.cover, ?_, h.cntL, ?_, ?_, h.sizePos, ?_⟩
      · refine dchain_congr s.tbl _ L (-1) s.head ?_ h.hL
        intro b hb
        dsimp only
        rw [updTbl_other _ _ _ _ (hne0 b (List.mem_append_left E hb))]
        exact ⟨rfl, rfl⟩
      · refine schain_congr s.tbl _ E s.emptyHead ?_ h.hE
        intro b hb
        dsimp only
        rw [updTbl_other _ _ _ _ (hne0 b (List.mem_append_right L hb))]
      · intro i hi
        dsimp only
        rw [updTbl_other _ _ _ _ (hne0 i (List.mem_append_left E hi))]
        exact h.liveRef i hi
      · intro i h1
        dsimp only
        rw [updTbl_other _ _ _ _ (by omega : i ≠ 0), h.refAcc i h1]
        have hdel := countRefs_del (pnorm a 0) i s.trie nh hfind
        rw [if_neg (by omega : ¬ nh = i)] at hdel
        omega
      · intro l hl
        exact h.leafIn l (trieDel_mem (pnorm a 0) s.trie l hl)
      · intro l hl
        exact h.norm l (trieDel_mem (pnorm a 0) s.trie l hl)
    · have hleaf := trieFind_some_mem (pnorm a m) s.trie nh hfind
      have hnhm : nh ≠ 0 := by
        intro hc
        exact hm ((h.leafIn _ hleaf).1.mp hc)
      rcases hr : nexthop_unref ({ s with trie := trieDel (pnorm a m) s.trie }) nh
        with ⟨r2, s2⟩
      have hstate : (remove_route s a m).2 = { s2 with pfxCnt := s2.pfxCnt - 1 } := by
        simp only [remove_route, hfind, if_neg hm, hr]
      rw [hstate]
      exact (wf_unref_del s L E (pnorm a m) nh r2 s2 h hfind hnhm hr).1

/-- flush_table preserves well-formedness (fold over the leaves, each
step flushing the head of the remaining trie). -/
theorem wf_flush_fold : ∀ (rest : List Leaf) (s : S6) (L E : List Nat),
    WF s L E → s.trie = rest →
    ∃ L' E', WF (rest.foldl flush_walk s) L' E' := by
  intro rest
  induction rest with
  | nil =>
    intro s L E h _
    exact ⟨L, E, h⟩
  | cons l rest' ih =>
    intro s L E h htr
    have hdel : trieDel l.key s.trie = rest' := by
      rw [htr, trieDel, if_pos rfl]
    rw [List.foldl_cons]
    by_cases hnh : l.nh = 0
    · have hstate : flush_walk s l = { s with
          trie := rest',
          tbl := updTbl s.tbl 0 ({ s.tbl 0 with gw := 0, port := -1 }),
          pfxCnt := s.pfxCnt - 1 } := by
        simp [flush_walk, hnh, hdel]
      rw [hstate]
      have hne0 : ∀ i ∈ L ++ E, i ≠ 0 := fun i hi => by
        have := h.bounds i hi
        omega
      refine ih _ L E ⟨?_, ?_, h.nodup, h.bounds, h.cover, ?_, h.cntL, ?_, ?_,
        h.sizePos, ?_⟩ rfl
      · refine dchain_congr s.tbl _ L (-1) s.head ?_ h.hL
        intro b hb
        dsimp only
        rw [updTbl_other _ _ _ _ (hne0 b (List.mem_append_left E hb))]
        exact ⟨rfl, rfl⟩
      · refine schain_congr s.tbl _ E s.emptyHead ?_ h.hE
        intro b hb
        dsimp only
        rw [updTbl_other _ _ _ _ (hne0 b (List.mem_append_right L hb))]
      · intro i hi
        dsimp only
        rw [updTbl_other _ _ _ _ (hne0 i (List.mem_append_left E hi))]
        exact h.liveRef i hi
      · intro i h1
        dsimp only
        rw [updTbl_other _ _ _ _ (by omega : i ≠ 0), h.refAcc i h1, htr,
          countRefs_cons, if_neg (by omega : ¬ l.nh = i)]
        push_cast
        omega
      · intro l2 hl2
        exact h.leafIn l2 (htr ▸ List.mem_cons_of_mem l hl2)
      · intro l2 hl2
        exact h.norm l2 (htr ▸ List.mem_cons_of_mem l hl2)
    · have hfind : trieFind s.trie l.key = some l.nh := by
        rw [htr, trieFind, if_pos rfl]
      rcases hr : nexthop_unref ({ s with trie := trieDel l.key s.trie }) l.nh
        with ⟨r2, s2⟩
      have hstate : flush_walk s l = { s2 with pfxCnt := s2.pfxCnt - 1 } := by
        simp only [flush_walk, if_neg hnh, hr]
      rw [hstate]
      obtain ⟨⟨L', E', hwf⟩, htrie2⟩ :=
        wf_unref_del s L E l.key l.nh r2 s2 h hfind hnh hr
      refine ih _ L' E' hwf ?_
      show s2.trie = rest'
      rw [htrie2, hdel]

/-- Every reachable backend state is well-formed. -/
theorem reachable_wf (s : S6) (h : Reachable s) : ∃ L E, WF s L E := by
  induction h with
  | init =>
    refine ⟨[], [], rfl, rfl, List.nodup_nil, ?_, ?_, ?_, rfl, ?_, ?_, le_refl 1, ?_⟩
    · intro i hi
      simp at hi
    · intro i h1 h2
      simp [init6] at h2
      omega
    · intro i hi
      simp at hi
    · intro i h1
      show (if i = 0 then _ else zeroSlot).refcount = _
      rw [if_neg (by omega : ¬ i = 0)]
      rfl
    · intro l hl
      simp [init6] at hl
    · intro l hl
      simp [init6] at hl
  | add s a m gw port _ ih =>
    obtain ⟨L, E, h⟩ := ih
    exact wf_add s L E a m gw port h
  | rem s a m _ ih =>
    obtain ⟨L, E, h⟩ := ih
    exact wf_rem s L E a m h
  | flush s _ ih =>
    obtain ⟨L, E, h⟩ := ih
    exact wf_flush_fold s.trie s L E h rfl

end B6

namespace B6

/-- Summing per-slot leaf counts over the slot range counts every
non-default leaf once. -/
theorem sum_countRefs (n : Nat) :
    ∀ trie : List Leaf, (∀ l ∈ trie, l.nh ≠ 0 → 1 ≤ l.nh ∧ l.nh < n) →
      (∑ i ∈ Finset.range n, if i = 0 then 0 else (countRefs trie i : Int)) =
        ((trie.filter fun l => l.nh ≠ 0).length : Int) := by
  intro trie
  induction trie with
  | nil =>
    intro _
    simp [countRefs]
  | cons l rest ih =>
    intro hbd
    have hrest := ih (fun l2 h2 => hbd l2 (List.mem_cons_of_mem _ h2))
    have hsplit : ∀ i : Nat,
        (if i = 0 then (0 : Int) else (countRefs (l :: rest) i : Int)) =
          (if i = 0 then 0 else (countRefs rest i : Int)) +
            (if i ≠ 0 ∧ l.nh = i then 1 else 0) := by
      intro i
      by_cases hi : i = 0
      · simp [hi]
      · rw [countRefs_cons]
        by_cases hl : l.nh = i
        · have hc : i ≠ 0 ∧ l.nh = i := ⟨hi, hl⟩
          rw [if_neg hi, if_neg hi, if_pos hc, if_pos hl]
          push_cast
          omega
        · have hc : ¬(i ≠ 0 ∧ l.nh = i) := fun hh => hl hh.2
          rw [if_neg hi, if_neg hi, if_neg hc, if_neg hl]
          push_cast
          omega
    rw [Finset.sum_congr rfl (fun i _ => hsplit i), Finset.sum_add_distrib, hrest]
    have h2 : (∑ i ∈ Finset.range n, if i ≠ 0 ∧ l.nh = i then (1 : Int) else 0) =
        (if l.nh ≠ 0 then 1 else 0) := by
      by_cases hl0 : l.nh = 0
      · rw [if_neg (fun hc => hc hl0)]
        refine Finset.sum_eq_zero ?_
        intro i _
        rw [if_neg ?_]
        rintro ⟨h1, hEq⟩
        exact h1 (by omega)
      · rw [if_pos hl0]
        have hbd' := hbd l (List.mem_cons_self l rest) hl0
        have hco : ∀ i ∈ Finset.range n,
            (if i ≠ 0 ∧ l.nh = i then (1 : Int) else 0) =
              (if i = l.nh then 1 else 0) := by
          intro i _
          by_cases hi : i = l.nh
          · subst hi
            have hc : l.nh ≠ 0 ∧ l.nh = l.nh := ⟨hl0, rfl⟩
            rw [if_pos hc, if_pos rfl]
          · rw [if_neg (fun hc => hi hc.2.symm), if_neg hi]
        rw [Finset.sum_congr rfl hco,
          Finset.sum_ite_eq' (Finset.range n) l.nh (fun _ => (1 : Int)),
          if_pos (Finset.mem_range.mpr hbd'.2)]
    rw [h2]
    by_cases hl0 : l.nh = 0
    · have hdec : ¬(decide (l.nh ≠ 0) = true) := by simp [hl0]
      rw [List.filter_cons, if_neg hdec, if_neg (fun hc => hc hl0)]
      omega
    · have hdec : decide (l.nh ≠ 0) = true := by simp [hl0]
      rw [List.filter_cons, if_pos hdec, if_pos hl0, List.length_cons]
      push_cast
      omega

/-- In a well-formed state the non-default leaf count equals the refcount
sum. -/
theorem wf_leafcnt (s : S6) (L E : List Nat) (h : WF s L E) :
    (leafCnt s : Int) = refSum s := by
  have hbd : ∀ l ∈ s.trie, l.nh ≠ 0 → 1 ≤ l.nh ∧ l.nh < s.size := by
    intro l hl h0
    exact h.bounds l.nh (List.mem_append_left E ((h.leafIn l hl).2 h0))
  calc (leafCnt s : Int)
      = ∑ i ∈ Finset.range s.size, if i = 0 then 0 else (countRefs s.trie i : Int) :=
        (sum_countRefs s.size s.trie hbd).symm
    _ = refSum s := by
        refine Finset.sum_congr rfl ?_
        intro i _
        by_cases hi : i = 0
        · simp [hi]
        · rw [if_neg hi, if_neg hi, h.refAcc i (by omega)]

end B6

namespace B6

/-- The constructor state is well-formed with empty ghost lists. -/
theorem wf_init6 : WF init6 [] [] := by
  refine ⟨rfl, rfl, List.nodup_nil, ?_, ?_, ?_, rfl, ?_, ?_, le_refl 1, ?_⟩
  · intro i hi
    simp at hi
  · intro i h1 h2
    simp [init6] at h2
    omega
  · intro i hi
    simp at hi
  · intro i h1
    show (if i = 0 then _ else zeroSlot).refcount = _
    rw [if_neg (by omega : ¬ i = 0)]
    rfl
  · intro l hl
    simp [init6] at hl
  · intro l hl
    simp [init6] at hl

/-- A nodup chain that covers 1..n-1 exactly has n-1 elements. -/
theorem chain_len_eq (L : List Nat) (n : Nat) (hnd : L.Nodup)
    (hb : ∀ i ∈ L, 1 ≤ i ∧ i < n) (hcov : ∀ i, 1 ≤ i → i < n → i ∈ L)
    (hn : 1 ≤ n) : L.length = n - 1 := by
  have hset : L.toFinset = (Finset.range n).erase 0 := by
    ext i
    simp only [List.mem_toFinset, Finset.mem_erase, Finset.mem_range]
    constructor
    · intro hi
      have := hb i hi
      omega
    · rintro ⟨h0, hlt⟩
      exact hcov i (by omega) hlt
  have hcard : L.toFinset.card = L.length := List.toFinset_card_of_nodup hnd
  rw [hset] at hcard
  rw [Finset.card_erase_of_mem (Finset.mem_range.mpr (by omega)), Finset.card_range] at hcard
  omega

end B6

namespace B6

/-- C4: a duplicate add returns -EEXIST with the state unchanged; a
remove of an absent prefix returns -ENOENT with the state unchanged. -/
theorem add_remove_error_paths (s : S6) (a m gw : Nat) (port : Int) (a2 m2 : Nat)
    (hdup : (trieFind s.trie (pnorm a m)).isSome = true)
    (habs : trieFind s.trie (pnorm a2 m2) = none) :
    add_route s a m gw port = (-17, s) ∧ remove_route s a2 m2 = (-2, s) := by
  constructor
  · obtain ⟨x, hx⟩ := Option.isSome_iff_exists.mp hdup
    simp [add_route, hx]
  · simp [remove_route, habs]

theorem add_remove_error_paths_witness :
    ((trieFind (add_route init6 2048 65280 7 3).2.trie (pnorm 2048 65280)).isSome = true ∧
     trieFind (add_route init6 2048 65280 7 3).2.trie (pnorm 1 255) = none) ∧
    (add_route (add_route init6 2048 65280 7 3).2 2048 65280 9 4 =
        (-17, (add_route init6 2048 65280 7 3).2) ∧
     remove_route (add_route init6 2048 65280 7 3).2 1 255 =
        (-2, (add_route init6 2048 65280 7 3).2)) :=
  ⟨⟨by decide, by decide⟩,
    add_remove_error_paths (add_route init6 2048 65280 7 3).2 2048 65280 9 4 1 255
      (by decide) (by decide)⟩

end B6

namespace B6

/-- C5: nexthop_ref has no capacity check: with all VPORTS_MAX slots
allocated (allocation bound 8192, empty free list) and no live entry
matching (gw, port), it does not fail -- it returns handle VPORTS_MAX,
one past the table, and pushes the allocation bound beyond the
capacity (the source runs `return _nexthop_tbl_size++` unconditionally,
bsdip6lookup.cc:297). -/
theorem nexthop_ref_capacity_overrun (s : S6) (gw : Nat) (port : Int)
    (hsize : s.size = VPORTS_MAX)
    (hnomatch : findNh s.tbl gw port s.size s.head < 0)
    (hnoempty : s.emptyHead < 0) :
    (nexthop_ref s gw port).1 = VPORTS_MAX ∧
    (nexthop_ref s gw port).2.size = VPORTS_MAX + 1 := by
  simp only [nexthop_ref]
  rw [if_neg (by omega : ¬ 0 ≤ findNh s.tbl gw port s.size s.head),
    if_neg (by omega : ¬ 0 ≤ s.emptyHead)]
  refine ⟨?_, ?_⟩ <;> dsimp only
  · exact hsize
  · rw [if_neg (by omega : ¬ 0 ≤ s.emptyHead)]
    dsimp only
    rw [hsize]

theorem nexthop_ref_capacity_overrun_witness :
    (b6FullState.size = VPORTS_MAX ∧
     findNh b6FullState.tbl 9 9 b6FullState.size b6FullState.head < 0 ∧
     b6FullState.emptyHead < 0) ∧
    ((nexthop_ref b6FullState 9 9).1 = VPORTS_MAX ∧
     (nexthop_ref b6FullState 9 9).2.size = VPORTS_MAX + 1) :=
  ⟨⟨by decide, by decide, by decide⟩,
    nexthop_ref_capacity_overrun b6FullState 9 9 (by decide) (by decide) (by decide)⟩

/-- C6: in every state reachable through add_route, remove_route and
flush_table, the number of non-default trie leaves equals the sum of the
refcounts of the live nexthop slots. -/
theorem leafcount_eq_refsum (s : S6) (h : Reachable s) :
    (leafCnt s : Int) = refSum s := by
  obtain ⟨L, E, hwf⟩ := reachable_wf s h
  exact wf_leafcnt s L E hwf

theorem leafcount_eq_refsum_witness :
    (leafCnt (add_route init6 2048 65280 7 3).2 : Int) =
      refSum (add_route init6 2048 65280 7 3).2 :=
  leafcount_eq_refsum (add_route init6 2048 65280 7 3).2
    (Reachable.add init6 2048 65280 7 3 Reachable.init)

end B6

namespace B6

theorem nodup_length_le (L1 L : List Nat) (hnd : L1.Nodup) (hsub : ∀ x ∈ L1, x ∈ L) :
    L1.length ≤ L.length := by
  calc L1.length = L1.toFinset.card := (List.toFinset_card_of_nodup hnd).symm
    _ ≤ L.toFinset.card :=
      Finset.card_le_card (fun x hx => List.mem_toFinset.mpr (hsub x (List.mem_toFinset.mp hx)))
    _ ≤ L.length := L.toFinset_card_le

/-- Bound on the handle nexthop_ref returns: with at most 4094 live
entries and the allocation bound at most 4096, the returned handle fits
in 12 bits. -/
theorem ref_handle_le (s : S6) (L E : List Nat) (gw : Nat) (port : Int)
    (nh2 : Nat) (s2 : S6) (heq : nexthop_ref s gw port = (nh2, s2))
    (hL : dchain s.tbl (-1) s.head L) (hE : schain s.tbl s.emptyHead E)
    (hnd : (L ++ E).Nodup) (hb : ∀ i ∈ L ++ E, 1 ≤ i ∧ i < s.size)
    (hcov : ∀ i, 1 ≤ i → i < s.size → i ∈ L ∨ i ∈ E)
    (hcnt : s.nexthops = (L.length : Int)) (hsz : 1 ≤ s.size)
    (hERef : ∀ i ∈ E, (s.tbl i).refcount = 0)
    (hFresh : ∀ i, s.size ≤ i → (s.tbl i).refcount = 0)
    (hsz4 : s.size ≤ 4096) (hlen : L.length ≤ 4094) : nh2 ≤ 4095 := by
  obtain ⟨L', E', -, -, -, -, -, -, -, -, -, -, -, -, hcase, hlt, -⟩ :=
    nexthop_ref_spec s L E gw port nh2 s2 heq hL hE hnd hb hcov hcnt hsz hERef hFresh
  rcases hcase with hsame | ⟨-, hnh, hEnil⟩
  · rw [hsame] at hlt
    omega
  · subst hEnil
    have hlen1 : L.length = s.size - 1 := by
      refine chain_len_eq L s.size ?_ ?_ ?_ hsz
      · simpa using hnd
      · intro i hi
        exact hb i (List.mem_append_left [] hi)
      · intro i h1 h2
        rcases hcov i h1 h2 with hh | hh
        · exact hh
        · simp at hh
    omega

end B6

/-- DXRIPLookup::add_route through the backend call, with the pair
projected (the let-destructuring of dxriplookup.cc:829 unfolded). -/
theorem dxr_add_route_eq (s : B6.S6) (a m gw : Nat) (port : Int) (set : Bool) :
    Dxr.add_route s a m gw port set =
      (if 0 ≤ (Dxr.bsd4AddRoute s a m gw port set).1 then
        if (Dxr.bsd4AddRoute s a m gw port set).1 ≤ (Dxr.FRAG_MAX : Int) then
          Dxr.AddResult.ok
        else Dxr.AddResult.assertFail
       else Dxr.AddResult.err (Dxr.bsd4AddRoute s a m gw port set).1,
       (Dxr.bsd4AddRoute s a m gw port set).2) := by
  rcases hp : Dxr.bsd4AddRoute s a m gw port set with ⟨nh, s2⟩
  simp only [Dxr.add_route, hp]
  split_ifs <;> rfl

/-- C10: the assertion `nh <= FRAG_MAX` in DXRIPLookup::add_route
(dxriplookup.cc:831): a backend handle above FRAG_MAX = 4095 fails the
assertion, and under the precondition that fewer than 4096 distinct
nexthops are in use (live entries incl. the default below 4096, slot
bound within the 4096 assertable handles) the assertion never fails. -/
theorem dxr_add_route_frag_assert (s : B6.S6) (L E : List Nat) (a m gw : Nat)
    (port : Int) (set : Bool) (h : B6.WF s L E)
    (hsz4 : s.size ≤ Dxr.FRAG_MAX + 1)
    (hlive : s.nexthops + 1 < 4096) :
    (∀ nh s', Dxr.bsd4AddRoute s a m gw port set = (nh, s') →
      (Dxr.FRAG_MAX : Int) < nh →
      (Dxr.add_route s a m gw port set).1 = Dxr.AddResult.assertFail) ∧
    (Dxr.add_route s a m gw port set).1 ≠ Dxr.AddResult.assertFail := by
  have hF : Dxr.FRAG_MAX = 4095 := by decide
  have hFi : (Dxr.FRAG_MAX : Int) = 4095 := by rw [hF]; norm_num
  constructor
  · intro nh s' hpair hgt
    rw [dxr_add_route_eq, hpair]
    dsimp only
    rw [hFi] at hgt
    rw [if_pos (by omega : (0 : Int) ≤ nh), if_neg (by rw [hFi]; omega)]
  · obtain ⟨hERef, hFresh⟩ := B6.wf_eref s L E h
    have hlenL : L.length ≤ 4094 := by
      have hcl := h.cntL
      omega
    cases hfind : B6.trieFind s.trie (B6.pnorm a m) with
    | some oldNh =>
      cases set with
      | false =>
        have hv : (Dxr.bsd4AddRoute s a m gw port false).1 = (-17 : Int) := by
          simp [Dxr.bsd4AddRoute, hfind]
        rw [dxr_add_route_eq]
        dsimp only
        rw [hv, if_neg (by omega : ¬ (0 : Int) ≤ -17)]
        decide
      | true =>
        by_cases hm : m = 0
        · subst hm
          have hv : (Dxr.bsd4AddRoute s a 0 gw port true).1 = (0 : Int) := by
            simp [Dxr.bsd4AddRoute, hfind]
          rw [dxr_add_route_eq]
          dsimp only
          rw [hv, if_pos (by omega : (0 : Int) ≤ 0), if_pos (by rw [hFi]; omega)]
          decide
        · rcases hu : B6.nexthop_unref s oldNh with ⟨r1, s1⟩
          rcases hr : B6.nexthop_ref s1 gw port with ⟨nh2, s2⟩
          have hv : (Dxr.bsd4AddRoute s a m gw port true).1 = (nh2 : Int) := by
            simp [Dxr.bsd4AddRoute, hfind, hm, hu, hr]
          have hleaf := B6.trieFind_some_mem (B6.pnorm a m) s.trie oldNh hfind
          have hnh0 : oldNh ≠ 0 := fun hc => hm ((h.leafIn _ hleaf).1.mp hc)
          have hmemL : oldNh ∈ L := (h.leafIn _ hleaf).2 hnh0
          obtain ⟨L1, E1, hL1, hE1, hnd1, hb1, hcov1, hsz1, htrie1, hpfx1, hcnt1, -,
            hkeep1, -, -, hERef1, -, hdisj1⟩ :=
            B6.nexthop_unref_spec s L E oldNh r1 s1 hu h.hL h.hE h.nodup h.bounds
              h.cover h.cntL hERef h.liveRef hmemL
          have hFresh1 : ∀ i, s1.size ≤ i → (s1.tbl i).refcount = 0 := by
            intro i hi
            rw [hsz1] at hi
            have hne : i ≠ oldNh := by
              have := h.bounds oldNh (List.mem_append_left E hmemL)
              omega
            rw [hkeep1 i hne]
            exact hFresh i hi
          have hlen1 : L1.length ≤ 4094 := by
            rcases hdisj1 with ⟨-, hLeq, -⟩ | ⟨-, -, hiff⟩
            · rw [hLeq]
              exact hlenL
            · have hsub : ∀ x ∈ L1, x ∈ L := fun x hx => ((hiff x).mp hx).1
              exact le_trans
                (B6.nodup_length_le L1 L (List.Nodup.of_append_left hnd1) hsub) hlenL
          have hbound := B6.ref_handle_le s1 L1 E1 gw port nh2 s2 hr hL1 hE1 hnd1
            hb1 hcov1 hcnt1 (by rw [hsz1]; exact h.sizePos) hERef1 hFresh1
            (by rw [hsz1]; omega) hlen1
          rw [dxr_add_route_eq]
          dsimp only
          rw [hv, if_pos (Int.natCast_nonneg nh2),
            if_pos (by rw [hFi]; exact_mod_cast hbound)]
          decide
    | none =>
      by_cases hm : m = 0
      · subst hm
        have hv : (Dxr.bsd4AddRoute s a 0 gw port set).1 = (0 : Int) := by
          simp [Dxr.bsd4AddRoute, hfind]
        rw [dxr_add_route_eq]
        dsimp only
        rw [hv, if_pos (by omega : (0 : Int) ≤ 0), if_pos (by rw [hFi]; omega)]
        decide
      · rcases hr : B6.nexthop_ref s gw port with ⟨nh2, s2⟩
        have hv : (Dxr.bsd4AddRoute s a m gw port set).1 = (nh2 : Int) := by
          simp [Dxr.bsd4AddRoute, hfind, hm, hr]
        have hbound := B6.ref_handle_le s L E gw port nh2 s2 hr h.hL h.hE h.nodup
          h.bounds h.cover h.cntL h.sizePos hERef hFresh (by omega) hlenL
        rw [dxr_add_route_eq]
        dsimp only
        rw [hv, if_pos (Int.natCast_nonneg nh2),
          if_pos (by rw [hFi]; exact_mod_cast hbound)]
        decide

theorem dxr_add_route_frag_assert_witness :
    ((∀ nh s', Dxr.bsd4AddRoute B6.init6 2048 65280 7 3 false = (nh, s') →
        (Dxr.FRAG_MAX : Int) < nh →
        (Dxr.add_route B6.init6 2048 65280 7 3 false).1 = Dxr.AddResult.assertFail) ∧
      (Dxr.add_route B6.init6 2048 65280 7 3 false).1 ≠ Dxr.AddResult.assertFail) :=
  dxr_add_route_frag_assert B6.init6 [] [] 2048 65280 7 3 false B6.wf_init6
    (by decide) (by decide)

namespace B6

theorem keyLtB_irrefl (k : Pfx) : keyLtB k k = false := by
  simp [keyLtB]

theorem trieFind_insert (k : Pfx) (nh : Nat) :
    ∀ trie : List Leaf, trieFind (trieInsert k nh trie) k = some nh := by
  intro trie
  induction trie with
  | nil => simp [trieInsert, trieFind]
  | cons l rest ih =>
    rw [trieInsert]
    by_cases hlt : keyLtB l.key k
    · rw [if_pos hlt, trieFind, if_neg ?_]
      · exact ih
      · intro hc
        rw [hc, keyLtB_irrefl] at hlt
        exact absurd hlt (by simp)
    · rw [if_neg hlt]
      show trieFind (⟨k, nh⟩ :: l :: rest) k = some nh
      rw [trieFind, if_pos rfl]

theorem trieMatch_mem (x : Nat) :
    ∀ (trie : List Leaf) (l : Leaf), trieMatch trie x = some l → l ∈ trie := by
  have haux : ∀ (trie : List Leaf) (acc : Option Leaf) (l : Leaf),
      trie.foldl
        (fun acc l =>
          if x &&& l.key.mask = l.key.addr then
            match acc with
            | none => some l
            | some b => if l.key.mask > b.key.mask then some l else acc
          else acc)
        acc = some l →
      acc = some l ∨ l ∈ trie := by
    intro trie
    induction trie with
    | nil => intro acc l h; exact Or.inl h
    | cons r rest ih =>
      intro acc l h
      rw [List.foldl_cons] at h
      rcases ih _ l h with hacc | hmem
      · by_cases hc : x &&& r.key.mask = r.key.addr
        · rw [if_pos hc] at hacc
          match acc, hacc with
          | none, hacc =>
            have hacc2 : some r = some l := hacc
            injection hacc2 with h'
            exact Or.inr (h' ▸ List.mem_cons_self r rest)
          | some b, hacc =>
            have hacc2 : (if r.key.mask > b.key.mask then some r else some b) = some l :=
              hacc
            by_cases hgt : r.key.mask > b.key.mask
            · rw [if_pos hgt] at hacc2
              injection hacc2 with h'
              exact Or.inr (h' ▸ List.mem_cons_self r rest)
            · rw [if_neg hgt] at hacc2
              exact Or.inl hacc2
        · rw [if_neg hc] at hacc
          exact Or.inl hacc
      · exact Or.inr (List.mem_cons_of_mem r hmem)
  intro trie l h
  simp only [trieMatch] at h
  rcases haux trie none l h with hacc | hmem
  · exact absurd hacc (by simp)
  · exact hmem

theorem nexthop_ref_trie (s : S6) (gw : Nat) (port : Int) :
    (nexthop_ref s gw port).2.trie = s.trie := by
  simp only [nexthop_ref]
  split_ifs <;> rfl

theorem nexthop_unref_trie (s : S6) (i : Nat) :
    (nexthop_unref s i).2.trie = s.trie := by
  rw [nexthop_unref_eq]
  split_ifs <;> rfl

theorem dchain_head_facts (t : Nat → Nexthop) (c : Int) (L : List Nat)
    (h : dchain t (-1) c L) (hc : 0 ≤ c) :
    (t c.toNat).ll_prev = -1 ∧ c.toNat ∈ L := by
  match L, h with
  | [], h =>
    have h2 : c = -1 := h
    omega
  | x :: L', h =>
    obtain ⟨hcx, hprev, -⟩ := h
    subst hcx
    rw [Int.toNat_natCast]
    exact ⟨hprev, List.mem_cons_self x L'⟩

end B6

namespace B6

theorem add_route_default_eq (s : S6) (a gw : Nat) (port : Int)
    (hfind : trieFind s.trie (pnorm a 0) = none) :
    (add_route s a 0 gw port).2 = { s with
      trie := trieInsert (pnorm a 0) 0 s.trie,
      tbl := updTbl s.tbl 0 ({ s.tbl 0 with gw := gw, port := port }),
      pfxCnt := s.pfxCnt + 1 } := by
  simp [add_route, hfind]

theorem add_route_nd_eq (s : S6) (a m gw : Nat) (port : Int) (hm : m ≠ 0)
    (hfind : trieFind s.trie (pnorm a m) = none) (nh1 : Nat) (s1 : S6)
    (hr : nexthop_ref s gw port = (nh1, s1)) :
    (add_route s a m gw port).2 =
      { s1 with trie := trieInsert (pnorm a m) nh1 s1.trie,
                pfxCnt := s1.pfxCnt + 1 } := by
  simp only [add_route, hfind, if_neg hm, hr]

theorem remove_route_default_eq (s : S6) (a : Nat) (nh : Nat)
    (hfind : trieFind s.trie (pnorm a 0) = some nh) :
    (remove_route s a 0).2 = { s with
      trie := trieDel (pnorm a 0) s.trie,
      tbl := updTbl s.tbl 0 ({ s.tbl 0 with gw := 0, port := -1 }),
      pfxCnt := s.pfxCnt - 1 } := by
  simp [remove_route, hfind]

theorem remove_route_nd_eq (s : S6) (a m : Nat) (nh : Nat) (hm : m ≠ 0)
    (hfind : trieFind s.trie (pnorm a m) = some nh) (r2 : Int) (s2 : S6)
    (hr : nexthop_unref ({ s with trie := trieDel (pnorm a m) s.trie }) nh = (r2, s2)) :
    (remove_route s a m).2 = { s2 with pfxCnt := s2.pfxCnt - 1 } := by
  simp only [remove_route, hfind, if_neg hm, hr]

theorem nexthop_ref_found_eq (s : S6) (gw : Nat) (port : Int)
    (hf : 0 ≤ findNh s.tbl gw port s.size s.head) :
    nexthop_ref s gw port = ((findNh s.tbl gw port s.size s.head).toNat,
      { s with tbl := (updTbl s.tbl (findNh s.tbl gw port s.size s.head).toNat
          ({ s.tbl (findNh s.tbl gw port s.size s.head).toNat with
              refcount := (s.tbl (findNh s.tbl gw port s.size s.head).toNat).refcount + 1 })) }) := by
  simp only [nexthop_ref, if_pos hf]

theorem nexthop_ref_alloc_eq (s : S6) (gw : Nat) (port : Int)
    (hf : ¬ 0 ≤ findNh s.tbl gw port s.size s.head) :
    nexthop_ref s gw port =
      ((if 0 ≤ s.emptyHead then s.emptyHead.toNat else s.size),
       { s with
          size := if 0 ≤ s.emptyHead then s.size else s.size + 1,
          emptyHead := if 0 ≤ s.emptyHead then (s.tbl s.emptyHead.toNat).ll_next
            else s.emptyHead,
          tbl :=
            (if 0 ≤ s.head then
              updTbl
                (updTbl s.tbl
                  (if 0 ≤ s.emptyHead then s.emptyHead.toNat else s.size)
                  ⟨gw, port, 1, s.head, -1⟩)
                s.head.toNat
                ({ updTbl s.tbl
                    (if 0 ≤ s.emptyHead then s.emptyHead.toNat else s.size)
                    ⟨gw, port, 1, s.head, -1⟩ s.head.toNat with
                    ll_prev :=
                      ((if 0 ≤ s.emptyHead then s.emptyHead.toNat else s.size : Nat) : Int) })
            else
              updTbl s.tbl
                (if 0 ≤ s.emptyHead then s.emptyHead.toNat else s.size)
                ⟨gw, port, 1, s.head, -1⟩),
          head := ((if 0 ≤ s.emptyHead then s.emptyHead.toNat else s.size : Nat) : Int),
          nexthops := s.nexthops + 1 }) := by
  simp only [nexthop_ref, if_neg hf]
  split_ifs <;> rfl

end B6

namespace B6

/-- C8: adding an absent route and removing it again yields a state whose
dump_routes output and lookup_route results agree with the original state
everywhere. -/
theorem add_remove_roundtrip (s : S6) (L E : List Nat) (a m gw : Nat) (port : Int)
    (h : WF s L E) (habs : trieFind s.trie (pnorm a m) = none) :
    dump_routes (remove_route (add_route s a m gw port).2 a m).2 = dump_routes s ∧
    (∀ x, lookup_route (remove_route (add_route s a m gw port).2 a m).2 x =
      lookup_route s x) := by
  have hnone : ∀ l ∈ s.trie, l.key ≠ pnorm a m :=
    (trieFind_eq_none (pnorm a m) s.trie).mp habs
  suffices hobs : (remove_route (add_route s a m gw port).2 a m).2.trie = s.trie ∧
      (∀ l ∈ s.trie,
        (remove_route (add_route s a m gw port).2 a m).2.tbl l.nh = s.tbl l.nh) by
    obtain ⟨htr, htb⟩ := hobs
    constructor
    · simp only [dump_routes, htr]
      exact List.map_congr_left (fun l hl => by rw [htb l hl])
    · intro x
      simp only [lookup_route, htr]
      cases hmatch : trieMatch s.trie x with
      | none => rfl
      | some l =>
        dsimp only
        rw [htb l (trieMatch_mem x s.trie l hmatch)]
  by_cases hm : m = 0
  · subst hm
    have hnh : ∀ l ∈ s.trie, l.nh ≠ 0 := by
      intro l hl hc
      have hmask : l.key.mask = 0 := (h.leafIn l hl).1.mp hc
      have haddr : l.key.addr = 0 := by
        have hn := h.norm l hl
        rw [hmask, Nat.and_zero] at hn
        exact hn
      refine hnone l hl ?_
      have hkey : l.key = (⟨0, 0⟩ : Pfx) := by
        calc l.key = ⟨l.key.addr, l.key.mask⟩ := rfl
          _ = ⟨0, 0⟩ := by rw [haddr, hmask]
      have hp0 : pnorm a 0 = (⟨0, 0⟩ : Pfx) := by simp [pnorm]
      rw [hkey, hp0]
    rw [add_route_default_eq s a gw port habs]
    have hfind2 : trieFind (trieInsert (pnorm a 0) 0 s.trie) (pnorm a 0) = some 0 :=
      trieFind_insert (pnorm a 0) 0 s.trie
    rw [remove_route_default_eq _ a 0 hfind2]
    constructor
    · show trieDel (pnorm a 0) (trieInsert (pnorm a 0) 0 s.trie) = s.trie
      exact trieDel_insert (pnorm a 0) 0 s.trie hnone
    · intro l hl
      dsimp only
      rw [updTbl_other _ _ _ _ (hnh l hl), updTbl_other _ _ _ _ (hnh l hl)]
  · rcases href : nexthop_ref s gw port with ⟨nh1, s1⟩
    rw [add_route_nd_eq s a m gw port hm habs nh1 s1 href]
    by_cases hf : 0 ≤ findNh s.tbl gw port s.size s.head
    · -- existing entry: refcount bumped then restored
      have hfe := nexthop_ref_found_eq s gw port hf
      rw [href] at hfe
      injection hfe with hnh1 hs1
      have hmem1 : nh1 ∈ L := by
        rw [hnh1]
        exact (findNh_mem s.tbl gw port s.size L (-1) s.head h.hL hf).1
      have hrc : 0 < (s.tbl nh1).refcount := h.liveRef nh1 hmem1
      have hs1tbl : s1.tbl = updTbl s.tbl nh1
          ({ s.tbl nh1 with refcount := (s.tbl nh1).refcount + 1 }) := by
        rw [hs1, hnh1]
      have hs1trie : s1.trie = s.trie := by rw [hs1]
      have hfind2 : trieFind (trieInsert (pnorm a m) nh1 s1.trie) (pnorm a m) =
          some nh1 := trieFind_insert (pnorm a m) nh1 s1.trie
      rcases hu : nexthop_unref ({ ({ s1 with
          trie := trieInsert (pnorm a m) nh1 s1.trie,
          pfxCnt := s1.pfxCnt + 1 } : S6) with
          trie := trieDel (pnorm a m) (trieInsert (pnorm a m) nh1 s1.trie) }) nh1
        with ⟨r2, s2⟩
      rw [remove_route_nd_eq _ a m nh1 hm hfind2 r2 s2 hu]
      rw [nexthop_unref_eq] at hu
      dsimp only at hu
      have hne : ¬((s1.tbl nh1).refcount - 1 = 0) := by
        rw [hs1tbl, updTbl_same]
        dsimp only
        omega
      rw [if_neg hne] at hu
      injection hu with hr2 hs2
      constructor
      · show s2.trie = s.trie
        rw [← hs2]
        show trieDel (pnorm a m) (trieInsert (pnorm a m) nh1 s1.trie) = s.trie
        rw [trieDel_insert (pnorm a m) nh1 s1.trie (by rw [hs1trie]; exact hnone),
          hs1trie]
      · intro l hl
        show s2.tbl l.nh = s.tbl l.nh
        rw [← hs2]
        show (updTbl s1.tbl nh1
          ({ s1.tbl nh1 with refcount := (s1.tbl nh1).refcount - 1 })) l.nh = s.tbl l.nh
        by_cases hln : l.nh = nh1
        · rw [hln, updTbl_same, hs1tbl, updTbl_same]
          dsimp only
          have harith : (s.tbl nh1).refcount + 1 - 1 = (s.tbl nh1).refcount := by omega
          rw [harith]
        · rw [updTbl_other _ _ _ _ hln, hs1tbl, updTbl_other _ _ _ _ hln]
    · -- fresh or recycled slot: linked in, then unlinked again
      obtain ⟨hERef, hFresh⟩ := wf_eref s L E h
      have hfe := nexthop_ref_alloc_eq s gw port hf
      rw [href] at hfe
      injection hfe with hnh1 hs1
      have hs1tbl : s1.tbl =
          (if 0 ≤ s.head then
            updTbl (updTbl s.tbl nh1 ⟨gw, port, 1, s.head, -1⟩) s.head.toNat
              ({ updTbl s.tbl nh1 ⟨gw, port, 1, s.head, -1⟩ s.head.toNat with
                  ll_prev := (nh1 : Int) })
          else updTbl s.tbl nh1 ⟨gw, port, 1, s.head, -1⟩) := by
        rw [hs1, hnh1]
      have hs1trie : s1.trie = s.trie := by rw [hs1]
      have hiL : nh1 ∉ L := by
        by_cases hEmp : 0 ≤ s.emptyHead
        · have hmemE : nh1 ∈ E := by
            match E, h.hE with
            | [], hE =>
              have h2 : s.emptyHead = -1 := hE
              omega
            | e :: E', hE =>
              have h2 : s.emptyHead = (e : Int) := hE.1
              rw [hnh1, if_pos hEmp, h2, Int.toNat_natCast]
              exact List.mem_cons_self e E'
          exact fun hc => (List.nodup_append.mp h.nodup).2.2 hc hmemE
        · rw [hnh1, if_neg hEmp]
          intro hc
          have := h.bounds s.size (List.mem_append_left E hc)
          omega
      have hrc0 : (s.tbl nh1).refcount = 0 := by
        by_cases hEmp : 0 ≤ s.emptyHead
        · refine hERef nh1 ?_
          match E, h.hE with
          | [], hE =>
            have h2 : s.emptyHead = -1 := hE
            omega
          | e :: E', hE =>
            have h2 : s.emptyHead = (e : Int) := hE.1
            rw [hnh1, if_pos hEmp, h2, Int.toNat_natCast]
            exact List.mem_cons_self e E'
        · rw [hnh1, if_neg hEmp]
          exact hFresh s.size (le_refl _)
      have hi1 : 1 ≤ nh1 := by
        by_cases hEmp : 0 ≤ s.emptyHead
        · match E, h.hE with
          | [], hE =>
            have h2 : s.emptyHead = -1 := hE
            omega
          | e :: E', hE =>
            have h2 : s.emptyHead = (e : Int) := hE.1
            have hmemE : e ∈ e :: E' := List.mem_cons_self e E'
            have := (h.bounds e (List.mem_append_right L hmemE)).1
            rw [hnh1, if_pos hEmp, h2, Int.toNat_natCast]
            exact this
        · rw [hnh1, if_neg hEmp]
          exact h.sizePos
      have hcr : countRefs s.trie nh1 = 0 := by
        have := h.refAcc nh1 hi1
        rw [hrc0] at this
        exact_mod_cast this.symm
      have hhdL : 0 ≤ s.head → s.head.toNat ∈ L := fun hh =>
        (dchain_head_facts s.tbl s.head L h.hL hh).2
      have hphd : 0 ≤ s.head → (s.tbl s.head.toNat).ll_prev = -1 := fun hh =>
        (dchain_head_facts s.tbl s.head L h.hL hh).1
      have hihd : ∀ _ : 0 ≤ s.head, nh1 ≠ s.head.toNat := fun hh hc =>
        hiL (hc ▸ hhdL hh)
      have ht2i : s1.tbl nh1 = ⟨gw, port, 1, s.head, -1⟩ := by
        rw [hs1tbl]
        by_cases hh : 0 ≤ s.head
        · rw [if_pos hh, updTbl_other _ _ _ _ (hihd hh), updTbl_same]
        · rw [if_neg hh, updTbl_same]
      have hfind2 : trieFind (trieInsert (pnorm a m) nh1 s1.trie) (pnorm a m) =
          some nh1 := trieFind_insert (pnorm a m) nh1 s1.trie
      rcases hu : nexthop_unref ({ ({ s1 with
          trie := trieInsert (pnorm a m) nh1 s1.trie,
          pfxCnt := s1.pfxCnt + 1 } : S6) with
          trie := trieDel (pnorm a m) (trieInsert (pnorm a m) nh1 s1.trie) }) nh1
        with ⟨r2, s2⟩
      rw [remove_route_nd_eq _ a m nh1 hm hfind2 r2 s2 hu]
      rw [nexthop_unref_eq] at hu
      dsimp only at hu
      have hz : (s1.tbl nh1).refcount - 1 = 0 := by
        rw [ht2i]
        dsimp only
        decide
      rw [if_pos hz] at hu
      injection hu with hr2 hs2
      constructor
      · show s2.trie = s.trie
        rw [← hs2]
        show trieDel (pnorm a m) (trieInsert (pnorm a m) nh1 s1.trie) = s.trie
        rw [trieDel_insert (pnorm a m) nh1 s1.trie (by rw [hs1trie]; exact hnone),
          hs1trie]
      · intro l hl
        have hlnh : l.nh ≠ nh1 := fun hc =>
          countRefs_mem_pos s.trie l nh1 hl hc hcr
        show s2.tbl l.nh = s.tbl l.nh
        rw [← hs2]
        show (unrefTbl s1.tbl nh1 _) l.nh = s.tbl l.nh
        rw [unrefTbl_at_j s1.tbl nh1 _ l.nh hlnh, ht2i]
        dsimp only
        have hc1 : ¬((0 : Int) ≤ -1 ∧ l.nh = (-1 : Int).toNat) := fun hc => by
          have := hc.1
          omega
        rw [if_neg hc1]
        by_cases hh : 0 ≤ s.head
        · by_cases hlh : l.nh = s.head.toNat
          · have hcc : 0 ≤ s.head ∧ l.nh = s.head.toNat := ⟨hh, hlh⟩
            rw [if_pos hcc, hlh, hs1tbl, if_pos hh, updTbl_same,
              updTbl_other _ _ _ _ (Ne.symm (hihd hh))]
            dsimp only
            rw [← hphd hh]
          · have hcc : ¬(0 ≤ s.head ∧ l.nh = s.head.toNat) := fun hc => hlh hc.2
            rw [if_neg hcc]
            show s1.tbl l.nh = s.tbl l.nh
            rw [hs1tbl, if_pos hh, updTbl_other _ _ _ _ hlh,
              updTbl_other _ _ _ _ hlnh]
        · have hcc : ¬(0 ≤ s.head ∧ l.nh = s.head.toNat) := fun hc => hh hc.1
          rw [if_neg hcc]
          show s1.tbl l.nh = s.tbl l.nh
          rw [hs1tbl, if_neg hh, updTbl_other _ _ _ _ hlnh]

end B6

namespace B6

theorem add_remove_roundtrip_witness :
    trieFind init6.trie (pnorm 2048 65280) = none ∧
    (dump_routes (remove_route (add_route init6 2048 65280 7 3).2 2048 65280).2 =
        dump_routes init6 ∧
      (∀ x, lookup_route (remove_route (add_route init6 2048 65280 7 3).2 2048 65280).2 x =
        lookup_route init6 x)) :=
  ⟨by decide, add_remove_roundtrip init6 [] [] 2048 65280 7 3 wf_init6 (by decide)⟩

end B6
